import Mathlib

/-!
# DictaMed: submission pipeline and payload validation

A shallow embedding of `src/config.js`, `src/utils.js`, `src/api-manager.js` and, of
`src/script.js`, the submission path and the recording session.

Conventions of the embedding:

* a JavaScript value that is either `undefined` or a string is an `Option String`;
  it is falsy exactly when it is `none` or `some ""`;
* a thrown exception is the `Except.error` of a `JsError` (its `name` and `message`);
* an `async` function is run to completion: everything outside the program (the
  network, the clock, the random identifiers, the browser) is read from an `Env`,
  everything the program changes or emits is threaded through an explicit state.
-/

namespace DictaMed

/-! ## config.js -/

namespace CONFIG

def VERSION : String := "8.0.0"

namespace API

def NORMAL_MODE : String := "https://n8n.srv1104707.hstgr.cloud/webhook/DictaMedNormalMode"

def TEST_MODE : String := "https://n8n.srv1104707.hstgr.cloud/webhook/DictaMed"

/-- Per-attempt timeout in milliseconds. -/
def TIMEOUT : Nat := 30000

def RETRY_ATTEMPTS : Int := 3

/-- Delay between two attempts in milliseconds. -/
def RETRY_DELAY : Nat := 1000

end API

namespace AUTO_SAVE

def INTERVAL : Nat := 30000

def DEBOUNCE_DELAY : Nat := 2000

/-- Age in milliseconds past which a stored state is dropped. -/
def EXPIRATION : Int := 24 * 60 * 60 * 1000

def STORAGE_KEY : String := "dictamed_autosave"

end AUTO_SAVE

end CONFIG

/-! ## JavaScript values and errors -/

/-- An exception object: `error.name` and `error.message`. -/
structure JsError where
  name : String
  message : String
deriving DecidableEq, Repr

/-- The object built by `new Error(message)`: its `name` is `"Error"`. -/
def JsError.ofMessage (message : String) : JsError := ⟨"Error", message⟩

/-- Truthiness of a value that is `undefined` or a string: `!v` is `!(truthy v)`. -/
def truthy : Option String → Bool
  | none => false
  | some s => s != ""

/-! ## The browser: responses and the outcome of one `fetch` -/

/-- The result of `response.json()`: the parsed body, or the message of the
`SyntaxError` the promise rejects with. -/
inductive JsonBody
  | parsed (value : String)
  | invalid (message : String)
deriving DecidableEq, Repr

/-- What the program reads of a `Response`: `status`, `statusText` and the result of
`response.json()`. -/
structure Response where
  status : Nat
  statusText : String
  json : JsonBody
deriving DecidableEq, Repr

/-- The `ok` flag of a response: the status is in the range 200-299. -/
def Response.ok (r : Response) : Bool := decide (200 ≤ r.status) && decide (r.status ≤ 299)

/-- How one call of `fetch(url, options)` settles. -/
inductive FetchOutcome
  /-- the promise resolves with a response (of any status) -/
  | responded (r : Response)
  /-- the promise rejects with a `TypeError` (host unreachable, connection reset, ...) -/
  | networkFailure (message : String)
  /-- the `CONFIG.API.TIMEOUT` timer fires first and runs `controller.abort()` -/
  | timedOut
  /-- `cancelAllRequests()` runs while the request is in flight -/
  | cancelled
deriving DecidableEq, Repr

/-- The `DOMException` with which `fetch` rejects when its signal is aborted by
`controller.abort()` called without a reason. -/
def abortError : JsError := ⟨"AbortError", "signal is aborted without reason"⟩

/-- Everything outside the program. -/
structure Env where
  /-- `navigator.onLine` -/
  onLine : Bool
  /-- `navigator.userAgent` -/
  userAgent : String
  /-- `new Date().toISOString()` at the time a payload is prepared -/
  timestamp : String
  /-- how the `k`-th call of `fetch` settles (counted from 0) -/
  fetchOutcome : Nat → FetchOutcome
  /-- the value of the `k`-th call of `Utils.generateId()` (counted from 0) -/
  generatedId : Nat → String

/-! ## Data handed to the API manager -/

/-- One entry of `data.sections`. -/
structure SectionData where
  audioBase64 : Option String
  fileName : Option String
  mimeType : Option String
  format : Option String
  duration : Option Nat
  size : Option Nat
deriving DecidableEq, Repr

/-- The `data` object of `sendNormalMode` / `sendTestMode`. `sections` is the list of
`Object.entries(data.sections)` in enumeration order, `none` when the property is absent. -/
structure SubmissionData where
  username : Option String
  accessCode : Option String
  NumeroDeDossier : Option String
  NomDuPatient : Option String
  sections : Option (List (String × SectionData))
deriving DecidableEq, Repr

/-- One entry of `payload.sections` as built by `APIManager.preparePayload`. -/
structure PayloadSection where
  audioBase64 : Option String
  fileName : String
  mimeType : Option String
  format : String
  duration : Nat
  size : Nat
deriving DecidableEq, Repr

/-- The payload built by `APIManager.preparePayload`. A property that is absent or
`undefined` (both are dropped by `JSON.stringify`) is `none`. -/
structure Payload where
  mode : String
  recordedAt : String
  clientVersion : String
  userAgent : String
  NumeroDeDossier : String
  NomDuPatient : String
  username : Option String
  accessCode : Option String
  sections : List (String × PayloadSection)
deriving DecidableEq, Repr

/-! ## utils.js -/

namespace Utils

/-- Serialisation of one character of a text node by `innerHTML` (the HTML fragment
serialisation algorithm, "escaping a string" outside attribute mode). -/
def escapeChar (c : Char) : List Char :=
  if c = '&' then "&amp;".toList
  else if c = Char.ofNat 160 then "&nbsp;".toList
  else if c = '<' then "&lt;".toList
  else if c = '>' then "&gt;".toList
  else [c]

/-- `Utils.sanitize(str)`: `''` for a non-string, otherwise the `innerHTML` of a `div`
whose `textContent` is `str`. -/
def sanitize : Option String → String
  | none => ""
  | some str => String.mk (str.toList.flatMap escapeChar)

end Utils

/-! ## api-manager.js -/

/-- The `options` object of a request. `body` is the payload that `JSON.stringify`
serialises; `signal` names the controller (by its request id) whose signal is attached. -/
structure RequestOptions where
  method : Option String
  headers : List (String × String)
  body : Option Payload
  signal : Option String
deriving DecidableEq, Repr

/-- One recorded call `fetch(url, options)`: the options as they are at the call. -/
structure FetchCall where
  url : String
  options : RequestOptions
deriving DecidableEq, Repr

/-- The `APIManager` instance (`abortControllers`, the keys of the map in insertion
order) together with a trace of what has happened so far. -/
structure ApiState where
  /-- keys of `this.abortControllers` -/
  abortControllers : List String
  /-- request ids whose controller has had `abort()` called -/
  aborted : List String
  /-- calls of `fetch`, oldest first -/
  fetchLog : List FetchCall
  /-- number of calls of `Utils.generateId()` so far -/
  idCalls : Nat
  /-- delays awaited with `Utils.sleep`, oldest first -/
  sleeps : List Nat
deriving DecidableEq, Repr

/-- The value of the header `name` of a recorded call, if it carries one. -/
def FetchCall.header (call : FetchCall) (name : String) : Option String :=
  (call.options.headers.find? (fun h => h.1 == name)).map (fun h => h.2)

def ApiState.init : ApiState := ⟨[], [], [], 0, []⟩

/-- `map.set(key, controller)` on the keys of a `Map`: a key already present keeps its
position. -/
def mapSet (keys : List String) (key : String) : List String :=
  if key ∈ keys then keys else keys ++ [key]

/-- `map.delete(key)` on the keys of a `Map`. -/
def mapDelete (keys : List String) (key : String) : List String :=
  keys.filter (fun k => k != key)

/-- Assignment `obj[key] = value` on the entries of an object: an existing key keeps
its position, a new key is appended. -/
def objSet {α : Type} (entries : List (String × α)) (key : String) (value : α) :
    List (String × α) :=
  if entries.any (fun e => e.1 == key) then
    entries.map (fun e => if e.1 == key then (key, value) else e)
  else entries ++ [(key, value)]

namespace APIManager

/-- `cancelAllRequests()`: abort every registered controller, then clear the map. -/
def cancelAllRequests (s : ApiState) : ApiState :=
  { s with aborted := s.aborted ++ s.abortControllers, abortControllers := [] }

/-- The `await fetch(url, options)` of one attempt, for the controller `requestId`:
the value or exception the `try` block continues with, and the state afterwards. -/
def awaitFetch (outcome : FetchOutcome) (requestId : String) (s : ApiState) :
    Except JsError Response × ApiState :=
  match outcome with
  | .responded r => (.ok r, s)
  | .networkFailure msg => (.error ⟨"TypeError", msg⟩, s)
  | .timedOut => (.error abortError, { s with aborted := s.aborted ++ [requestId] })
  | .cancelled => (.error abortError, cancelAllRequests s)

/-- `fetchWithRetry(url, options, retries)`. -/
def fetchWithRetry (env : Env) (url : String) (options : RequestOptions) (retries : Int)
    (s : ApiState) : Except JsError Response × ApiState :=
  let requestId := env.generatedId s.idCalls
  let s := { s with idCalls := s.idCalls + 1,
                    abortControllers := mapSet s.abortControllers requestId }
  let options := { options with signal := some requestId }
  let outcome := env.fetchOutcome s.fetchLog.length
  let s := { s with fetchLog := s.fetchLog ++ [⟨url, options⟩] }
  let (settled, s) := awaitFetch outcome requestId s
  let s := { s with abortControllers := mapDelete s.abortControllers requestId }
  let tried : Except JsError Response :=
    match settled with
    | .ok response =>
      if !response.ok then
        .error (JsError.ofMessage ("HTTP " ++ toString response.status ++ ": " ++ response.statusText))
      else .ok response
    | .error e => .error e
  match tried with
  | .ok response => (.ok response, s)
  | .error error =>
    if error.name = "AbortError" then
      (.error (JsError.ofMessage "Request timeout"), s)
    else if h : retries ≤ 0 then
      (.error error, s)
    else
      fetchWithRetry env url options (retries - 1)
        { s with sleeps := s.sleeps ++ [CONFIG.API.RETRY_DELAY] }
termination_by retries.toNat
decreasing_by omega

/-- The section checks shared by both validators: the body of
`Object.entries(data.sections).forEach(...)`, which throws at the first offending entry. -/
def validateEachSection : List (String × SectionData) → Except JsError Unit
  | [] => .ok ()
  | (key, sec) :: rest =>
    if !truthy sec.audioBase64 then
      .error (JsError.ofMessage ("Section " ++ key ++ ": audio manquant"))
    else if !truthy sec.mimeType then
      .error (JsError.ofMessage ("Section " ++ key ++ ": type MIME manquant"))
    else validateEachSection rest

/-- `!data.sections || Object.keys(data.sections).length < 3`. -/
def tooFewSections (sections : Option (List (String × SectionData))) : Bool :=
  match sections with
  | none => true
  | some entries => decide (entries.length < 3)

/-- `validateNormalModeData(data)`. -/
def validateNormalModeData (data : SubmissionData) : Except JsError Unit :=
  if !truthy data.username || !truthy data.accessCode then
    .error (JsError.ofMessage "Identifiant et code d\x27accès requis")
  else if !truthy data.NumeroDeDossier || !truthy data.NomDuPatient then
    .error (JsError.ofMessage "Numéro de dossier et nom du patient requis")
  else if tooFewSections data.sections then
    .error (JsError.ofMessage "Au moins 3 sections d\x27enregistrement requises")
  else validateEachSection (data.sections.getD [])

/-- `validateTestModeData(data)`. -/
def validateTestModeData (data : SubmissionData) : Except JsError Unit :=
  if !truthy data.NumeroDeDossier || !truthy data.NomDuPatient then
    .error (JsError.ofMessage "Numéro de dossier et nom du patient requis")
  else if tooFewSections data.sections then
    .error (JsError.ofMessage "Les 3 sections d\x27enregistrement sont requises")
  else validateEachSection (data.sections.getD [])

/-- `a || b` for a value that is `undefined` or a string. -/
def orElseStr (a : Option String) (b : String) : String :=
  match a with
  | some v => if v != "" then v else b
  | none => b

/-- `a || 0` for a value that is `undefined` or a number. -/
def orElseZero (a : Option Nat) : Nat := a.getD 0

/-- The entry written to `payload.sections[key]`. -/
def payloadSection (key : String) (sec : SectionData) : PayloadSection :=
  { audioBase64 := sec.audioBase64
    fileName := orElseStr sec.fileName (key ++ ".mp3")
    mimeType := sec.mimeType
    format := orElseStr sec.format "mp3"
    duration := orElseZero sec.duration
    size := orElseZero sec.size }

/-- `preparePayload(data, mode)`. `Object.entries(data.sections)` throws a `TypeError`
when `data.sections` is absent. -/
def preparePayload (env : Env) (data : SubmissionData) (mode : String) :
    Except JsError Payload :=
  let payload : Payload :=
    { mode := mode
      recordedAt := env.timestamp
      clientVersion := CONFIG.VERSION
      userAgent := env.userAgent
      NumeroDeDossier := Utils.sanitize data.NumeroDeDossier
      NomDuPatient := Utils.sanitize data.NomDuPatient
      username := none
      accessCode := none
      sections := [] }
  let payload :=
    if mode = "normal" then
      { payload with username := some (Utils.sanitize data.username)
                     accessCode := data.accessCode }
    else payload
  match data.sections with
  | none => .error ⟨"TypeError", "Cannot convert undefined or null to object"⟩
  | some entries =>
    .ok { payload with
          sections := entries.foldl
            (fun acc e => objSet acc e.1 (payloadSection e.1 e.2)) payload.sections }

/-- The headers both submission functions pass to `fetchWithRetry`. -/
def submissionHeaders (requestIdHeader : String) : List (String × String) :=
  [("Content-Type", "application/json"),
   ("X-Client-Version", CONFIG.VERSION),
   ("X-Request-ID", requestIdHeader)]

/-- The part of `sendNormalMode` / `sendTestMode` after validation, shared by both but
for the endpoint and the mode: the connection check, the payload, the `try` block with
`fetchWithRetry` and `response.json()`, and the `catch` that wraps the error. -/
def sendValidated (env : Env) (endpoint mode : String) (data : SubmissionData)
    (s : ApiState) : Except JsError String × ApiState :=
  if !env.onLine then
    (.error (JsError.ofMessage "Aucune connexion Internet. Veuillez réessayer plus tard."), s)
  else
    match preparePayload env data mode with
    | .error e => (.error e, s)
    | .ok payload =>
      let requestIdHeader := env.generatedId s.idCalls
      let s := { s with idCalls := s.idCalls + 1 }
      let options : RequestOptions :=
        { method := some "POST"
          headers := submissionHeaders requestIdHeader
          body := some payload
          signal := none }
      match fetchWithRetry env endpoint options CONFIG.API.RETRY_ATTEMPTS s with
      | (.ok response, s) =>
        match response.json with
        | .parsed result => (.ok result, s)
        | .invalid message =>
          (.error (JsError.ofMessage ("Échec de l\x27envoi: " ++ message)), s)
      | (.error error, s) =>
        (.error (JsError.ofMessage ("Échec de l\x27envoi: " ++ error.message)), s)

/-- `sendNormalMode(data)`. -/
def sendNormalMode (env : Env) (data : SubmissionData) (s : ApiState) :
    Except JsError String × ApiState :=
  match validateNormalModeData data with
  | .error e => (.error e, s)
  | .ok () => sendValidated env CONFIG.API.NORMAL_MODE "normal" data s

/-- `sendTestMode(data)`. -/
def sendTestMode (env : Env) (data : SubmissionData) (s : ApiState) :
    Except JsError String × ApiState :=
  match validateTestModeData data with
  | .error e => (.error e, s)
  | .ok () => sendValidated env CONFIG.API.TEST_MODE "test" data s

/-- The exception with which the `try` block of an attempt ends when the attempt
settles with a failure other than an abort: a non-2xx response or a rejected `fetch`. -/
def retriedError : FetchOutcome → Option JsError
  | .responded r =>
    if r.ok then none
    else some (JsError.ofMessage ("HTTP " ++ toString r.status ++ ": " ++ r.statusText))
  | .networkFailure msg => some ⟨"TypeError", msg⟩
  | .timedOut => none
  | .cancelled => none

/-- The `options` object after `options.signal = controller.signal` of an attempt
started in state `s`. -/
def attemptOptions (env : Env) (options : RequestOptions) (s : ApiState) : RequestOptions :=
  { options with signal := some (env.generatedId s.idCalls) }

/-- The state once an attempt started in state `s` has settled without an abort and its
controller has been removed from the map. -/
def afterAttempt (env : Env) (url : String) (options : RequestOptions) (s : ApiState) :
    ApiState :=
  { s with idCalls := s.idCalls + 1
           abortControllers :=
             mapDelete (mapSet s.abortControllers (env.generatedId s.idCalls))
               (env.generatedId s.idCalls)
           fetchLog := s.fetchLog ++ [⟨url, attemptOptions env options s⟩] }

/-- Number of `fetch` calls made between two states of a run. -/
def attemptsBetween (before after : ApiState) : Nat :=
  after.fetchLog.length - before.fetchLog.length

end APIManager

/-! ## script.js

The page is assumed to hold the elements the script looks up by id (the two forms,
the two submit buttons, one `.recording-section` per configured section). Class lists
and texts of a section's own widgets are rendering and are not part of the state. -/

/-- The two recording modes, `'normal'` and `'test'`. -/
inductive Mode
  | normal
  | test
deriving DecidableEq, Repr

def Mode.toString : Mode → String
  | .normal => "normal"
  | .test => "test"

/-- `sectionsConfig`, also the section lists written out in `preparePayload` and
`resetForm`. -/
def sectionsConfig : Mode → List String
  | .normal => ["partie1", "partie2", "partie3", "partie4"]
  | .test => ["clinique", "antecedents", "biologie"]

/-- `haystack.includes(needle)`. -/
def includes (haystack needle : String) : Bool :=
  decide (needle.toList <:+: haystack.toList)

/-- White space and line terminators removed by `String.prototype.trim`. -/
def isJsWhitespace (c : Char) : Bool :=
  let n := c.toNat
  n = 9 || n = 10 || n = 11 || n = 12 || n = 13 || n = 32 || n = 160 || n = 5760 ||
  (decide (8192 ≤ n) && decide (n ≤ 8202)) || n = 8232 || n = 8233 || n = 8239 ||
  n = 8287 || n = 12288 || n = 65279

/-- `str.trim()`. -/
def jsTrim (str : String) : String :=
  String.mk ((str.toList.dropWhile isJsWhitespace).reverse.dropWhile isJsWhitespace).reverse

/-- `str.split(',')[1]`: the text between the first comma and the next one (or the
end), `undefined` when `str` has no comma. -/
def secondCommaField (str : String) : Option String :=
  match str.toList.dropWhile (fun c => c != ',') with
  | [] => none
  | _ :: rest => some (String.mk (rest.takeWhile (fun c => c != ',')))

/-- A `Blob`: its `type`, its `size`, and what `FileReader.readAsDataURL` yields for it
(`none` when the reader fires `error`). -/
structure Blob where
  type : String
  size : Nat
  dataUrl : Option String
deriving DecidableEq, Repr

/-- `MediaRecorder.state`. -/
inductive RecordingState
  | inactive
  | recording
  | paused
deriving DecidableEq, Repr

/-- The `MediaRecorder` of a session: its `state` and the `mimeType` its handlers
close over. -/
structure MediaRecorder where
  state : RecordingState
  mimeType : String
deriving DecidableEq, Repr

/-- Events a `MediaRecorder` fires asynchronously after `stop()`. The `stop` event
carries the `mimeType` its handler closes over. -/
inductive RecorderEvent
  | dataavailable
  | stop (mimeType : String)
deriving DecidableEq, Repr

/-- The fields of an `AudioRecorder` set by its constructor. A stream is named by a
number; a timer by its interval id. -/
structure AudioRecorder where
  sectionId : String
  mediaRecorder : Option MediaRecorder
  audioChunks : List Blob
  stream : Option Nat
  startTime : Option Int
  pausedTime : Int
  timerInterval : Option Nat
  audioBlob : Option Blob
deriving DecidableEq, Repr

namespace AudioRecorder

/-- `hasRecording()`. -/
def hasRecording (r : AudioRecorder) : Bool := r.audioBlob.isSome

/-- `getAudioFormat()`. -/
def getAudioFormat (r : AudioRecorder) : String :=
  match r.audioBlob with
  | none => "webm"
  | some blob =>
    if includes blob.type "webm" then "webm"
    else if includes blob.type "ogg" then "ogg"
    else if includes blob.type "mp4" then "mp4"
    else if includes blob.type "mpeg" then "mp3"
    else if includes blob.type "wav" then "wav"
    else "webm"

/-- The `types` list of `getSupportedMimeType()`, in order of preference. -/
def mimeTypes : List String :=
  ["audio/mpeg", "audio/mp4", "audio/webm;codecs=opus", "audio/webm",
   "audio/ogg;codecs=opus", "audio/wav"]

/-- `getSupportedMimeType()`, for the browser answer `isTypeSupported` of
`MediaRecorder.isTypeSupported`. -/
def getSupportedMimeType (isTypeSupported : String → Bool) : String :=
  match mimeTypes.find? isTypeSupported with
  | some type => type
  | none => ""

/-- `getMimeType()`. -/
def getMimeType (r : AudioRecorder) : String :=
  match r.audioBlob with
  | some blob => blob.type
  | none => "audio/mpeg"

/-- `getBase64Audio()`: `null` without a recording; otherwise the part of the data URL
after its first comma (`undefined` if there is none); the promise rejects when the
reader fails. -/
def getBase64Audio (r : AudioRecorder) : Except JsError (Option String) :=
  match r.audioBlob with
  | none => .ok none
  | some blob =>
    match blob.dataUrl with
    | none => .error ⟨"ProgressEvent", "error"⟩
    | some url => .ok (secondCommaField url)

end AudioRecorder

/-- A toast shown through `Toast.show`. -/
structure ToastMessage where
  kind : String
  message : String
  title : String
deriving DecidableEq, Repr

/-- A submit button: `disabled` and `textContent`. -/
structure Button where
  disabled : Bool
  textContent : String
deriving DecidableEq, Repr

/-- One entry of `payload.sections` as built by `preparePayload` of `script.js`. -/
structure ScriptSection where
  audioBase64 : Option String
  fileName : String
  mimeType : String
  format : String
deriving DecidableEq, Repr

/-- The payload built by `preparePayload` of `script.js`. -/
structure ScriptPayload where
  mode : Mode
  recordedAt : String
  username : Option String
  accessCode : Option String
  NumeroDeDossier : Option String
  NomDuPatient : Option String
  sections : List (String × ScriptSection)
deriving DecidableEq, Repr

/-- One recorded call of `fetch` made by `sendData`. -/
structure ScriptFetchCall where
  endpoint : String
  body : ScriptPayload
deriving DecidableEq, Repr

/-- The object kept under the `localStorage` key `dictamed_autosave` by `AutoSave`:
`mode`, `timestamp` (milliseconds) and the entries of `forms` in insertion order. -/
structure Draft where
  mode : String
  timestamp : Int
  forms : List (String × String)
deriving DecidableEq, Repr

/-- The state `script.js` works on: `appState.currentMode`, the values of the form
inputs, the `audioRecorders` map (entries in insertion order), the two submit buttons,
the texts of the `.sections-count` elements of each mode, the `localStorage` entry
`dictamed_autosave`, `appState.lastSaveTime`, and a trace: toasts shown, toasts
scheduled by `setTimeout`, calls of `fetch`, streams whose tracks were stopped,
recorder events still to be delivered. -/
structure App where
  currentMode : Mode
  username : String
  accessCode : String
  numeroDossier : String
  nomPatient : String
  numeroDossierTest : String
  nomPatientTest : String
  audioRecorders : List (String × AudioRecorder)
  submitNormal : Button
  submitTest : Button
  sectionsCountNormal : String
  sectionsCountTest : String
  autosave : Option Draft
  lastSaveTime : Option Int := none
  googleSheetCardShown : Bool
  toasts : List ToastMessage
  scheduledToasts : List ToastMessage
  fetchLog : List ScriptFetchCall
  stoppedStreams : List Nat
  pendingEvents : List (String × RecorderEvent)
deriving DecidableEq, Repr

/-- `audioRecorders.get(sectionId)`. -/
def App.recorder (app : App) (sectionId : String) : Option AudioRecorder :=
  app.audioRecorders.lookup sectionId

/-- `recorder && recorder.hasRecording()` for the recorder registered under `sectionId`. -/
def App.sectionRecorded (app : App) (sectionId : String) : Bool :=
  match app.recorder sectionId with
  | some recorder => recorder.hasRecording
  | none => false

/-- The `count` computed by `updateSectionCount` for a mode. -/
def App.countRecorded (app : App) (mode : Mode) : Nat :=
  ((sectionsConfig mode).filter app.sectionRecorded).length

/-- The required fields of a mode's form are non-empty after trimming. -/
def App.identityFilled (app : App) : Mode → Bool
  | .normal =>
    jsTrim app.username != "" && jsTrim app.accessCode != "" &&
      jsTrim app.numeroDossier != "" && jsTrim app.nomPatient != ""
  | .test => jsTrim app.numeroDossierTest != "" && jsTrim app.nomPatientTest != ""

/-- Every recording held by a registered recorder can be read by `FileReader`. -/
def App.blobsReadable (app : App) : Bool :=
  app.audioRecorders.all fun e =>
    match e.2.audioBlob with
    | some blob => blob.dataUrl.isSome
    | none => true

/-- Assignment to the submit button of a mode. -/
def App.setSubmit (app : App) (mode : Mode) (b : Button) : App :=
  match mode with
  | .normal => { app with submitNormal := b }
  | .test => { app with submitTest := b }

def App.showToast (app : App) (t : ToastMessage) : App :=
  { app with toasts := app.toasts ++ [t] }

/-- `updateSectionCount()`. -/
def updateSectionCount (app : App) : App :=
  let mode := app.currentMode
  let count := app.countRecorded mode
  let text := toString count ++ " section(s) enregistrée(s)"
  match mode with
  | .normal =>
    { app with sectionsCountNormal := text
               submitNormal := { app.submitNormal with disabled := decide (count = 0) } }
  | .test =>
    { app with sectionsCountTest := text
               submitTest := { app.submitTest with disabled := decide (count = 0) } }

/-- The events an active `MediaRecorder` queues when `stop()` is called on it. -/
def stopEvents (key : String) (m : MediaRecorder) : List (String × RecorderEvent) :=
  [(key, .dataavailable), (key, .stop m.mimeType)]

/-- The recorder `this.mediaRecorder` if it is set and its state is not `inactive`. -/
def AudioRecorder.activeRecorder (r : AudioRecorder) : Option MediaRecorder :=
  match r.mediaRecorder with
  | some m => if m.state != .inactive then some m else none
  | none => none

/-- `resetRecording()` of the recorder registered under `key`, up to its return: the
events a still active `MediaRecorder` fires after `stop()` are queued. -/
def resetRecording (key : String) (app : App) : App :=
  match app.recorder key with
  | none => app
  | some r =>
    let stoppedStreams :=
      match r.stream with
      | some stream => app.stoppedStreams ++ [stream]
      | none => app.stoppedStreams
    let r2 : AudioRecorder :=
      { r with stream := none
               mediaRecorder :=
                 match r.activeRecorder with
                 | some m => some { m with state := .inactive }
                 | none => r.mediaRecorder
               audioBlob := none
               audioChunks := []
               pausedTime := 0
               timerInterval := none }
    updateSectionCount
      { app with audioRecorders := objSet app.audioRecorders key r2
                 stoppedStreams := stoppedStreams
                 pendingEvents :=
                   match r.activeRecorder with
                   | some m => app.pendingEvents ++ stopEvents key m
                   | none => app.pendingEvents }

/-- `resetForm(mode)`. -/
def resetForm (mode : Mode) (app : App) : App :=
  let app : App :=
    match mode with
    | .normal => { app with username := "", accessCode := "", numeroDossier := "", nomPatient := "" }
    | .test => { app with numeroDossierTest := "", nomPatientTest := "" }
  let app := (sectionsConfig mode).foldl
    (fun app sectionId => if app.sectionRecorded sectionId then resetRecording sectionId app else app)
    app
  updateSectionCount app

/-- The `for (const sectionId of sections)` loop of `preparePayload`, from the running
`index` and the entries of `payload.sections` collected so far. -/
def collectSections (app : App) :
    List String → Nat → List (String × ScriptSection) →
      Except JsError (List (String × ScriptSection))
  | [], _, acc => .ok acc
  | sectionId :: rest, index, acc =>
    match app.recorder sectionId with
    | none => collectSections app rest index acc
    | some recorder =>
      if recorder.hasRecording then
        match recorder.getBase64Audio with
        | .error e => .error e
        | .ok base64 =>
          let format := recorder.getAudioFormat
          collectSections app rest (index + 1)
            (objSet acc sectionId
              { audioBase64 := base64
                fileName := "msgVocal" ++ toString index ++ "." ++ format
                mimeType := recorder.getMimeType
                format := format })
      else collectSections app rest index acc

/-- `preparePayload(mode)` of `script.js`: `null` (here `none`) when a required field is
empty after trimming, otherwise the payload. -/
def preparePayload (env : Env) (mode : Mode) (app : App) :
    Except JsError (Option ScriptPayload) :=
  let payload : ScriptPayload :=
    { mode := mode, recordedAt := env.timestamp, username := none, accessCode := none
      NumeroDeDossier := none, NomDuPatient := none, sections := [] }
  match mode with
  | .normal =>
    let username := jsTrim app.username
    let accessCode := jsTrim app.accessCode
    let numeroDossier := jsTrim app.numeroDossier
    let nomPatient := jsTrim app.nomPatient
    if username = "" || accessCode = "" || numeroDossier = "" || nomPatient = "" then
      .ok none
    else
      let payload :=
        { payload with username := some username, accessCode := some accessCode
                       NumeroDeDossier := some numeroDossier, NomDuPatient := some nomPatient }
      match collectSections app ["partie1", "partie2", "partie3", "partie4"] 1 payload.sections with
      | .error e => .error e
      | .ok sections => .ok (some { payload with sections := sections })
  | .test =>
    let numeroDossier := jsTrim app.numeroDossierTest
    let nomPatient := jsTrim app.nomPatientTest
    if numeroDossier = "" || nomPatient = "" then
      .ok none
    else
      let payload :=
        { payload with NumeroDeDossier := some numeroDossier, NomDuPatient := some nomPatient }
      match collectSections app ["clinique", "antecedents", "biologie"] 1 payload.sections with
      | .error e => .error e
      | .ok sections => .ok (some { payload with sections := sections })

/-- Label of the submit button of a mode when idle. -/
def submitLabel : Mode → String
  | .normal => "Envoyer les données"
  | .test => "Envoyer les données Test"

/-- Endpoint `sendData` posts to. -/
def endpointOf : Mode → String
  | .normal => "https://n8n.srv1104707.hstgr.cloud/webhook/DictaMedNormalMode"
  | .test => "https://n8n.srv1104707.hstgr.cloud/webhook/DictaMed"

def networkErrorToast : ToastMessage :=
  ⟨"error", "Impossible de contacter le serveur. Vérifiez votre connexion Internet.",
   "Erreur réseau"⟩

/-- `AutoSave.clear()`. -/
def AutoSave.clear (app : App) : App := { app with autosave := none }

/-- The `forms` object written by `AutoSave.save()` for a mode. -/
def AutoSave.forms (app : App) : Mode → List (String × String)
  | .normal =>
    [("username", app.username), ("accessCode", app.accessCode),
     ("numeroDossier", app.numeroDossier), ("nomPatient", app.nomPatient)]
  | .test =>
    [("numeroDossier", app.numeroDossierTest), ("nomPatient", app.nomPatientTest)]

/-- `AutoSave.save()` at time `now`, with a storage that accepts the entry. -/
def AutoSave.save (now : Int) (app : App) : App :=
  let data : Draft :=
    { mode := app.currentMode.toString
      timestamp := now
      forms := AutoSave.forms app app.currentMode }
  { app with autosave := some data, lastSaveTime := some now }

/-- The assignment `document.getElementById(id).value = value` for the inputs of the two forms;
no other element is part of the state. -/
def App.setInput (app : App) (id value : String) : App :=
  if id = "username" then { app with username := value }
  else if id = "accessCode" then { app with accessCode := value }
  else if id = "numeroDossier" then { app with numeroDossier := value }
  else if id = "nomPatient" then { app with nomPatient := value }
  else if id = "numeroDossierTest" then { app with numeroDossierTest := value }
  else if id = "nomPatientTest" then { app with nomPatientTest := value }
  else app

/-- One step of the `forEach` of `AutoSave.restore()` for a draft of mode `'normal'`. -/
def AutoSave.restoreNormalEntry (app : App) (entry : String × String) : App :=
  if entry.2 ≠ "" then app.setInput entry.1 entry.2 else app

/-- One step of the `forEach` of `AutoSave.restore()` for a draft of mode `'test'`. -/
def AutoSave.restoreTestEntry (app : App) (entry : String × String) : App :=
  let testKey := if entry.1 = "numeroDossier" then "numeroDossierTest" else "nomPatientTest"
  if entry.2 ≠ "" then app.setInput testKey entry.2 else app

def AutoSave.dayInMs : Int := 24 * 60 * 60 * 1000

def AutoSave.restoredToast : ToastMessage :=
  ⟨"info", "Vos données ont été restaurées", "Reprise de session"⟩

/-- `AutoSave.restore()` at time `now`, on the page that holds both forms. -/
def AutoSave.restore (now : Int) (app : App) : App :=
  match app.autosave with
  | none => app
  | some data =>
    if now - data.timestamp > AutoSave.dayInMs then { app with autosave := none }
    else if data.mode = "normal" then
      (data.forms.foldl AutoSave.restoreNormalEntry app).showToast AutoSave.restoredToast
    else if data.mode = "test" then
      (data.forms.foldl AutoSave.restoreTestEntry app).showToast AutoSave.restoredToast
    else app

/-- The `try` / `catch` part of `sendData(mode)`. -/
def sendDataTry (env : Env) (mode : Mode) (app : App) : App :=
  let app := app.setSubmit mode ⟨true, "Envoi en cours..."⟩
  match preparePayload env mode app with
  | .error _ => app.showToast networkErrorToast
  | .ok none =>
    let app := app.showToast
      ⟨"warning", "Veuillez remplir tous les champs obligatoires avant d\x27envoyer.",
       "Champs manquants"⟩
    app.setSubmit mode ⟨false, submitLabel mode⟩
  | .ok (some payload) =>
    let outcome := env.fetchOutcome app.fetchLog.length
    let app := { app with fetchLog := app.fetchLog ++ [ScriptFetchCall.mk (endpointOf mode) payload] }
    match outcome with
    | .responded response =>
      if response.ok then
        let app := app.showToast
          ⟨"success", "Votre dossier a été envoyé et traité avec succès !", "Envoi réussi"⟩
        match mode with
        | .test =>
          { app with googleSheetCardShown := true
                     scheduledToasts := app.scheduledToasts ++
                       [⟨"info", "Consultez le Google Sheet pour voir vos données transcrites en temps réel.",
                         "Résultats disponibles"⟩] }
        | .normal =>
          let app := resetForm mode app
          let app := AutoSave.clear app
          app.showToast ⟨"success", "Formulaire réinitialisé pour un nouveau patient.", "Prêt"⟩
      else
        app.showToast
          ⟨"error", "Le serveur a renvoyé une erreur (" ++ toString response.status ++
             "). Veuillez réessayer ou contactez le support.", "Erreur d\x27envoi"⟩
    | _ => app.showToast networkErrorToast

/-- `sendData(mode)`: the `try` / `catch`, then the `finally` block. -/
def sendData (env : Env) (mode : Mode) (app : App) : App :=
  (sendDataTry env mode app).setSubmit mode ⟨false, submitLabel mode⟩

/-! ## script.js: the recording session

A method of the `AudioRecorder` registered under `key` is a function of the whole
state, since it calls `updateSectionCount()` and `Toast`. `Date.now()`, the id returned
by `setInterval` and the answer of the browser are arguments. -/

/-- What `MediaRecorder.stop()` does on a recorder whose state is `inactive`: browsers
that follow the earlier drafts of MediaStream Recording throw `InvalidStateError`, those
that follow the current text return without doing anything. -/
inductive StopInactive
  | throws
  | ignores
deriving DecidableEq, Repr

def invalidStateError : JsError :=
  ⟨"InvalidStateError", "The MediaRecorder\x27s state is \x27inactive\x27."⟩

/-- `audioRecorders.get(key)` updated in place to `r`. -/
def App.setRecorder (app : App) (key : String) (r : AudioRecorder) : App :=
  { app with audioRecorders := objSet app.audioRecorders key r }

namespace AudioRecorder

/-- `Date.now() - this.startTime` at time `now` (`null` counts as 0). -/
def elapsed (r : AudioRecorder) (now : Int) : Int := now - r.startTime.getD 0

/-- The body of `pauseRecording()` at time `now`; `timerId` is the interval created by
`startTimer()` on resume. -/
def togglePause (now : Int) (timerId : Nat) (r : AudioRecorder) : AudioRecorder :=
  match r.mediaRecorder with
  | none => r
  | some m =>
    if m.state = .recording then
      { r with mediaRecorder := some { m with state := .paused }
               pausedTime := now - r.startTime.getD 0
               timerInterval := none }
    else if m.state = .paused then
      { r with mediaRecorder := some { m with state := .recording }
               startTime := some (now - r.pausedTime)
               timerInterval := some timerId }
    else r

end AudioRecorder

/-- `pauseRecording()`. -/
def pauseRecording (now : Int) (timerId : Nat) (key : String) (app : App) : App :=
  match app.recorder key with
  | none => app
  | some r => app.setRecorder key (r.togglePause now timerId)

/-- `stopRecording()`, up to its return. -/
def stopRecording (policy : StopInactive) (key : String) (app : App) : Except JsError App :=
  match app.recorder key with
  | none => .ok app
  | some r =>
    match r.mediaRecorder with
    | none => .ok app
    | some m =>
      if m.state = .inactive ∧ policy = .throws then .error invalidStateError
      else
        let events := if m.state = .inactive then [] else stopEvents key m
        let stoppedStreams :=
          match r.stream with
          | some stream => app.stoppedStreams ++ [stream]
          | none => app.stoppedStreams
        let r2 : AudioRecorder :=
          { r with mediaRecorder := some { m with state := .inactive }
                   timerInterval := none
                   stream := none }
        .ok (updateSectionCount
          { app with audioRecorders := objSet app.audioRecorders key r2
                     stoppedStreams := stoppedStreams
                     pendingEvents := app.pendingEvents ++ events })

/-- `MAX_DURATION` of `startTimer`, in seconds. -/
def MAX_DURATION : Int := 120

def limitToast : ToastMessage :=
  ⟨"info", "Durée maximale de 2 minutes atteinte. Enregistrement arrêté automatiquement.",
   "Limite atteinte"⟩

/-- One run of the interval callback installed by `startTimer()`, at time `now`. -/
def timerTick (policy : StopInactive) (now : Int) (key : String) (app : App) :
    Except JsError App :=
  match app.recorder key with
  | none => .ok app
  | some r =>
    let elapsed := r.elapsed now
    let seconds := Int.fdiv elapsed 1000
    if seconds ≥ MAX_DURATION then stopRecording policy key (app.showToast limitToast)
    else .ok app

/-- How the browser answers the steps of one `startRecording()`. -/
inductive StartOutcome
  /-- `navigator.mediaDevices.getUserMedia` does not exist -/
  | unsupported
  /-- `getUserMedia` rejects -/
  | rejected (error : JsError)
  /-- the stream is granted, then `getSupportedMimeType()` or `new MediaRecorder` throws -/
  | recorderFails (stream : Nat) (error : JsError)
  /-- the recorder is created, then `mediaRecorder.start(1000)` throws -/
  | startFails (stream : Nat) (mimeType : String) (error : JsError)
  /-- every step succeeds; `mimeType` is the result of `getSupportedMimeType()` -/
  | started (stream : Nat) (mimeType : String)
deriving DecidableEq, Repr

def unsupportedMessage : String :=
  "Votre navigateur ne supporte pas l\x27enregistrement audio. Veuillez utiliser un navigateur moderne (Chrome, Firefox, Edge, Safari)."

def deniedMessage : String :=
  "🎤 Accès refusé au microphone.\n\nVeuillez autoriser l\x27accès au microphone dans les paramètres de votre navigateur et réessayer."

def notFoundMessage : String :=
  "🎤 Aucun microphone détecté.\n\nVeuillez connecter un microphone et réessayer."

def busyMessage : String :=
  "🎤 Microphone déjà utilisé.\n\nFermez les autres applications utilisant le microphone et réessayer."

/-- The `errorMessage` chosen by the `catch` block of `startRecording`. -/
def startErrorMessage (error : JsError) : String :=
  if error.name = "NotAllowedError" ∨ error.name = "PermissionDeniedError" then deniedMessage
  else if error.name = "NotFoundError" ∨ error.name = "DevicesNotFoundError" then notFoundMessage
  else if error.name = "NotReadableError" ∨ error.name = "TrackStartError" then busyMessage
  else if error.message ≠ "" then error.message
  else "Erreur : Impossible d\x27accéder au microphone."

/-- The `catch` block of `startRecording`. -/
def startRecordingCatch (error : JsError) (key : String) (app : App) : App :=
  resetRecording key
    (app.showToast ⟨"error", startErrorMessage error, "Accès au microphone"⟩)

/-- `startRecording()` at time `now`; `timerId` is the interval created by
`startTimer()`. -/
def startRecording (outcome : StartOutcome) (now : Int) (timerId : Nat) (key : String)
    (app : App) : App :=
  match app.recorder key with
  | none => app
  | some r =>
    match outcome with
    | .unsupported => startRecordingCatch (JsError.ofMessage unsupportedMessage) key app
    | .rejected error => startRecordingCatch error key app
    | .recorderFails stream error =>
      startRecordingCatch error key (app.setRecorder key { r with stream := some stream })
    | .startFails stream mimeType error =>
      startRecordingCatch error key
        (app.setRecorder key
          { r with stream := some stream
                   mediaRecorder := some ⟨.inactive, mimeType⟩
                   audioChunks := [] })
    | .started stream mimeType =>
      app.setRecorder key
        { r with stream := some stream
                 mediaRecorder := some ⟨.recording, mimeType⟩
                 audioChunks := []
                 startTime := some (now - r.pausedTime)
                 timerInterval := some timerId }

/-- The `dataavailable` handler, for the event data `data`. -/
def onDataAvailable (key : String) (data : Blob) (app : App) : App :=
  match app.recorder key with
  | none => app
  | some r =>
    if data.size > 0 then app.setRecorder key { r with audioChunks := r.audioChunks ++ [data] }
    else app

/-- The `stop` handler of a recorder created with `mimeType`: `audioBlob` becomes
`new Blob(this.audioChunks, { type: mimeType || 'audio/webm' })`; `dataUrl` is what a
`FileReader` yields for that blob. -/
def onStop (key : String) (mimeType : String) (dataUrl : Option String) (app : App) : App :=
  match app.recorder key with
  | none => app
  | some r =>
    let blob : Blob :=
      { type := if mimeType != "" then mimeType else "audio/webm"
        size := (r.audioChunks.map (fun c => c.size)).sum
        dataUrl := dataUrl }
    app.setRecorder key { r with audioBlob := some blob }

/-- The `error` handler of the recorder. -/
def onError (key : String) (app : App) : App :=
  resetRecording key
    (app.showToast
      ⟨"error", "Une erreur est survenue lors de l\x27enregistrement. Veuillez réessayer.",
       "Erreur d\x27enregistrement"⟩)

/-- Delivery of one queued recorder event. -/
def deliverEvent (data : Blob) (dataUrl : Option String) (app : App)
    (e : String × RecorderEvent) : App :=
  match e.2 with
  | .dataavailable => onDataAvailable e.1 data app
  | .stop mimeType => onStop e.1 mimeType dataUrl app

/-- Delivery of all queued recorder events, in order; each `dataavailable` carries
`data`. -/
def deliverPending (data : Blob) (dataUrl : Option String) (app : App) : App :=
  app.pendingEvents.foldl (deliverEvent data dataUrl) { app with pendingEvents := [] }

/-- The text of the `.sections-count` elements of a mode. -/
def App.sectionsCount (app : App) : Mode → String
  | .normal => app.sectionsCountNormal
  | .test => app.sectionsCountTest

/-- The submit button of a mode. -/
def App.submit (app : App) : Mode → Button
  | .normal => app.submitNormal
  | .test => app.submitTest

/-- The stream a `startRecording()` acquired before it failed, if any. -/
def StartOutcome.acquired : StartOutcome → Option Nat
  | .unsupported => none
  | .rejected _ => none
  | .recorderFails stream _ => some stream
  | .startFails stream _ _ => some stream
  | .started stream _ => some stream

/-- The `try` block of `startRecording()` throws. -/
def StartOutcome.failed : StartOutcome → Bool
  | .started _ _ => false
  | _ => true

/-! ## state-manager.js

The state is a tree of plain values. An object is the list of its own properties in
insertion order; properties found on prototypes are not part of the model. An array
has its elements and `length`; a named property assigned to an array is not kept.
Numbers are the integers the state holds (counters and millisecond timestamps). The
length and the characters of a string are those of its code points, which is what
JavaScript gives for a string without surrogate pairs.
`Date.now()` is the parameter `now` of a call. No observer is registered anywhere in
the repository, so `notify` only records the key it was called with. `fuel` is the
number of nested calls of `setState` the call stack still has room for; a call made
with none left throws the `RangeError` of a stack overflow. -/

/-- A JavaScript value held in the state. -/
inductive JsVal
  | undefined
  | null
  | bool (b : Bool)
  | num (n : Int)
  | str (s : String)
  | arr (items : List JsVal)
  | obj (fields : List (String × JsVal))
deriving Repr

mutual
/-- The value `JSON.parse(JSON.stringify(v))` for a `v` that is not `undefined`: inside
an array `undefined` becomes `null`, inside an object a property whose value is
`undefined` is left out. -/
def JsVal.jsonValue : JsVal → JsVal
  | .arr items => .arr (JsVal.jsonItems items)
  | .obj fields => .obj (JsVal.jsonFields fields)
  | .undefined => .null
  | v => v
def JsVal.jsonItems : List JsVal → List JsVal
  | [] => []
  | v :: rest => v.jsonValue :: JsVal.jsonItems rest
def JsVal.jsonFields : List (String × JsVal) → List (String × JsVal)
  | [] => []
  | (_, .undefined) :: rest => JsVal.jsonFields rest
  | (k, v) :: rest => (k, v.jsonValue) :: JsVal.jsonFields rest
end

/-- `Utils.deepClone(obj)`, that is `JSON.parse(JSON.stringify(obj))`:
`JSON.stringify(undefined)` is `undefined`, which `JSON.parse` rejects. -/
def Utils.deepClone : JsVal → Except JsError JsVal
  | .undefined => .error ⟨"SyntaxError", "\"undefined\" is not valid JSON"⟩
  | v => .ok v.jsonValue

/-- The array index a property key denotes, if it is the canonical form of one. -/
def isIndex (key : String) : Option Nat :=
  match key.toNat? with
  | some n => if toString n = key then some n else none
  | none => none

/-- The character of a string at an index, as a string. -/
def charAt (s : String) (i : Nat) : JsVal :=
  match s.toList.get? i with
  | some c => .str (String.singleton c)
  | none => .undefined

/-- `obj?.[key]`. -/
def JsVal.get : JsVal → String → JsVal
  | .obj fields, key => (fields.lookup key).getD .undefined
  | .arr items, key =>
    if key = "length" then .num items.length
    else match isIndex key with
      | some i => items.getD i .undefined
      | none => .undefined
  | .str s, key =>
    if key = "length" then .num s.length
    else match isIndex key with
      | some i => charAt s i
      | none => .undefined
  | _, _ => .undefined

/-- `items[i] = value` on the elements of an array; the holes an assignment past the
end leaves read as `undefined`. -/
def arrSet (items : List JsVal) (i : Nat) (value : JsVal) : List JsVal :=
  if i < items.length then items.set i value
  else items ++ List.replicate (i - items.length) .undefined ++ [value]

/-- The length `items.length = value` sets. A string, an array or an object as new
length is taken as invalid. -/
def toLength : JsVal → Option Nat
  | .num n => if 0 ≤ n then some n.toNat else none
  | .null => some 0
  | .bool b => some (if b then 1 else 0)
  | _ => none

/-- The exception of `key in current` or `current[key] = value` (strict mode) when
`current` is `undefined`, `null` or a primitive. -/
def notAnObject : JsError := ⟨"TypeError", "Cannot use a property of a value that is not an object"⟩

def stackOverflow : JsError := ⟨"RangeError", "Maximum call stack size exceeded"⟩

/-- The loop over `keys` and the two statements after it in `setState`, started with
`current`: the `oldValue` read and the value `current` has afterwards. An exception
is thrown before anything has been assigned. -/
def assignPath : List String → String → JsVal → JsVal → Except JsError (JsVal × JsVal)
  | [], lastKey, value, current =>
    match current with
    | .obj fields =>
      .ok ((fields.lookup lastKey).getD .undefined, .obj (objSet fields lastKey value))
    | .arr items =>
      if lastKey = "length" then
        match toLength value with
        | some n =>
          .ok (.num items.length,
               .arr (items.take n ++ List.replicate (n - items.length) .undefined))
        | none => .error ⟨"RangeError", "Invalid array length"⟩
      else match isIndex lastKey with
        | some i => .ok (items.getD i .undefined, .arr (arrSet items i value))
        | none => .ok (.undefined, .arr items)
    | _ => .error notAnObject
  | key :: rest, lastKey, value, current =>
    match current with
    | .obj fields =>
      let child := match fields.lookup key with
        | some v => v
        | none => .obj []
      match assignPath rest lastKey value child with
      | .error e => .error e
      | .ok (oldValue, child) => .ok (oldValue, .obj (objSet fields key child))
    | .arr items =>
      if key = "length" then
        match assignPath rest lastKey value (.num items.length) with
        | .error e => .error e
        | .ok (oldValue, _) => .ok (oldValue, .arr items)
      else match isIndex key with
        | some i =>
          let child := if i < items.length then items.getD i .undefined else .obj []
          match assignPath rest lastKey value child with
          | .error e => .error e
          | .ok (oldValue, child) => .ok (oldValue, .arr (arrSet items i child))
        | none =>
          match assignPath rest lastKey value (.obj []) with
          | .error e => .error e
          | .ok (oldValue, _) => .ok (oldValue, .arr items)
    | _ => .error notAnObject

/-- The pieces `path.split` cuts at each dot, for the characters still to read; `cur`
holds the reversed characters of the piece in progress. -/
def splitDots : List Char → List Char → List String
  | [], cur => [String.mk cur.reverse]
  | c :: rest, cur =>
    if c = '.' then String.mk cur.reverse :: splitDots rest [] else splitDots rest (c :: cur)

/-- The keys `path.split` yields when it cuts `path` at each dot. -/
def splitPath (path : String) : List String := splitDots path.toList []

/-- An entry of `history`. -/
structure HistoryEntry where
  path : String
  oldValue : JsVal
  newValue : JsVal
  timestamp : Int
deriving Repr

/-- The `StateManager` instance: `state`, `history`, `maxHistory`, the keys `notify`
was called with (oldest first), and the parsed `localStorage` entry kept under
`CONFIG.AUTO_SAVE.STORAGE_KEY` (`none` when there is no entry). -/
structure StateManager where
  state : JsVal
  history : List HistoryEntry
  maxHistory : Nat
  notified : List String
  storage : Option JsVal
deriving Repr

namespace StateManager

/-- `getDefaultState()`, also the initial `state` of the constructor. -/
def getDefaultState (onLine : Bool) (now : Int) : JsVal :=
  .obj
    [("currentMode", .str "normal"),
     ("currentTab", .str "mode-normal"),
     ("auth", .obj [("username", .str ""), ("accessCode", .str ""),
                    ("isRemembered", .bool false), ("isAuthenticated", .bool false)]),
     ("patient", .obj [("numeroDossier", .str ""), ("nomPatient", .str "")]),
     ("recordings", .obj
        [("normal", .obj [("partie1", .null), ("partie2", .null), ("partie3", .null),
                          ("partie4", .null)]),
         ("test", .obj [("partie1", .null), ("partie2", .null), ("partie3", .null)]),
         ("dmi", .obj [("partie1", .null), ("partie2", .null), ("partie3", .null),
                       ("partie4", .null)])]),
     ("recording", .obj [("isRecording", .bool false), ("isPaused", .bool false),
                         ("currentSection", .null), ("duration", .num 0),
                         ("stream", .null), ("mediaRecorder", .null)]),
     ("ui", .obj [("isLoading", .bool false), ("loadingMessage", .str ""),
                  ("theme", .str "light"), ("installPromptEvent", .null)]),
     ("autoSave", .obj [("isEnabled", .bool true), ("lastSaveTime", .null),
                        ("isSaving", .bool false), ("isDirty", .bool false)]),
     ("network", .obj [("isOnline", .bool onLine), ("lastChecked", .num now)]),
     ("errors", .arr [])]

/-- The instance built by `new StateManager()` at time `now`. -/
def new (onLine : Bool) (now : Int) (storage : Option JsVal) : StateManager :=
  { state := getDefaultState onLine now
    history := []
    maxHistory := 50
    notified := []
    storage := storage }

/-- `notify(key, newValue, oldValue)`. -/
def notify (key : String) (m : StateManager) : StateManager :=
  { m with notified := m.notified ++ [key] }

/-- `getState(path)`. -/
def getState (path : String) (m : StateManager) : Except JsError JsVal :=
  if path = "" then Utils.deepClone m.state
  else .ok ((splitPath path).foldl JsVal.get m.state)

/-- The object literal `addToHistory` pushes. -/
def historyEntry (now : Int) (path : String) (oldValue newValue : JsVal) :
    Except JsError HistoryEntry :=
  match Utils.deepClone oldValue with
  | .error e => .error e
  | .ok o =>
    match Utils.deepClone newValue with
    | .error e => .error e
    | .ok n => .ok ⟨path, o, n, now⟩

/-- `addToHistory(path, oldValue, newValue)`. -/
def addToHistory (now : Int) (path : String) (oldValue newValue : JsVal)
    (m : StateManager) : Except JsError Unit × StateManager :=
  match historyEntry now path oldValue newValue with
  | .error e => (.error e, m)
  | .ok entry =>
    let history := m.history ++ [entry]
    let history := if history.length > m.maxHistory then history.tail else history
    (.ok (), { m with history := history })

/-- `setState(path, value)`. -/
def setState : Nat → Int → String → JsVal → StateManager →
    Except JsError Unit × StateManager
  | 0, _, _, _, m => (.error stackOverflow, m)
  | fuel + 1, now, path, value, m =>
    let keys := splitPath path
    match assignPath keys.dropLast (keys.getLastD "") value m.state with
    | .error e => (.error e, m)
    | .ok (oldValue, state) =>
      match addToHistory now path oldValue value { m with state := state } with
      | (.error e, m) => (.error e, m)
      | (.ok (), m) => setState fuel now "autoSave.isDirty" (.bool true) (notify path m)

/-- `setMultiple(updates)`. -/
def setMultiple (fuel : Nat) (now : Int) :
    List (String × JsVal) → StateManager → Except JsError Unit × StateManager
  | [], m => (.ok (), m)
  | (path, value) :: rest, m =>
    match setState fuel now path value m with
    | (.error e, m) => (.error e, m)
    | (.ok (), m) => setMultiple fuel now rest m

/-- `resetState(section)`; `onLine` is `navigator.onLine`. -/
def resetState (fuel : Nat) (onLine : Bool) (now : Int) (sec : Option String)
    (m : StateManager) : Except JsError Unit × StateManager :=
  match sec with
  | some name =>
    if name ≠ "" then setState fuel now name ((getDefaultState onLine now).get name) m
    else (.ok (), notify "*" { m with state := getDefaultState onLine now, history := [] })
  | none => (.ok (), notify "*" { m with state := getDefaultState onLine now, history := [] })

/-- `updateNetwork(isOnline)`. -/
def updateNetwork (fuel : Nat) (now : Int) (isOnline : Bool) (m : StateManager) :
    Except JsError Unit × StateManager :=
  setMultiple fuel now
    [("network.isOnline", .bool isOnline), ("network.lastChecked", .num now)] m

/-- The argument of `addError`: an `Error` with its `stack`, or a string. -/
inductive ErrorArg
  | error (e : JsError) (stack : String)
  | text (s : String)
deriving DecidableEq, Repr

/-- The `errorObj` of `addError`. An `Error` whose message is empty is kept itself as
`message`; it has no enumerable property. -/
def errorObj (now : Int) : ErrorArg → JsVal
  | .error e stack =>
    .obj [("message", if e.message ≠ "" then .str e.message else .obj []),
          ("timestamp", .num now), ("stack", .str stack)]
  | .text s => .obj [("message", .str s), ("timestamp", .num now), ("stack", .undefined)]

/-- `addError(error)`: `push` changes the array the state holds, then `setState` is
handed that same array. -/
def addError (fuel : Nat) (now : Int) (error : ErrorArg) (m : StateManager) :
    Except JsError Unit × StateManager :=
  match getState "errors" m with
  | .ok (.arr items) =>
    let errors := JsVal.arr (items ++ [errorObj now error])
    match assignPath [] "errors" errors m.state with
    | .ok (_, state) => setState fuel now "errors" errors { m with state := state }
    | .error e => (.error e, m)
  | .ok _ => (.error ⟨"TypeError", "errors.push is not a function"⟩, m)
  | .error e => (.error e, m)

/-- `clearErrors()`. -/
def clearErrors (fuel : Nat) (now : Int) (m : StateManager) :
    Except JsError Unit × StateManager :=
  setState fuel now "errors" (.arr []) m

/-- The own enumerable properties a spread or a rest pattern copies. -/
def ownEntries : JsVal → List (String × JsVal)
  | .obj fields => fields
  | .arr items => (List.range items.length).map (fun i => (toString i, items.getD i .undefined))
  | .str s => (List.range s.length).map (fun i => (toString i, charAt s i))
  | _ => []

/-- `saveToStorage()` with its default key, with a storage that accepts the entry. -/
def saveToStorage (fuel : Nat) (now : Int) (m : StateManager) : Bool × StateManager :=
  let stateToSave :=
    JsVal.obj (objSet (objSet (ownEntries m.state) "savedAt" (.num now)) "version"
      (.str CONFIG.VERSION))
  let m := { m with storage := some stateToSave.jsonValue }
  match setState fuel now "autoSave.lastSaveTime" (.num now) m with
  | (.error _, m) => (false, m)
  | (.ok (), m) =>
    match setState fuel now "autoSave.isDirty" (.bool false) m with
    | (.error _, m) => (false, m)
    | (.ok (), m) => (true, m)

/-- The number `now - savedAt` is computed with, `none` for `NaN`. A string, an array
or an object as `savedAt` is taken as not a number. -/
def toNumber : JsVal → Option Int
  | .num n => some n
  | .null => some 0
  | .bool b => some (if b then 1 else 0)
  | _ => none

/-- `age > CONFIG.AUTO_SAVE.EXPIRATION` for `age = Date.now() - parsed.savedAt`. -/
def expired (now : Int) (savedAt : JsVal) : Bool :=
  match toNumber savedAt with
  | some t => decide (now - t > CONFIG.AUTO_SAVE.EXPIRATION)
  | none => false

/-- The `forEach` of `loadFromStorage` over the entries of `stateToRestore`. -/
def restoreEntries : List (String × JsVal) → JsVal → Except JsError JsVal
  | [], state => .ok state
  | (path, value) :: rest, state =>
    if path ≠ "ui" ∧ path ≠ "network" ∧ path ≠ "recording" then
      match assignPath [] path value state with
      | .error e => .error e
      | .ok (_, state) => restoreEntries rest state
    else restoreEntries rest state

/-- `loadFromStorage()` with its default key. -/
def loadFromStorage (now : Int) (m : StateManager) : Bool × StateManager :=
  match m.storage with
  | none => (false, m)
  | some .null => (false, m)
  | some parsed =>
    if expired now (parsed.get "savedAt") then (false, { m with storage := none })
    else
      let stateToRestore :=
        (ownEntries parsed).filter (fun e => e.1 ≠ "savedAt" ∧ e.1 ≠ "version")
      match restoreEntries stateToRestore m.state with
      | .error _ => (false, m)
      | .ok state => (true, notify "*" { m with state := state })

end StateManager

/-! ## Vocabulary of the specification -/

/-- A field is present and non-empty: its value is a string other than `""`. -/
def present (v : Option String) : Prop := v ≠ none ∧ v ≠ some ""

instance : DecidablePred present := fun v => by unfold present; infer_instance

/-- A section entry is complete: it has a non-empty `audioBase64` and a non-empty
`mimeType`. -/
def sectionComplete (sec : SectionData) : Prop :=
  present sec.audioBase64 ∧ present sec.mimeType

instance : DecidablePred sectionComplete := fun sec => by
  unfold sectionComplete; infer_instance

/-- The four identity fields of the normal mode are all present and non-empty. -/
def identityPresent (data : SubmissionData) : Prop :=
  present data.username ∧ present data.accessCode ∧
    present data.NumeroDeDossier ∧ present data.NomDuPatient

instance : DecidablePred identityPresent := fun data => by
  unfold identityPresent; infer_instance

/-- The escaping in the words of the specification: each `&`, `<` and `>` is replaced
by its entity, every other character is kept. -/
def escapeEntities : List Char → List Char
  | [] => []
  | c :: rest =>
    (if c = '&' then "&amp;".toList
     else if c = '<' then "&lt;".toList
     else if c = '>' then "&gt;".toList
     else [c]) ++ escapeEntities rest

/-- Bookkeeping of the time a session has spent in the recording state: `closed` is the
total length of the recording intervals already ended by a pause, `since` the start of
the interval in progress (`none` while paused). -/
structure RecordingClock where
  closed : Int
  since : Option Int
deriving DecidableEq, Repr

namespace RecordingClock

/-- The clock of a session started at `t0`. -/
def start (t0 : Int) : RecordingClock := ⟨0, some t0⟩

/-- A pause (while recording) or a resume (while paused) at time `t`. -/
def toggle (c : RecordingClock) (t : Int) : RecordingClock :=
  match c.since with
  | some s => ⟨c.closed + (t - s), none⟩
  | none => ⟨c.closed, some t⟩

/-- Total time spent in the recording state up to `now`, paused intervals excluded. -/
def total (c : RecordingClock) (now : Int) : Int :=
  match c.since with
  | some s => c.closed + (now - s)
  | none => c.closed

end RecordingClock

/-- The session under `key` and the clock agree: while recording, the elapsed time of
the timer is the total time recorded; while paused, `pausedTime` is. -/
def clockAgrees (app : App) (key : String) (c : RecordingClock) : Prop :=
  ∃ r m, app.recorder key = some r ∧ r.mediaRecorder = some m ∧
    ((m.state = .recording ∧ c.since.isSome = true ∧ ∀ now, r.elapsed now = c.total now) ∨
     (m.state = .paused ∧ c.since = none ∧ ∀ now, r.pausedTime = c.total now))

/-- The session registered under `key` is in the recording or the paused state. -/
def App.sessionActive (app : App) (key : String) : Bool :=
  match app.recorder key with
  | some r => r.activeRecorder.isSome
  | none => false

/-- The session registered under `key` holds no device: its `stream` is `null`. -/
def App.holdsNoStream (app : App) (key : String) : Bool :=
  match app.recorder key with
  | some r => r.stream.isNone
  | none => true

/-- The session registered under `key` is idle: no stream, no artifact, no chunks,
`pausedTime` 0, no timer, and no recorder that is recording or paused. -/
def App.sessionIdle (app : App) (key : String) : Bool :=
  match app.recorder key with
  | some r =>
    r.stream.isNone && r.audioBlob.isNone && r.audioChunks.isEmpty &&
      decide (r.pausedTime = 0) && r.timerInterval.isNone && r.activeRecorder.isNone
  | none => false

/-! ## Concrete inputs -/

/-- An environment, online, in which every `fetch` settles in the same way and the
`k`-th generated identifier is `k` followed by `-r`. -/
def envOf (outcome : FetchOutcome) : Env :=
  { onLine := true
    userAgent := "Mozilla/5.0"
    timestamp := "2024-01-01T00:00:00.000Z"
    fetchOutcome := fun _ => outcome
    generatedId := fun k => toString k ++ "-r" }

def response400 : Response := ⟨400, "Bad Request", .invalid "Unexpected end of JSON input"⟩

def response500 : Response :=
  ⟨500, "Internal Server Error", .invalid "Unexpected end of JSON input"⟩

def response200 : Response := ⟨200, "OK", .parsed "ack"⟩

/-- The default `options = {}`. -/
def noOptions : RequestOptions := ⟨none, [], none, none⟩

/-- A section entry with audio and MIME type. -/
def sampleSection : SectionData :=
  ⟨some "QUJD", some "a.mp3", some "audio/mpeg", some "mp3", some 3, some 3⟩

/-- Data of the normal mode that passes both validators: all identity fields and
three sections. -/
def validData : SubmissionData :=
  { username := some "dr.smith"
    accessCode := some "ABC123"
    NumeroDeDossier := some "F-2024-001"
    NomDuPatient := some "Jean Dupont"
    sections := some [("partie1", sampleSection), ("partie2", sampleSection),
      ("partie3", sampleSection)] }

/-- A section entry that has audio but no MIME type. -/
def sectionNoMime : SectionData := ⟨some "QUJD", none, none, none, none, none⟩

/-- A section entry with nothing in it. -/
def sectionEmpty : SectionData := ⟨none, none, none, none, none, none⟩

/-- Data whose identity fields are present and whose second section lacks the MIME
type while the third lacks everything. -/
def dataSecondIncomplete : SubmissionData :=
  { validData with
    sections := some [("partie1", sampleSection), ("partie2", sectionNoMime),
      ("partie3", sectionEmpty)] }

/-- Valid data but for the missing `username`, with an incomplete section. -/
def dataNoUsername : SubmissionData :=
  { dataSecondIncomplete with username := none }

/-- Valid data but for the empty `NomDuPatient`, with no sections at all. -/
def dataNoPatient : SubmissionData :=
  { validData with NomDuPatient := some "", sections := none }

/-- Identity fields present, two sections, both empty. -/
def dataTwoSections : SubmissionData :=
  { validData with sections := some [("partie1", sectionEmpty), ("partie2", sectionEmpty)] }

/-- Data whose free-text fields and access code all hold markup characters. -/
def dataMarkup : SubmissionData :=
  { username := some "a<b"
    accessCode := some "<&>"
    NumeroDeDossier := some "1&2"
    NomDuPatient := some "<i>Jean</i>"
    sections := some [] }

/-- A recorded artifact. -/
def sampleBlob : Blob := ⟨"audio/webm", 3, some "data:audio/webm;base64,QUJD"⟩

/-- A session that was recorded and stopped. -/
def recordedSession (sectionId : String) : AudioRecorder :=
  { sectionId := sectionId
    mediaRecorder := some ⟨.inactive, "audio/webm"⟩
    audioChunks := [sampleBlob]
    stream := none
    startTime := some 0
    pausedTime := 0
    timerInterval := none
    audioBlob := some sampleBlob }

/-- A session that was never started. -/
def idleSession (sectionId : String) : AudioRecorder :=
  { sectionId := sectionId
    mediaRecorder := none
    audioChunks := []
    stream := none
    startTime := none
    pausedTime := 0
    timerInterval := none
    audioBlob := none }

/-- The normal-mode form of the happy-path scenario with only 2 of the 4 sections
recorded, nothing sent yet. -/
def appTwoOfFour : App :=
  { currentMode := .normal
    username := "dr.smith"
    accessCode := "ABC123"
    numeroDossier := "F-2024-001"
    nomPatient := "Jean Dupont"
    numeroDossierTest := ""
    nomPatientTest := ""
    audioRecorders :=
      [("partie1", recordedSession "partie1"), ("partie2", recordedSession "partie2"),
       ("partie3", idleSession "partie3"), ("partie4", idleSession "partie4"),
       ("clinique", idleSession "clinique"), ("antecedents", idleSession "antecedents"),
       ("biologie", idleSession "biologie")]
    submitNormal := ⟨false, "Envoyer les données"⟩
    submitTest := ⟨true, "Envoyer les données Test"⟩
    sectionsCountNormal := "2 section(s) enregistrée(s)"
    sectionsCountTest := "0 section(s) enregistrée(s)"
    autosave := none
    googleSheetCardShown := false
    toasts := []
    scheduledToasts := []
    fetchLog := []
    stoppedStreams := []
    pendingEvents := [] }

/-- The same form with the patient name left blank. -/
def appNoPatientName : App := { appTwoOfFour with nomPatient := "  " }

/-- A session that is recording on stream `stream` since time 1000. -/
def recordingSession (sectionId : String) (stream : Nat) : AudioRecorder :=
  { sectionId := sectionId
    mediaRecorder := some ⟨.recording, "audio/webm"⟩
    audioChunks := [sampleBlob]
    stream := some stream
    startTime := some 1000
    pausedTime := 0
    timerInterval := some 1
    audioBlob := none }

/-- The form `appTwoOfFour` with the session of `partie3` recording on stream 7. -/
def appRecording : App :=
  { appTwoOfFour with
    audioRecorders :=
      [("partie1", recordedSession "partie1"), ("partie2", recordedSession "partie2"),
       ("partie3", recordingSession "partie3" 7), ("partie4", idleSession "partie4"),
       ("clinique", idleSession "clinique"), ("antecedents", idleSession "antecedents"),
       ("biologie", idleSession "biologie")] }

/-- The form `appTwoOfFour` with a third section recorded. -/
def appThreeOfFour : App :=
  { appTwoOfFour with
    audioRecorders :=
      [("partie1", recordedSession "partie1"), ("partie2", recordedSession "partie2"),
       ("partie3", idleSession "partie3"), ("partie4", recordedSession "partie4"),
       ("clinique", idleSession "clinique"), ("antecedents", idleSession "antecedents"),
       ("biologie", idleSession "biologie")]
    sectionsCountNormal := "3 section(s) enregistrée(s)" }

/-- The form with no section recorded and every session idle. -/
def appIdle : App :=
  { appTwoOfFour with
    audioRecorders :=
      [("partie1", idleSession "partie1"), ("partie2", idleSession "partie2"),
       ("partie3", idleSession "partie3"), ("partie4", idleSession "partie4"),
       ("clinique", idleSession "clinique"), ("antecedents", idleSession "antecedents"),
       ("biologie", idleSession "biologie")]
    submitNormal := ⟨true, "Envoyer les données"⟩
    sectionsCountNormal := "0 section(s) enregistrée(s)" }

/-- The final chunk of data a recorder hands over when it stops. -/
def lastChunk : Blob := ⟨"audio/webm", 5, some "data:audio/webm;base64,REVG"⟩

/-- The environment `envOf outcome` with `navigator.onLine` false. -/
def envOffline (outcome : FetchOutcome) : Env := { envOf outcome with onLine := false }

/-- An environment in which the first attempt gets a 500 response and the second is
in flight when `cancelAllRequests()` runs. -/
def envCancelSecond : Env :=
  { envOf .cancelled with
    fetchOutcome := fun k => if k = 0 then .responded response500 else .cancelled }

/-- The submission of `sendData(mode)` reached the server and was answered with a 2xx
response. -/
def answered2xx (env : Env) (mode : Mode) (app : App) : Bool :=
  match preparePayload env mode app with
  | .ok (some _) =>
    match env.fetchOutcome app.fetchLog.length with
    | .responded response => response.ok
    | _ => false
  | _ => false

/-- The format named by each MIME type `getSupportedMimeType` can select, and by the
empty string it returns when the browser supports none of them. -/
def formatOfMimeType (mimeType : String) : String :=
  if mimeType = "audio/mpeg" then "mp3"
  else if mimeType = "audio/mp4" then "mp4"
  else if mimeType = "audio/ogg;codecs=opus" then "ogg"
  else if mimeType = "audio/wav" then "wav"
  else "webm"

/-- A page whose two forms are empty, in normal mode, with nothing stored. -/
def appBlank : App :=
  { appIdle with username := "", accessCode := "", numeroDossier := "", nomPatient := "" }

/-- The normal-mode form with the record id `F-9`, the access code left empty. -/
def appF9 : App := { appIdle with numeroDossier := "F-9", accessCode := "" }

/-- The empty page with the draft `AutoSave.save()` wrote for `appF9` at time 0. -/
def appDraftF9 : App := { appBlank with autosave := (AutoSave.save 0 appF9).autosave }

/-- The test-mode form filled in. -/
def appTestForm : App :=
  { appBlank with currentMode := .test, numeroDossierTest := "F-9", nomPatientTest := "Jean Dupont" }

/-- The empty page in normal mode, holding the draft saved in test mode at time 0. -/
def appCrossDraft : App := { appBlank with autosave := (AutoSave.save 0 appTestForm).autosave }

/-- Every input of the two forms is empty. -/
def App.formsEmpty (app : App) : Prop :=
  app.username = "" ∧ app.accessCode = "" ∧ app.numeroDossier = "" ∧ app.nomPatient = "" ∧
  app.numeroDossierTest = "" ∧ app.nomPatientTest = ""

instance (app : App) : Decidable app.formsEmpty := by
  unfold App.formsEmpty
  infer_instance

/-- A sequence of `addError` calls, each at its own time, whatever each call returns or
throws. -/
def StateManager.addErrors (fuel : Nat) :
    List (Int × StateManager.ErrorArg) → StateManager → StateManager
  | [], m => m
  | (now, error) :: rest, m =>
    StateManager.addErrors fuel rest (StateManager.addError fuel now error m).2

/-- The number of entries of the error log: `state.errors.length`. -/
def StateManager.errorCount (m : StateManager) : Nat :=
  match m.state.get "errors" with
  | .arr items => items.length
  | _ => 0

/-- A sequence of `addToHistory` calls, each with its time, path, old and new value. -/
def StateManager.recordAll :
    List (Int × String × JsVal × JsVal) → StateManager → StateManager
  | [], m => m
  | (now, path, oldValue, newValue) :: rest, m =>
    StateManager.recordAll rest (StateManager.addToHistory now path oldValue newValue m).2

/-- The entries of the calls of a sequence that did not throw, oldest first. -/
def StateManager.recorded : List (Int × String × JsVal × JsVal) → List HistoryEntry
  | [] => []
  | (now, path, oldValue, newValue) :: rest =>
    match StateManager.historyEntry now path oldValue newValue with
    | .ok entry => entry :: StateManager.recorded rest
    | .error _ => StateManager.recorded rest

/-- The last `n` elements of a list, in order. -/
def lastN {α : Type} (n : Nat) (l : List α) : List α := l.drop (l.length - n)

/-- A stored state saved at time 0 whose patient record id is `F-9`. -/
def snapshotF9 : JsVal :=
  .obj [("patient", .obj [("numeroDossier", .str "F-9"), ("nomPatient", .str "")]),
        ("savedAt", .num 0), ("version", .str "8.0.0")]

/-- A new manager on a page whose storage holds `snapshotF9`. -/
def managerF9 : StateManager := StateManager.new true 0 (some snapshotF9)

/-- The default state with the base64 text of a recording under
`recordings.normal.partie1`. -/
def stateWithAudio : JsVal :=
  match assignPath ["recordings", "normal"] "partie1" (.str "UklGRiQAAABXQVZF")
      (StateManager.getDefaultState true 0) with
  | .ok (_, state) => state
  | .error _ => StateManager.getDefaultState true 0

/-- A manager whose state differs from that of a new manager only under `recordings`. -/
def managerWithAudio : StateManager := { StateManager.new true 0 none with state := stateWithAudio }

/-! ## fetchWithRetry: one step -/

namespace APIManager

theorem fetchWithRetry_abort (env : Env) (url : String) (options : RequestOptions)
    (retries : Int) (s : ApiState)
    (h : env.fetchOutcome s.fetchLog.length = .timedOut ∨
         env.fetchOutcome s.fetchLog.length = .cancelled) :
    (fetchWithRetry env url options retries s).1 = .error (JsError.ofMessage "Request timeout") ∧
    (fetchWithRetry env url options retries s).2.fetchLog =
      s.fetchLog ++ [⟨url, attemptOptions env options s⟩] := by
  rw [fetchWithRetry]
  rcases h with h | h <;> simp [h, awaitFetch, abortError, cancelAllRequests, attemptOptions]

theorem fetchWithRetry_abort_sleeps (env : Env) (url : String) (options : RequestOptions)
    (retries : Int) (s : ApiState)
    (h : env.fetchOutcome s.fetchLog.length = .timedOut ∨
         env.fetchOutcome s.fetchLog.length = .cancelled) :
    (fetchWithRetry env url options retries s).2.sleeps = s.sleeps := by
  rw [fetchWithRetry]
  rcases h with h | h <;> simp [h, awaitFetch, abortError, cancelAllRequests]

theorem fetchWithRetry_ok (env : Env) (url : String) (options : RequestOptions)
    (retries : Int) (s : ApiState) (r : Response)
    (h : env.fetchOutcome s.fetchLog.length = .responded r) (hr : r.ok = true) :
    fetchWithRetry env url options retries s = (.ok r, afterAttempt env url options s) := by
  rw [fetchWithRetry]
  simp [h, hr, awaitFetch, afterAttempt, attemptOptions]

theorem fetchWithRetry_last (env : Env) (url : String) (options : RequestOptions)
    (retries : Int) (s : ApiState) (e : JsError)
    (h : retriedError (env.fetchOutcome s.fetchLog.length) = some e) (hr : retries ≤ 0) :
    fetchWithRetry env url options retries s = (.error e, afterAttempt env url options s) := by
  rw [fetchWithRetry]
  cases ho : env.fetchOutcome s.fetchLog.length with
  | responded r =>
    cases hok : r.ok <;> simp [ho, hok, retriedError] at h
    subst h
    simp [ho, hok, awaitFetch, JsError.ofMessage, hr, afterAttempt, attemptOptions]
  | networkFailure m =>
    simp [ho, retriedError] at h
    subst h
    simp [ho, awaitFetch, hr, afterAttempt, attemptOptions]
  | timedOut => simp [ho, retriedError] at h
  | cancelled => simp [ho, retriedError] at h

theorem fetchWithRetry_retry (env : Env) (url : String) (options : RequestOptions)
    (retries : Int) (s : ApiState) (e : JsError)
    (h : retriedError (env.fetchOutcome s.fetchLog.length) = some e) (hr : ¬ retries ≤ 0) :
    fetchWithRetry env url options retries s =
      fetchWithRetry env url (attemptOptions env options s) (retries - 1)
        { afterAttempt env url options s with
          sleeps := s.sleeps ++ [CONFIG.API.RETRY_DELAY] } := by
  rw [fetchWithRetry]
  cases ho : env.fetchOutcome s.fetchLog.length with
  | responded r =>
    cases hok : r.ok <;> simp [ho, hok, retriedError] at h
    simp [ho, hok, awaitFetch, JsError.ofMessage, hr, afterAttempt, attemptOptions]
  | networkFailure m =>
    simp [ho, awaitFetch, hr, afterAttempt, attemptOptions]
  | timedOut => simp [ho, retriedError] at h
  | cancelled => simp [ho, retriedError] at h

/-- Every outcome is a success, a retried failure or an abort. -/
theorem outcome_cases (o : FetchOutcome) :
    (∃ r, o = .responded r ∧ r.ok = true) ∨ (∃ e, retriedError o = some e) ∨
      (o = .timedOut ∨ o = .cancelled) := by
  cases o with
  | responded r =>
    cases hok : r.ok
    · exact Or.inr (Or.inl
        ⟨JsError.ofMessage ("HTTP " ++ toString r.status ++ ": " ++ r.statusText),
         by simp [retriedError, hok]⟩)
    · exact Or.inl ⟨r, rfl, hok⟩
  | networkFailure m => exact Or.inr (Or.inl ⟨_, rfl⟩)
  | timedOut => exact Or.inr (Or.inr (Or.inl rfl))
  | cancelled => exact Or.inr (Or.inr (Or.inr rfl))

/-! ## fetchWithRetry: whole runs -/

/-- The calls a run adds to the log: at least one, at most `retries + 1`, all with the
url, headers, body and method the call was given. -/
theorem fetchWithRetry_log (env : Env) (url : String) :
    ∀ (n : Nat) (retries : Int), retries.toNat = n →
      ∀ (options : RequestOptions) (s : ApiState),
        ∃ added : List FetchCall,
          (fetchWithRetry env url options retries s).2.fetchLog = s.fetchLog ++ added ∧
          1 ≤ added.length ∧ added.length ≤ n + 1 ∧
          ∀ c ∈ added, c.url = url ∧ c.options.headers = options.headers ∧
            c.options.body = options.body ∧ c.options.method = options.method := by
  intro n
  induction n with
  | zero =>
    intro retries hn options s
    have h0 : retries ≤ 0 := by omega
    refine ⟨[⟨url, attemptOptions env options s⟩], ?_, by simp, by simp, ?_⟩
    · rcases outcome_cases (env.fetchOutcome s.fetchLog.length) with ⟨r, ho, hok⟩ | ⟨e, he⟩ | hab
      · rw [fetchWithRetry_ok env url options retries s r ho hok]; rfl
      · rw [fetchWithRetry_last env url options retries s e he h0]; rfl
      · exact (fetchWithRetry_abort env url options retries s hab).2
    · intro c hc
      simp only [List.mem_singleton] at hc
      subst hc
      simp [attemptOptions]
  | succ n ih =>
    intro retries hn options s
    have h0 : ¬ retries ≤ 0 := by omega
    have h1 : (retries - 1).toNat = n := by omega
    rcases outcome_cases (env.fetchOutcome s.fetchLog.length) with ⟨r, ho, hok⟩ | ⟨e, he⟩ | hab
    · refine ⟨[⟨url, attemptOptions env options s⟩], ?_, by simp, by simp, ?_⟩
      · rw [fetchWithRetry_ok env url options retries s r ho hok]; rfl
      · intro c hc
        simp only [List.mem_singleton] at hc
        subst hc
        simp [attemptOptions]
    · rw [fetchWithRetry_retry env url options retries s e he h0]
      obtain ⟨added, hlog, h1le, hle, hall⟩ := ih (retries - 1) h1 (attemptOptions env options s)
        { afterAttempt env url options s with sleeps := s.sleeps ++ [CONFIG.API.RETRY_DELAY] }
      refine ⟨⟨url, attemptOptions env options s⟩ :: added, ?_, by simp, by simp; omega, ?_⟩
      · rw [hlog]; simp [afterAttempt]
      · intro c hc
        rcases List.mem_cons.mp hc with hc | hc
        · subst hc; simp [attemptOptions]
        · simpa [attemptOptions] using hall c hc
    · refine ⟨[⟨url, attemptOptions env options s⟩], ?_, by simp, by simp, ?_⟩
      · exact (fetchWithRetry_abort env url options retries s hab).2
      · intro c hc
        simp only [List.mem_singleton] at hc
        subst hc
        simp [attemptOptions]

/-- Against an endpoint on which every attempt fails without an abort, the run makes
`retries + 1` attempts (one when `retries ≤ 0`), sleeps `RETRY_DELAY` between two
attempts, and fails with the error of the last attempt. -/
theorem fetchWithRetry_all_failed (env : Env) (url : String)
    (hall : ∀ k, ∃ e, retriedError (env.fetchOutcome k) = some e) :
    ∀ (n : Nat) (retries : Int), retries.toNat = n →
      ∀ (options : RequestOptions) (s : ApiState),
        (fetchWithRetry env url options retries s).2.fetchLog.length = s.fetchLog.length + n + 1 ∧
        (fetchWithRetry env url options retries s).2.sleeps =
          s.sleeps ++ List.replicate n CONFIG.API.RETRY_DELAY ∧
        ∃ e, retriedError (env.fetchOutcome (s.fetchLog.length + n)) = some e ∧
          (fetchWithRetry env url options retries s).1 = .error e := by
  intro n
  induction n with
  | zero =>
    intro retries hn options s
    have h0 : retries ≤ 0 := by omega
    obtain ⟨e, he⟩ := hall s.fetchLog.length
    rw [fetchWithRetry_last env url options retries s e he h0]
    exact ⟨by simp [afterAttempt], by simp [afterAttempt], e, he, rfl⟩
  | succ n ih =>
    intro retries hn options s
    have h0 : ¬ retries ≤ 0 := by omega
    have h1 : (retries - 1).toNat = n := by omega
    obtain ⟨e, he⟩ := hall s.fetchLog.length
    rw [fetchWithRetry_retry env url options retries s e he h0]
    obtain ⟨hlen, hsl, e2, he2, hres⟩ := ih (retries - 1) h1 (attemptOptions env options s)
      { afterAttempt env url options s with sleeps := s.sleeps ++ [CONFIG.API.RETRY_DELAY] }
    refine ⟨?_, ?_, e2, ?_, hres⟩
    · rw [hlen]; simp [afterAttempt]; omega
    · rw [hsl]; simp [List.replicate_succ]
    · have : s.fetchLog.length + (n + 1) = s.fetchLog.length + 1 + n := by omega
      rw [this]
      simpa [afterAttempt] using he2

/-- An attempt that is aborted (by its timeout or by `cancelAllRequests`) is the last
one of its run, and the run fails with `Request timeout`. -/
theorem fetchWithRetry_abort_at (env : Env) (url : String) (j : Nat)
    (hj : env.fetchOutcome j = .timedOut ∨ env.fetchOutcome j = .cancelled) :
    ∀ (n : Nat) (retries : Int), retries.toNat = n →
      ∀ (options : RequestOptions) (s : ApiState), s.fetchLog.length ≤ j →
        (fetchWithRetry env url options retries s).2.fetchLog.length ≤ j + 1 ∧
        ((fetchWithRetry env url options retries s).2.fetchLog.length = j + 1 →
          (fetchWithRetry env url options retries s).1 =
            .error (JsError.ofMessage "Request timeout")) := by
  intro n
  induction n with
  | zero =>
    intro retries hn options s hs
    have h0 : retries ≤ 0 := by omega
    rcases outcome_cases (env.fetchOutcome s.fetchLog.length) with ⟨r, ho, hok⟩ | ⟨e, he⟩ | hab
    · rw [fetchWithRetry_ok env url options retries s r ho hok]
      refine ⟨by simp [afterAttempt]; omega, ?_⟩
      intro hlen
      have : s.fetchLog.length = j := by simpa [afterAttempt] using hlen
      rw [this] at ho
      rcases hj with hj | hj <;> simp [hj] at ho
    · rw [fetchWithRetry_last env url options retries s e he h0]
      refine ⟨by simp [afterAttempt]; omega, ?_⟩
      intro hlen
      have : s.fetchLog.length = j := by simpa [afterAttempt] using hlen
      rw [this] at he
      rcases hj with hj | hj <;> simp [hj, retriedError] at he
    · obtain ⟨hres, hlog⟩ := fetchWithRetry_abort env url options retries s hab
      rw [hlog]
      exact ⟨by simp; omega, fun _ => hres⟩
  | succ n ih =>
    intro retries hn options s hs
    have h0 : ¬ retries ≤ 0 := by omega
    have h1 : (retries - 1).toNat = n := by omega
    rcases outcome_cases (env.fetchOutcome s.fetchLog.length) with ⟨r, ho, hok⟩ | ⟨e, he⟩ | hab
    · rw [fetchWithRetry_ok env url options retries s r ho hok]
      refine ⟨by simp [afterAttempt]; omega, ?_⟩
      intro hlen
      have : s.fetchLog.length = j := by simpa [afterAttempt] using hlen
      rw [this] at ho
      rcases hj with hj | hj <;> simp [hj] at ho
    · have hne : s.fetchLog.length ≠ j := by
        intro heq
        rw [heq] at he
        rcases hj with hj | hj <;> simp [hj, retriedError] at he
      rw [fetchWithRetry_retry env url options retries s e he h0]
      exact ih (retries - 1) h1 (attemptOptions env options s)
        { afterAttempt env url options s with sleeps := s.sleeps ++ [CONFIG.API.RETRY_DELAY] }
        (by simp [afterAttempt]; omega)
    · obtain ⟨hres, hlog⟩ := fetchWithRetry_abort env url options retries s hab
      rw [hlog]
      exact ⟨by simp; omega, fun _ => hres⟩

/-! ## Retry policy (C1, C2, C3, C6) -/

/-- C1, as stated, fails: with the default budget against an endpoint on which every
attempt times out, it is not the case that 3 attempts are made before the call fails
with the timeout error (one attempt is made). -/
theorem fetchWithRetry_timeout_not_three_attempts :
    ¬ (attemptsBetween ApiState.init
          (fetchWithRetry (envOf .timedOut) CONFIG.API.NORMAL_MODE noOptions
            CONFIG.API.RETRY_ATTEMPTS ApiState.init).2 = 3 ∧
        (fetchWithRetry (envOf .timedOut) CONFIG.API.NORMAL_MODE noOptions
            CONFIG.API.RETRY_ATTEMPTS ApiState.init).1 =
          .error (JsError.ofMessage "Request timeout")) := by
  intro h
  have hlog := (fetchWithRetry_abort (envOf .timedOut) CONFIG.API.NORMAL_MODE noOptions
    CONFIG.API.RETRY_ATTEMPTS ApiState.init (Or.inl rfl)).2
  have h3 := h.1
  rw [attemptsBetween, hlog] at h3
  simp [ApiState.init] at h3

/-- C1, amended: against an endpoint on which every attempt times out, whatever the
retry budget, `fetchWithRetry` makes exactly one fetch attempt, does not sleep, and
fails with the timeout error `Request timeout`. -/
theorem fetchWithRetry_timeout_single_attempt (env : Env) (url : String)
    (options : RequestOptions) (retries : Int) (s : ApiState)
    (h : ∀ k, env.fetchOutcome k = .timedOut) :
    (fetchWithRetry env url options retries s).1 = .error (JsError.ofMessage "Request timeout") ∧
    attemptsBetween s (fetchWithRetry env url options retries s).2 = 1 ∧
    (fetchWithRetry env url options retries s).2.sleeps = s.sleeps := by
  obtain ⟨hres, hlog⟩ := fetchWithRetry_abort env url options retries s (Or.inl (h _))
  refine ⟨hres, ?_, fetchWithRetry_abort_sleeps env url options retries s (Or.inl (h _))⟩
  rw [attemptsBetween, hlog]
  simp

/-- C1, amended, at the default configuration. -/
theorem fetchWithRetry_timeout_single_attempt_witness :
    (fetchWithRetry (envOf .timedOut) CONFIG.API.NORMAL_MODE noOptions
        CONFIG.API.RETRY_ATTEMPTS ApiState.init).1 =
      .error (JsError.ofMessage "Request timeout") ∧
    attemptsBetween ApiState.init
      (fetchWithRetry (envOf .timedOut) CONFIG.API.NORMAL_MODE noOptions
        CONFIG.API.RETRY_ATTEMPTS ApiState.init).2 = 1 ∧
    (fetchWithRetry (envOf .timedOut) CONFIG.API.NORMAL_MODE noOptions
        CONFIG.API.RETRY_ATTEMPTS ApiState.init).2.sleeps = ApiState.init.sleeps :=
  fetchWithRetry_timeout_single_attempt (envOf .timedOut) CONFIG.API.NORMAL_MODE noOptions
    CONFIG.API.RETRY_ATTEMPTS ApiState.init (fun _ => rfl)

/-- C2, as stated, fails: with the default budget against an endpoint that answers
every request with HTTP 400, four fetch attempts are made, not one. -/
theorem fetchWithRetry_client_error_not_single_attempt :
    attemptsBetween ApiState.init
        (fetchWithRetry (envOf (.responded response400)) CONFIG.API.NORMAL_MODE noOptions
          CONFIG.API.RETRY_ATTEMPTS ApiState.init).2 = 4 ∧
    attemptsBetween ApiState.init
        (fetchWithRetry (envOf (.responded response400)) CONFIG.API.NORMAL_MODE noOptions
          CONFIG.API.RETRY_ATTEMPTS ApiState.init).2 ≠ 1 := by
  have hlen := (fetchWithRetry_all_failed (envOf (.responded response400))
    CONFIG.API.NORMAL_MODE (fun _ => ⟨_, rfl⟩) 3 CONFIG.API.RETRY_ATTEMPTS rfl noOptions
    ApiState.init).1
  rw [attemptsBetween, hlen]
  simp [ApiState.init]

/-- C2, amended: an HTTP 400 response is retried like any other failure that is not
an abort. Against an endpoint that answers every request with HTTP 400 the call makes
as many attempts, with the same delays, as against one that answers every request with
HTTP 500; it makes at least two attempts when the budget is 2 or more; and it fails
with the error `HTTP 400: <statusText>`. -/
theorem fetchWithRetry_client_error_retried (env env5 : Env) (url : String)
    (options : RequestOptions) (retries : Int) (s : ApiState) (r4 r5 : Response)
    (h4 : ∀ k, env.fetchOutcome k = .responded r4) (hs4 : r4.status = 400)
    (h5 : ∀ k, env5.fetchOutcome k = .responded r5) (hs5 : r5.status = 500) :
    attemptsBetween s (fetchWithRetry env url options retries s).2 =
      attemptsBetween s (fetchWithRetry env5 url options retries s).2 ∧
    (fetchWithRetry env url options retries s).2.sleeps =
      (fetchWithRetry env5 url options retries s).2.sleeps ∧
    (fetchWithRetry env url options retries s).1 =
      .error (JsError.ofMessage ("HTTP 400: " ++ r4.statusText)) ∧
    (2 ≤ retries → 2 ≤ attemptsBetween s (fetchWithRetry env url options retries s).2) := by
  have hok4 : r4.ok = false := by simp [Response.ok, hs4]
  have hok5 : r5.ok = false := by simp [Response.ok, hs5]
  have hall4 : ∀ k, ∃ e, retriedError (env.fetchOutcome k) = some e := fun k =>
    ⟨JsError.ofMessage ("HTTP " ++ toString r4.status ++ ": " ++ r4.statusText),
     by simp [h4 k, retriedError, hok4]⟩
  have hall5 : ∀ k, ∃ e, retriedError (env5.fetchOutcome k) = some e := fun k =>
    ⟨JsError.ofMessage ("HTTP " ++ toString r5.status ++ ": " ++ r5.statusText),
     by simp [h5 k, retriedError, hok5]⟩
  obtain ⟨hlen4, hsl4, e, he, hres⟩ :=
    fetchWithRetry_all_failed env url hall4 retries.toNat retries rfl options s
  obtain ⟨hlen5, hsl5, -⟩ :=
    fetchWithRetry_all_failed env5 url hall5 retries.toNat retries rfl options s
  refine ⟨by rw [attemptsBetween, attemptsBetween, hlen4, hlen5], by rw [hsl4, hsl5], ?_, ?_⟩
  · rw [hres]
    simp [h4, retriedError, hok4, hs4] at he
    rw [← he]
    rfl
  · intro h2
    rw [attemptsBetween, hlen4]
    omega

/-- C2, amended, at the default configuration. -/
theorem fetchWithRetry_client_error_retried_witness :
    attemptsBetween ApiState.init
        (fetchWithRetry (envOf (.responded response400)) CONFIG.API.NORMAL_MODE noOptions
          CONFIG.API.RETRY_ATTEMPTS ApiState.init).2 =
      attemptsBetween ApiState.init
        (fetchWithRetry (envOf (.responded response500)) CONFIG.API.NORMAL_MODE noOptions
          CONFIG.API.RETRY_ATTEMPTS ApiState.init).2 ∧
    2 ≤ attemptsBetween ApiState.init
        (fetchWithRetry (envOf (.responded response400)) CONFIG.API.NORMAL_MODE noOptions
          CONFIG.API.RETRY_ATTEMPTS ApiState.init).2 :=
  have h := fetchWithRetry_client_error_retried (envOf (.responded response400))
    (envOf (.responded response500)) CONFIG.API.NORMAL_MODE noOptions
    CONFIG.API.RETRY_ATTEMPTS ApiState.init response400 response500
    (fun _ => rfl) rfl (fun _ => rfl) rfl
  ⟨h.1, h.2.2.2 (by decide)⟩

/-- C3 at the default configuration: against an endpoint that answers every request
with HTTP 500, `fetchWithRetry` with `retries = RETRY_ATTEMPTS = 3` makes four fetch
attempts (not three), sleeping `RETRY_DELAY` three times, and then fails with the error
of the last attempt. -/
theorem fetchWithRetry_default_budget_four_attempts :
    attemptsBetween ApiState.init
        (fetchWithRetry (envOf (.responded response500)) CONFIG.API.NORMAL_MODE noOptions
          CONFIG.API.RETRY_ATTEMPTS ApiState.init).2 = 4 ∧
    (fetchWithRetry (envOf (.responded response500)) CONFIG.API.NORMAL_MODE noOptions
          CONFIG.API.RETRY_ATTEMPTS ApiState.init).2.sleeps = [1000, 1000, 1000] ∧
    (fetchWithRetry (envOf (.responded response500)) CONFIG.API.NORMAL_MODE noOptions
          CONFIG.API.RETRY_ATTEMPTS ApiState.init).1 =
      .error (JsError.ofMessage "HTTP 500: Internal Server Error") := by
  obtain ⟨hlen, hsl, e, he, hres⟩ := fetchWithRetry_all_failed (envOf (.responded response500))
    CONFIG.API.NORMAL_MODE (fun _ => ⟨_, rfl⟩) 3 CONFIG.API.RETRY_ATTEMPTS rfl noOptions
    ApiState.init
  refine ⟨by rw [attemptsBetween, hlen]; simp [ApiState.init], ?_, ?_⟩
  · rw [hsl]; rfl
  · rw [hres]
    have : e = JsError.ofMessage "HTTP 500: Internal Server Error" := by
      have h2 : retriedError ((envOf (.responded response500)).fetchOutcome
          (ApiState.init.fetchLog.length + 3)) =
          some (JsError.ofMessage "HTTP 500: Internal Server Error") := by decide
      rw [h2] at he
      exact (Option.some.inj he).symm
    rw [this]

/-- C6, as stated, fails: the error of a call whose in-flight attempt is aborted by
`cancelAllRequests()` is the same as the error of a call whose attempt is aborted by
its own timeout. -/
theorem fetchWithRetry_cancel_same_as_timeout :
    (fetchWithRetry (envOf .cancelled) CONFIG.API.NORMAL_MODE noOptions
        CONFIG.API.RETRY_ATTEMPTS ApiState.init).1 =
      (fetchWithRetry (envOf .timedOut) CONFIG.API.NORMAL_MODE noOptions
        CONFIG.API.RETRY_ATTEMPTS ApiState.init).1 := by
  rw [(fetchWithRetry_abort (envOf .cancelled) CONFIG.API.NORMAL_MODE noOptions
        CONFIG.API.RETRY_ATTEMPTS ApiState.init (Or.inr rfl)).1,
      (fetchWithRetry_abort (envOf .timedOut) CONFIG.API.NORMAL_MODE noOptions
        CONFIG.API.RETRY_ATTEMPTS ApiState.init (Or.inl rfl)).1]

/-- C6, amended: when the `j`-th fetch is in flight while `cancelAllRequests()` runs, a
call of `fetchWithRetry` makes no attempt after it, and if it made that attempt it fails
with the error `Request timeout`, which is also the error of a call whose attempt is
aborted by its own timeout. -/
theorem fetchWithRetry_cancel_final (env : Env) (url : String) (options : RequestOptions)
    (retries : Int) (s : ApiState) (j : Nat)
    (hs : s.fetchLog.length ≤ j) (hj : env.fetchOutcome j = .cancelled) :
    (fetchWithRetry env url options retries s).2.fetchLog.length ≤ j + 1 ∧
    ((fetchWithRetry env url options retries s).2.fetchLog.length = j + 1 →
      (fetchWithRetry env url options retries s).1 =
        .error (JsError.ofMessage "Request timeout")) ∧
    (∀ (env2 : Env) (options2 : RequestOptions) (retries2 : Int) (s2 : ApiState),
      env2.fetchOutcome s2.fetchLog.length = .timedOut →
        (fetchWithRetry env2 url options2 retries2 s2).1 =
          .error (JsError.ofMessage "Request timeout")) := by
  obtain ⟨hle, hres⟩ :=
    fetchWithRetry_abort_at env url j (Or.inr hj) retries.toNat retries rfl options s hs
  exact ⟨hle, hres, fun env2 options2 retries2 s2 h2 =>
    (fetchWithRetry_abort env2 url options2 retries2 s2 (Or.inl h2)).1⟩

/-- The run against `envCancelSecond` makes its second attempt. -/
theorem envCancelSecond_two_attempts :
    (fetchWithRetry envCancelSecond CONFIG.API.NORMAL_MODE noOptions
        CONFIG.API.RETRY_ATTEMPTS ApiState.init).2.fetchLog.length = 1 + 1 := by
  rw [fetchWithRetry_retry envCancelSecond CONFIG.API.NORMAL_MODE noOptions
    CONFIG.API.RETRY_ATTEMPTS ApiState.init
    (JsError.ofMessage "HTTP 500: Internal Server Error") (by decide) (by decide)]
  rw [(fetchWithRetry_abort envCancelSecond CONFIG.API.NORMAL_MODE
    (attemptOptions envCancelSecond noOptions ApiState.init) (CONFIG.API.RETRY_ATTEMPTS - 1)
    { afterAttempt envCancelSecond CONFIG.API.NORMAL_MODE noOptions ApiState.init with
      sleeps := ApiState.init.sleeps ++ [CONFIG.API.RETRY_DELAY] } (Or.inr rfl)).2]
  rfl

/-- C6, amended, on a run whose first attempt gets a 500 response and whose second
attempt is cancelled: two attempts are made and the call fails with `Request timeout`. -/
theorem fetchWithRetry_cancel_final_witness :
    (fetchWithRetry envCancelSecond CONFIG.API.NORMAL_MODE noOptions
        CONFIG.API.RETRY_ATTEMPTS ApiState.init).2.fetchLog.length ≤ 1 + 1 ∧
    (fetchWithRetry envCancelSecond CONFIG.API.NORMAL_MODE noOptions
        CONFIG.API.RETRY_ATTEMPTS ApiState.init).1 =
      .error (JsError.ofMessage "Request timeout") :=
  have h := fetchWithRetry_cancel_final envCancelSecond CONFIG.API.NORMAL_MODE noOptions
    CONFIG.API.RETRY_ATTEMPTS ApiState.init 1 (by decide) rfl
  ⟨h.1, h.2.1 envCancelSecond_two_attempts⟩

/-! ## Submission: request identifier and connection check (C4, C5) -/

/-- The state in which a submission that is online and has a payload ends is the state
in which its `fetchWithRetry` call ends. -/
theorem sendValidated_state (env : Env) (endpoint mode : String) (data : SubmissionData)
    (s : ApiState) (payload : Payload) (hon : env.onLine = true)
    (hp : preparePayload env data mode = .ok payload) :
    (sendValidated env endpoint mode data s).2 =
      (fetchWithRetry env endpoint
        { method := some "POST", headers := submissionHeaders (env.generatedId s.idCalls)
          body := some payload, signal := none }
        CONFIG.API.RETRY_ATTEMPTS { s with idCalls := s.idCalls + 1 }).2 := by
  unfold sendValidated
  simp only [hon, hp, Bool.not_true, Bool.false_eq_true, if_false]
  split
  · next response s2 heq =>
    rw [heq]
    cases response.json <;> rfl
  · next error s2 heq => rw [heq]

/-- Every fetch call of a submission carries, as `X-Request-ID`, the identifier
generated before the first attempt. -/
theorem sendValidated_request_id (env : Env) (endpoint mode : String) (data : SubmissionData)
    (s : ApiState) :
    ∃ added : List FetchCall,
      (sendValidated env endpoint mode data s).2.fetchLog = s.fetchLog ++ added ∧
      ∀ c ∈ added, c.header "X-Request-ID" = some (env.generatedId s.idCalls) := by
  cases hon : env.onLine with
  | false => exact ⟨[], by simp [sendValidated, hon], by simp⟩
  | true =>
    cases hp : preparePayload env data mode with
    | error e => exact ⟨[], by simp [sendValidated, hon, hp], by simp⟩
    | ok payload =>
      rw [sendValidated_state env endpoint mode data s payload hon hp]
      obtain ⟨added, hlog, -, -, hall⟩ := fetchWithRetry_log env endpoint
        CONFIG.API.RETRY_ATTEMPTS.toNat CONFIG.API.RETRY_ATTEMPTS rfl
        { method := some "POST", headers := submissionHeaders (env.generatedId s.idCalls)
          body := some payload, signal := none }
        { s with idCalls := s.idCalls + 1 }
      refine ⟨added, hlog, ?_⟩
      intro c hc
      have hh := (hall c hc).2.1
      simp only [FetchCall.header, hh, submissionHeaders]
      rfl

/-- C4, as stated, fails: a normal-mode submission against an endpoint that always
answers HTTP 500 makes four fetch attempts, and although the generated identifiers are
pairwise distinct, all four attempts carry the same `X-Request-ID` header. -/
theorem sendNormalMode_same_request_id :
    ((List.range 5).map (envOf (.responded response500)).generatedId).Nodup ∧
    (sendNormalMode (envOf (.responded response500)) validData ApiState.init).2.fetchLog.length = 4 ∧
    ∀ c ∈ (sendNormalMode (envOf (.responded response500)) validData ApiState.init).2.fetchLog,
      c.header "X-Request-ID" = some "0-r" := by
  have hv : validateNormalModeData validData = .ok () := rfl
  have hs : sendNormalMode (envOf (.responded response500)) validData ApiState.init =
      sendValidated (envOf (.responded response500)) CONFIG.API.NORMAL_MODE "normal" validData
        ApiState.init := by
    simp [sendNormalMode, hv]
  refine ⟨by decide, ?_, ?_⟩
  · rw [hs, sendValidated_state (envOf (.responded response500)) CONFIG.API.NORMAL_MODE "normal"
      validData ApiState.init _ rfl rfl]
    exact (fetchWithRetry_all_failed (envOf (.responded response500)) CONFIG.API.NORMAL_MODE
      (fun _ => ⟨_, rfl⟩) 3 CONFIG.API.RETRY_ATTEMPTS rfl _ _).1
  · obtain ⟨added, hlog, hall⟩ := sendValidated_request_id (envOf (.responded response500))
      CONFIG.API.NORMAL_MODE "normal" validData ApiState.init
    rw [hs, hlog]
    intro c hc
    have hc2 : c ∈ added := by simpa [ApiState.init] using hc
    rw [hall c hc2]
    decide

/-- C4, amended: all fetch attempts of one submission by `sendNormalMode` or
`sendTestMode` carry the same `X-Request-ID` header, the identifier generated once for
the submission before its first attempt. -/
theorem send_request_id_shared (env : Env) (data : SubmissionData) (s : ApiState) :
    (∃ added : List FetchCall,
      (sendNormalMode env data s).2.fetchLog = s.fetchLog ++ added ∧
      ∀ c ∈ added, c.header "X-Request-ID" = some (env.generatedId s.idCalls)) ∧
    (∃ added : List FetchCall,
      (sendTestMode env data s).2.fetchLog = s.fetchLog ++ added ∧
      ∀ c ∈ added, c.header "X-Request-ID" = some (env.generatedId s.idCalls)) := by
  constructor
  · unfold sendNormalMode
    cases validateNormalModeData data with
    | error e => exact ⟨[], by simp, by simp⟩
    | ok u => exact sendValidated_request_id env CONFIG.API.NORMAL_MODE "normal" data s
  · unfold sendTestMode
    cases validateTestModeData data with
    | error e => exact ⟨[], by simp, by simp⟩
    | ok u => exact sendValidated_request_id env CONFIG.API.TEST_MODE "test" data s

/-- C5: for data that passes validation, when `navigator.onLine` is false both
`sendNormalMode` and `sendTestMode` fail with the no-connection error and leave the
state as it was: no fetch attempt, no delay, no identifier generated. -/
theorem send_offline_fails_fast (env : Env) (data : SubmissionData) (s : ApiState)
    (hoff : env.onLine = false) :
    (validateNormalModeData data = .ok () →
      sendNormalMode env data s =
        (.error (JsError.ofMessage "Aucune connexion Internet. Veuillez réessayer plus tard."), s) ∧
      attemptsBetween s (sendNormalMode env data s).2 = 0) ∧
    (validateTestModeData data = .ok () →
      sendTestMode env data s =
        (.error (JsError.ofMessage "Aucune connexion Internet. Veuillez réessayer plus tard."), s) ∧
      attemptsBetween s (sendTestMode env data s).2 = 0) := by
  constructor
  · intro hv
    have : sendNormalMode env data s =
        (.error (JsError.ofMessage "Aucune connexion Internet. Veuillez réessayer plus tard."), s) := by
      simp [sendNormalMode, hv, sendValidated, hoff]
    exact ⟨this, by rw [this]; simp [attemptsBetween]⟩
  · intro hv
    have : sendTestMode env data s =
        (.error (JsError.ofMessage "Aucune connexion Internet. Veuillez réessayer plus tard."), s) := by
      simp [sendTestMode, hv, sendValidated, hoff]
    exact ⟨this, by rw [this]; simp [attemptsBetween]⟩

/-- C5 on valid data, offline, in both modes. -/
theorem send_offline_fails_fast_witness :
    (sendNormalMode (envOffline .timedOut) validData ApiState.init =
        (.error (JsError.ofMessage "Aucune connexion Internet. Veuillez réessayer plus tard."),
          ApiState.init) ∧
      attemptsBetween ApiState.init
        (sendNormalMode (envOffline .timedOut) validData ApiState.init).2 = 0) ∧
    (sendTestMode (envOffline .timedOut) validData ApiState.init =
        (.error (JsError.ofMessage "Aucune connexion Internet. Veuillez réessayer plus tard."),
          ApiState.init) ∧
      attemptsBetween ApiState.init
        (sendTestMode (envOffline .timedOut) validData ApiState.init).2 = 0) :=
  have h := send_offline_fails_fast (envOffline .timedOut) validData ApiState.init rfl
  ⟨h.1 rfl, h.2 rfl⟩

/-! ## Validation (C7, C9) -/

theorem truthy_iff (v : Option String) : truthy v = true ↔ present v := by
  cases v with
  | none => simp [truthy, present]
  | some str => simp [truthy, present]

theorem not_truthy_iff (v : Option String) : (!truthy v) = true ↔ ¬ present v := by
  rw [← truthy_iff]; simp

/-- The section loop accepts exactly the lists all of whose entries are complete. -/
theorem validateEachSection_ok_iff (entries : List (String × SectionData)) :
    validateEachSection entries = .ok () ↔ ∀ e ∈ entries, sectionComplete e.2 := by
  induction entries with
  | nil => simp [validateEachSection]
  | cons e rest ih =>
    obtain ⟨key, sec⟩ := e
    unfold validateEachSection
    by_cases ha : present sec.audioBase64
    · by_cases hm : present sec.mimeType
      · have ha2 := (truthy_iff _).mpr ha
        have hm2 := (truthy_iff _).mpr hm
        simp [ha2, hm2, ih, sectionComplete, ha, hm]
      · have ha2 := (truthy_iff _).mpr ha
        have hm2 : truthy sec.mimeType = false := by
          simpa using (not_truthy_iff _).mpr hm
        simp [ha2, hm2, sectionComplete, hm]
    · have ha2 : truthy sec.audioBase64 = false := by
        simpa using (not_truthy_iff _).mpr ha
      simp [ha2, sectionComplete, ha]

/-- The section loop throws for the first incomplete entry in entry order: the audio
error if that entry has no audio, the MIME error otherwise. -/
theorem validateEachSection_first_offender (pre post : List (String × SectionData))
    (key : String) (sec : SectionData)
    (hpre : ∀ e ∈ pre, sectionComplete e.2) (hsec : ¬ sectionComplete sec) :
    validateEachSection (pre ++ (key, sec) :: post) =
      .error (JsError.ofMessage
        (if present sec.audioBase64 then "Section " ++ key ++ ": type MIME manquant"
         else "Section " ++ key ++ ": audio manquant")) := by
  induction pre with
  | nil =>
    simp only [List.nil_append]
    unfold validateEachSection
    by_cases ha : present sec.audioBase64
    · have hm : ¬ present sec.mimeType := fun hm => hsec ⟨ha, hm⟩
      have ha2 := (truthy_iff _).mpr ha
      have hm2 : truthy sec.mimeType = false := by
        simpa using (not_truthy_iff _).mpr hm
      simp [ha2, hm2, ha]
    · have ha2 : truthy sec.audioBase64 = false := by
        simpa using (not_truthy_iff _).mpr ha
      simp [ha2, ha]
  | cons e rest ih =>
    obtain ⟨k, sc⟩ := e
    have hc : sectionComplete sc := hpre (k, sc) (List.mem_cons_self _ _)
    have ha2 := (truthy_iff _).mpr hc.1
    have hm2 := (truthy_iff _).mpr hc.2
    simp only [List.cons_append]
    unfold validateEachSection
    simp only [ha2, hm2, Bool.not_true, Bool.false_eq_true, if_false]
    exact ih (fun e he => hpre e (List.mem_cons_of_mem _ he))

theorem tooFewSections_false_iff (sections : Option (List (String × SectionData))) :
    tooFewSections sections = false ↔ ∃ entries, sections = some entries ∧ 3 ≤ entries.length := by
  cases sections with
  | none => simp [tooFewSections]
  | some entries => simp [tooFewSections]

/-- C7: `validateNormalModeData(data)` returns without throwing if and only if
`username`, `accessCode`, `NumeroDeDossier` and `NomDuPatient` are all present and
non-empty and `data.sections` has at least 3 entries, each with a non-empty
`audioBase64` and a non-empty `mimeType`; `validateTestModeData` accepts under the same
condition without the `username` / `accessCode` requirement. -/
theorem validate_accepts_iff (data : SubmissionData) :
    (validateNormalModeData data = .ok () ↔
      present data.username ∧ present data.accessCode ∧
      present data.NumeroDeDossier ∧ present data.NomDuPatient ∧
      ∃ entries, data.sections = some entries ∧ 3 ≤ entries.length ∧
        ∀ e ∈ entries, present e.2.audioBase64 ∧ present e.2.mimeType) ∧
    (validateTestModeData data = .ok () ↔
      present data.NumeroDeDossier ∧ present data.NomDuPatient ∧
      ∃ entries, data.sections = some entries ∧ 3 ≤ entries.length ∧
        ∀ e ∈ entries, present e.2.audioBase64 ∧ present e.2.mimeType) := by
  have hsec : (tooFewSections data.sections = false ∧
        validateEachSection (data.sections.getD []) = .ok ()) ↔
      ∃ entries, data.sections = some entries ∧ 3 ≤ entries.length ∧
        ∀ e ∈ entries, present e.2.audioBase64 ∧ present e.2.mimeType := by
    rw [tooFewSections_false_iff]
    constructor
    · rintro ⟨⟨entries, he, hlen⟩, hv⟩
      rw [he] at hv
      exact ⟨entries, he, hlen, (validateEachSection_ok_iff entries).mp hv⟩
    · rintro ⟨entries, he, hlen, hall⟩
      refine ⟨⟨entries, he, hlen⟩, ?_⟩
      rw [he]
      exact (validateEachSection_ok_iff entries).mpr hall
  constructor
  · rw [← hsec]
    unfold validateNormalModeData
    by_cases hu : present data.username <;> by_cases ha : present data.accessCode <;>
      by_cases hn : present data.NumeroDeDossier <;> by_cases hp : present data.NomDuPatient <;>
      cases ht : tooFewSections data.sections <;>
      simp [← truthy_iff] at hu ha hn hp <;>
      simp [hu, ha, hn, hp, ht, ← truthy_iff]
  · rw [← hsec]
    unfold validateTestModeData
    by_cases hn : present data.NumeroDeDossier <;> by_cases hp : present data.NomDuPatient <;>
      cases ht : tooFewSections data.sections <;>
      simp [← truthy_iff] at hn hp <;>
      simp [hn, hp, ht, ← truthy_iff]

/-- C9: `validateNormalModeData` reports the first violation in the specified order.
A missing identity field gives an identity-field error whatever the sections are (the
credentials error first, then the patient error); otherwise fewer than 3 sections give
the minimum-section-count error whatever the sections contain; only otherwise a
per-section error is thrown, for the first incomplete section in entry order (missing
audio, else missing MIME type). -/
theorem validateNormalModeData_order (data : SubmissionData) :
    ((¬ present data.username ∨ ¬ present data.accessCode) →
      validateNormalModeData data =
        .error (JsError.ofMessage "Identifiant et code d\x27accès requis")) ∧
    (present data.username → present data.accessCode →
      (¬ present data.NumeroDeDossier ∨ ¬ present data.NomDuPatient) →
      validateNormalModeData data =
        .error (JsError.ofMessage "Numéro de dossier et nom du patient requis")) ∧
    (identityPresent data →
      (data.sections = none ∨ ∃ entries, data.sections = some entries ∧ entries.length < 3) →
      validateNormalModeData data =
        .error (JsError.ofMessage "Au moins 3 sections d\x27enregistrement requises")) ∧
    (identityPresent data →
      ∀ (pre post : List (String × SectionData)) (key : String) (sec : SectionData),
        data.sections = some (pre ++ (key, sec) :: post) →
        3 ≤ (pre ++ (key, sec) :: post).length →
        (∀ e ∈ pre, sectionComplete e.2) → ¬ sectionComplete sec →
        validateNormalModeData data =
          .error (JsError.ofMessage
            (if present sec.audioBase64 then "Section " ++ key ++ ": type MIME manquant"
             else "Section " ++ key ++ ": audio manquant"))) := by
  refine ⟨?_, ?_, ?_, ?_⟩
  · intro h
    unfold validateNormalModeData
    have : (!truthy data.username || !truthy data.accessCode) = true := by
      rcases h with h | h
      · simp [(not_truthy_iff _).mpr h]
      · simp [(not_truthy_iff _).mpr h]
    rw [if_pos this]
  · intro hu ha h
    unfold validateNormalModeData
    have h1 : (!truthy data.username || !truthy data.accessCode) = false := by
      simp [(truthy_iff _).mpr hu, (truthy_iff _).mpr ha]
    have h2 : (!truthy data.NumeroDeDossier || !truthy data.NomDuPatient) = true := by
      rcases h with h | h
      · simp [(not_truthy_iff _).mpr h]
      · simp [(not_truthy_iff _).mpr h]
    simp [h1, h2]
  · rintro ⟨hu, ha, hn, hp⟩ h
    unfold validateNormalModeData
    have h1 : (!truthy data.username || !truthy data.accessCode) = false := by
      simp [(truthy_iff _).mpr hu, (truthy_iff _).mpr ha]
    have h2 : (!truthy data.NumeroDeDossier || !truthy data.NomDuPatient) = false := by
      simp [(truthy_iff _).mpr hn, (truthy_iff _).mpr hp]
    have h3 : tooFewSections data.sections = true := by
      rcases h with h | ⟨entries, he, hlen⟩
      · simp [h, tooFewSections]
      · simp [he, tooFewSections, hlen]
    simp [h1, h2, h3]
  · rintro ⟨hu, ha, hn, hp⟩ pre post key sec hsec hlen hpre hbad
    unfold validateNormalModeData
    have h1 : (!truthy data.username || !truthy data.accessCode) = false := by
      simp [(truthy_iff _).mpr hu, (truthy_iff _).mpr ha]
    have h2 : (!truthy data.NumeroDeDossier || !truthy data.NomDuPatient) = false := by
      simp [(truthy_iff _).mpr hn, (truthy_iff _).mpr hp]
    have h3 : tooFewSections data.sections = false :=
      (tooFewSections_false_iff _).mpr ⟨_, hsec, hlen⟩
    simp only [h1, h2, h3, Bool.false_eq_true, if_false]
    rw [hsec]
    exact validateEachSection_first_offender pre post key sec hpre hbad

/-- C9 on four inputs, one for each rank of the order. -/
theorem validateNormalModeData_order_witness :
    validateNormalModeData dataNoUsername =
      .error (JsError.ofMessage "Identifiant et code d\x27accès requis") ∧
    validateNormalModeData dataNoPatient =
      .error (JsError.ofMessage "Numéro de dossier et nom du patient requis") ∧
    validateNormalModeData dataTwoSections =
      .error (JsError.ofMessage "Au moins 3 sections d\x27enregistrement requises") ∧
    validateNormalModeData dataSecondIncomplete =
      .error (JsError.ofMessage "Section partie2: type MIME manquant") :=
  ⟨(validateNormalModeData_order dataNoUsername).1 (Or.inl (by decide)),
   (validateNormalModeData_order dataNoPatient).2.1 (by decide) (by decide)
     (Or.inr (by decide)),
   (validateNormalModeData_order dataTwoSections).2.2.1 (by decide)
     (Or.inr ⟨_, rfl, by decide⟩),
   (validateNormalModeData_order dataSecondIncomplete).2.2.2 (by decide)
     [("partie1", sampleSection)] [("partie3", sectionEmpty)] "partie2" sectionNoMime
     rfl (by decide) (by decide) (by decide)⟩

/-! ## Sanitisation of the payload (C10) -/

/-- No character is serialised to a piece that holds a raw `<` or `>`. -/
theorem escapeChar_no_angle (c : Char) :
    '<' ∉ Utils.escapeChar c ∧ '>' ∉ Utils.escapeChar c := by
  unfold Utils.escapeChar
  by_cases h1 : c = '&'
  · rw [if_pos h1]; decide
  · rw [if_neg h1]
    by_cases h2 : c = Char.ofNat 160
    · rw [if_pos h2]; decide
    · rw [if_neg h2]
      by_cases h3 : c = '<'
      · rw [if_pos h3]; decide
      · rw [if_neg h3]
        by_cases h4 : c = '>'
        · rw [if_pos h4]; decide
        · rw [if_neg h4]
          simp only [List.mem_singleton]
          exact ⟨fun h => h3 h.symm, fun h => h4 h.symm⟩

/-- The output of `Utils.sanitize` holds no raw `<` or `>`. -/
theorem sanitize_no_angle (v : Option String) :
    '<' ∉ (Utils.sanitize v).toList ∧ '>' ∉ (Utils.sanitize v).toList := by
  cases v with
  | none => exact ⟨by decide, by decide⟩
  | some str =>
    have hl : (Utils.sanitize (some str)).toList = str.toList.flatMap Utils.escapeChar := rfl
    rw [hl]
    simp only [List.mem_flatMap, not_exists, not_and]
    exact ⟨fun c _ => (escapeChar_no_angle c).1, fun c _ => (escapeChar_no_angle c).2⟩

/-- On a list without a no-break space, the serialisation is the escaping of the
specification. -/
theorem flatMap_escapeChar_eq (cs : List Char) (h : Char.ofNat 160 ∉ cs) :
    cs.flatMap Utils.escapeChar = escapeEntities cs := by
  induction cs with
  | nil => rfl
  | cons c rest ih =>
    have hc : c ≠ Char.ofNat 160 := fun hc => h (hc ▸ List.mem_cons_self _ _)
    have hrest : Char.ofNat 160 ∉ rest := fun hr => h (List.mem_cons_of_mem _ hr)
    simp only [List.flatMap_cons, escapeEntities, ih hrest, Utils.escapeChar, if_neg hc]

/-- C10: the payload built by `preparePayload(data, 'normal')` has `accessCode` identical
to `data.accessCode`, while `NumeroDeDossier`, `NomDuPatient` and `username` are the
sanitised inputs; a sanitised value holds no raw `<` or `>`, and for a string without a
no-break space it is the input with each `&`, `<` and `>` replaced by its entity; for
mode `'test'` the payload holds neither `username` nor `accessCode`. A payload is built
whenever `data.sections` is present. -/
theorem preparePayload_sanitization (env : Env) (data : SubmissionData) :
    (∀ p, preparePayload env data "normal" = .ok p →
      p.accessCode = data.accessCode ∧
      p.username = some (Utils.sanitize data.username) ∧
      p.NumeroDeDossier = Utils.sanitize data.NumeroDeDossier ∧
      p.NomDuPatient = Utils.sanitize data.NomDuPatient) ∧
    (∀ p, preparePayload env data "test" = .ok p → p.username = none ∧ p.accessCode = none) ∧
    (∀ v, '<' ∉ (Utils.sanitize v).toList ∧ '>' ∉ (Utils.sanitize v).toList) ∧
    (∀ str : String, Char.ofNat 160 ∉ str.toList →
      Utils.sanitize (some str) = String.mk (escapeEntities str.toList)) ∧
    (data.sections ≠ none →
      (∃ p, preparePayload env data "normal" = .ok p) ∧
      (∃ p, preparePayload env data "test" = .ok p)) := by
  refine ⟨?_, ?_, sanitize_no_angle, ?_, ?_⟩
  · intro p hp
    unfold preparePayload at hp
    cases hs : data.sections with
    | none => simp [hs] at hp
    | some entries =>
      simp only [hs, if_true] at hp
      cases hp
      exact ⟨rfl, rfl, rfl, rfl⟩
  · intro p hp
    unfold preparePayload at hp
    cases hs : data.sections with
    | none => simp [hs] at hp
    | some entries =>
      have hne : ¬ ("test" = "normal") := by decide
      simp only [hs, if_neg hne] at hp
      cases hp
      exact ⟨rfl, rfl⟩
  · intro str h
    simp only [Utils.sanitize, flatMap_escapeChar_eq str.toList h]
  · intro h
    cases hs : data.sections with
    | none => exact absurd hs h
    | some entries =>
      constructor
      · unfold preparePayload
        simp only [hs]
        exact ⟨_, rfl⟩
      · unfold preparePayload
        simp only [hs]
        exact ⟨_, rfl⟩

/-- C10 on data whose fields hold markup: the access code is passed through, the other
fields are escaped. -/
theorem preparePayload_sanitization_witness :
    ∃ p, preparePayload (envOf .timedOut) dataMarkup "normal" = .ok p ∧
      p.accessCode = some "<&>" ∧
      p.username = some "a&lt;b" ∧
      p.NumeroDeDossier = "1&amp;2" ∧
      p.NomDuPatient = "&lt;i&gt;Jean&lt;/i&gt;" ∧
      Utils.sanitize (some "a<b") = String.mk (escapeEntities "a<b".toList) :=
  have h := preparePayload_sanitization (envOf .timedOut) dataMarkup
  ⟨_, rfl, (h.1 _ rfl).1,
    (h.1 _ rfl).2.1.trans (by decide),
    (h.1 _ rfl).2.2.1.trans (by decide),
    (h.1 _ rfl).2.2.2.trans (by decide),
    h.2.2.2.1 "a<b" (by decide)⟩

end APIManager

/-! ## The submission path of script.js (C8) -/

theorem lookup_mem {α : Type} (l : List (String × α)) (k : String) (v : α)
    (h : l.lookup k = some v) : (k, v) ∈ l := by
  induction l with
  | nil => simp at h
  | cons e rest ih =>
    obtain ⟨k2, v2⟩ := e
    by_cases hk : k = k2
    · subst hk
      simp [List.lookup] at h
      subst h
      exact List.mem_cons_self _ _
    · have hb : (k == k2) = false := by simpa using hk
      simp only [List.lookup, hb] at h
      exact List.mem_cons_of_mem _ (ih h)

theorem objSet_of_new {α : Type} (entries : List (String × α)) (key : String) (value : α)
    (h : ∀ e ∈ entries, e.1 ≠ key) : objSet entries key value = entries ++ [(key, value)] := by
  unfold objSet
  have : entries.any (fun e => e.1 == key) = false := by
    simp only [List.any_eq_false, beq_iff_eq]
    exact h
  simp [this]

/-- The section loop only reads the recorders. -/
theorem collectSections_congr (app app2 : App) (h : app2.audioRecorders = app.audioRecorders) :
    ∀ (ids : List String) (index : Nat) (acc : List (String × ScriptSection)),
      collectSections app2 ids index acc = collectSections app ids index acc := by
  intro ids
  induction ids with
  | nil => intro index acc; rfl
  | cons id rest ih =>
    intro index acc
    unfold collectSections
    simp only [App.recorder, h, ih]

/-- With readable recordings the section loop succeeds and adds one entry per section
of the list that has a recording. -/
theorem collectSections_length (app : App) (hread : app.blobsReadable = true) :
    ∀ (ids : List String) (index : Nat) (acc : List (String × ScriptSection)),
      ids.Nodup → (∀ id ∈ ids, ∀ e ∈ acc, e.1 ≠ id) →
      ∃ secs, collectSections app ids index acc = .ok secs ∧
        secs.length = acc.length + (ids.filter app.sectionRecorded).length := by
  intro ids
  induction ids with
  | nil => intro index acc _ _; exact ⟨acc, rfl, by simp⟩
  | cons id rest ih =>
    intro index acc hnd hdis
    have hnd2 : rest.Nodup := (List.nodup_cons.mp hnd).2
    have hid : id ∉ rest := (List.nodup_cons.mp hnd).1
    have hdis2 : ∀ id2 ∈ rest, ∀ e ∈ acc, e.1 ≠ id2 :=
      fun id2 h2 => hdis id2 (List.mem_cons_of_mem _ h2)
    unfold collectSections
    cases hr : app.recorder id with
    | none =>
      have hsr : app.sectionRecorded id = false := by simp [App.sectionRecorded, hr]
      simp only [List.filter_cons, hsr]
      exact ih index acc hnd2 hdis2
    | some recorder =>
      cases hb : recorder.audioBlob with
      | none =>
        have hsr : app.sectionRecorded id = false := by
          simp [App.sectionRecorded, hr, AudioRecorder.hasRecording, hb]
        have hhas : recorder.hasRecording = false := by simp [AudioRecorder.hasRecording, hb]
        simp only [List.filter_cons, hsr, hhas]
        exact ih index acc hnd2 hdis2
      | some blob =>
        have hsr : app.sectionRecorded id = true := by
          simp [App.sectionRecorded, hr, AudioRecorder.hasRecording, hb]
        have hhas : recorder.hasRecording = true := by simp [AudioRecorder.hasRecording, hb]
        have hmem : (id, recorder) ∈ app.audioRecorders := lookup_mem _ _ _ hr
        have hsome : blob.dataUrl.isSome = true := by
          have := List.all_eq_true.mp hread _ hmem
          simpa [hb] using this
        obtain ⟨url, hurl⟩ := Option.isSome_iff_exists.mp hsome
        simp only [List.filter_cons, hsr, hhas, AudioRecorder.getBase64Audio, hb, hurl, if_true]
        rw [objSet_of_new acc id _ (hdis id (List.mem_cons_self _ _))]
        obtain ⟨secs, hsecs, hlen⟩ := ih (index + 1)
          (acc ++ [(id,
            { audioBase64 := secondCommaField url
              fileName := "msgVocal" ++ toString index ++ "." ++ recorder.getAudioFormat
              mimeType := recorder.getMimeType
              format := recorder.getAudioFormat })]) hnd2
          (by
            intro id2 h2 e he
            rcases List.mem_append.mp he with he | he
            · exact hdis2 id2 h2 e he
            · simp only [List.mem_singleton] at he
              subst he
              intro heq
              have heq2 : id = id2 := heq
              exact hid (heq2 ▸ h2))
        refine ⟨secs, hsecs, ?_⟩
        rw [hlen]
        simp
        omega

/-- Without an empty required field and with readable recordings, `preparePayload`
returns a payload, with one section entry per recorded section of the mode. -/
theorem preparePayload_some (env : Env) (mode : Mode) (app : App)
    (hid : app.identityFilled mode = true) (hread : app.blobsReadable = true) :
    ∃ p, preparePayload env mode app = .ok (some p) ∧
      p.sections.length = app.countRecorded mode := by
  cases mode with
  | normal =>
    obtain ⟨secs, hsecs, hlen⟩ := collectSections_length app hread
      ["partie1", "partie2", "partie3", "partie4"] 1 [] (by decide) (by simp)
    simp only [App.identityFilled, Bool.and_eq_true, bne_iff_ne, ne_eq] at hid
    obtain ⟨⟨⟨h1, h2⟩, h3⟩, h4⟩ := hid
    unfold preparePayload
    simp only [h1, h2, h3, h4, decide_False, Bool.or_self, Bool.false_eq_true, if_false, hsecs]
    exact ⟨_, rfl, by simpa [App.countRecorded, sectionsConfig] using hlen⟩
  | test =>
    obtain ⟨secs, hsecs, hlen⟩ := collectSections_length app hread
      ["clinique", "antecedents", "biologie"] 1 [] (by decide) (by simp)
    simp only [App.identityFilled, Bool.and_eq_true, bne_iff_ne, ne_eq] at hid
    obtain ⟨h1, h2⟩ := hid
    unfold preparePayload
    simp only [h1, h2, decide_False, Bool.or_self, Bool.false_eq_true, if_false, hsecs]
    exact ⟨_, rfl, by simpa [App.countRecorded, sectionsConfig] using hlen⟩

/-- With an empty required field `preparePayload` returns `null`. -/
theorem preparePayload_none (env : Env) (mode : Mode) (app : App)
    (hid : app.identityFilled mode = false) : preparePayload env mode app = .ok none := by
  cases mode with
  | normal =>
    unfold preparePayload
    simp only [App.identityFilled, Bool.and_eq_false_iff, bne_eq_false_iff_eq] at hid
    have : (decide (jsTrim app.username = "") || decide (jsTrim app.accessCode = "") ||
        decide (jsTrim app.numeroDossier = "") || decide (jsTrim app.nomPatient = "")) = true := by
      rcases hid with ((h | h) | h) | h <;> simp [h]
    simp only [this, if_true]
  | test =>
    unfold preparePayload
    simp only [App.identityFilled, Bool.and_eq_false_iff, bne_eq_false_iff_eq] at hid
    have : (decide (jsTrim app.numeroDossierTest = "") ||
        decide (jsTrim app.nomPatientTest = "")) = true := by
      rcases hid with h | h <;> simp [h]
    simp only [this, if_true]

theorem preparePayload_setSubmit (env : Env) (mode m : Mode) (b : Button) (app : App) :
    preparePayload env mode (app.setSubmit m b) = preparePayload env mode app := by
  have hrec : (app.setSubmit m b).audioRecorders = app.audioRecorders := by
    cases m <;> rfl
  cases mode <;> cases m <;>
    simp only [preparePayload, collectSections_congr app _ hrec] <;> rfl

theorem updateSectionCount_fetchLog (app : App) :
    (updateSectionCount app).fetchLog = app.fetchLog := by
  unfold updateSectionCount
  cases app.currentMode <;> rfl

theorem resetRecording_fetchLog (key : String) (app : App) :
    (resetRecording key app).fetchLog = app.fetchLog := by
  unfold resetRecording
  cases app.recorder key with
  | none => rfl
  | some r => simp only [updateSectionCount_fetchLog]

theorem resetForm_fetchLog (mode : Mode) (app : App) :
    (resetForm mode app).fetchLog = app.fetchLog := by
  have hfold : ∀ (ids : List String) (a : App),
      (ids.foldl (fun app sectionId =>
        if app.sectionRecorded sectionId then resetRecording sectionId app else app) a).fetchLog =
        a.fetchLog := by
    intro ids
    induction ids with
    | nil => intro a; rfl
    | cons id rest ih =>
      intro a
      simp only [List.foldl_cons]
      rw [ih]
      split
      · exact resetRecording_fetchLog id a
      · rfl
  unfold resetForm
  simp only [updateSectionCount_fetchLog, hfold]
  cases mode <;> rfl

theorem setSubmit_fetchLog (app : App) (m : Mode) (b : Button) :
    (app.setSubmit m b).fetchLog = app.fetchLog := by
  cases m <;> rfl

/-- When `preparePayload` returns a payload, `sendData` makes exactly one `fetch`, to
the endpoint of the mode, with that payload as body. -/
theorem sendData_fetchLog_some (env : Env) (mode : Mode) (app : App) (p : ScriptPayload)
    (hp : preparePayload env mode app = .ok (some p)) :
    (sendData env mode app).fetchLog = app.fetchLog ++ [⟨endpointOf mode, p⟩] := by
  unfold sendData sendDataTry
  simp only [preparePayload_setSubmit, hp, setSubmit_fetchLog]
  cases env.fetchOutcome app.fetchLog.length with
  | responded response =>
    simp only
    cases response.ok with
    | false => simp [App.showToast]
    | true =>
      cases mode with
      | normal => simp [App.showToast, AutoSave.clear, resetForm_fetchLog, setSubmit_fetchLog]
      | test => simp [App.showToast, setSubmit_fetchLog]
  | networkFailure m => simp [App.showToast, setSubmit_fetchLog]
  | timedOut => simp [App.showToast, setSubmit_fetchLog]
  | cancelled => simp [App.showToast, setSubmit_fetchLog]

/-- When `preparePayload` returns `null`, `sendData` makes no `fetch`. -/
theorem sendData_fetchLog_none (env : Env) (mode : Mode) (app : App)
    (hp : preparePayload env mode app = .ok none) :
    (sendData env mode app).fetchLog = app.fetchLog := by
  unfold sendData sendDataTry
  simp only [preparePayload_setSubmit, hp, setSubmit_fetchLog, App.showToast]

/-- C8, as stated, fails: in normal mode with all identity fields filled and only 2 of
the 4 sections recorded, `preparePayload` returns a payload (with 2 sections) rather
than a validation error, and `sendData` makes an HTTP request. -/
theorem sendData_two_of_four_is_sent :
    appTwoOfFour.identityFilled .normal = true ∧
    appTwoOfFour.countRecorded .normal = 2 ∧
    (∃ p, preparePayload (envOf (.responded response200)) .normal appTwoOfFour = .ok (some p) ∧
      p.sections.length = 2) ∧
    (sendData (envOf (.responded response200)) .normal appTwoOfFour).fetchLog.length = 1 :=
  ⟨by decide, by decide, ⟨_, rfl, by decide⟩, by decide⟩

/-- C8, amended: on the submission path of `script.js` there is no minimum-section-count
check. With the required fields of the mode filled (and the recordings readable),
`preparePayload` returns a payload holding one entry per recorded section, however few
they are, and `sendData` makes exactly one HTTP request carrying it; the submission is
stopped before the network only when a required field is empty, in which case
`preparePayload` returns `null` and no request is made. -/
theorem sendData_no_minimum_section_check (env : Env) (mode : Mode) (app : App)
    (hread : app.blobsReadable = true) :
    (app.identityFilled mode = true →
      ∃ p, preparePayload env mode app = .ok (some p) ∧
        p.sections.length = app.countRecorded mode ∧
        (sendData env mode app).fetchLog = app.fetchLog ++ [⟨endpointOf mode, p⟩]) ∧
    (app.identityFilled mode = false →
      preparePayload env mode app = .ok none ∧
        (sendData env mode app).fetchLog = app.fetchLog) := by
  constructor
  · intro hid
    obtain ⟨p, hp, hlen⟩ := preparePayload_some env mode app hid hread
    exact ⟨p, hp, hlen, sendData_fetchLog_some env mode app p hp⟩
  · intro hid
    have hp := preparePayload_none env mode app hid
    exact ⟨hp, sendData_fetchLog_none env mode app hp⟩

/-- C8, amended, on the form with 2 of 4 sections recorded, and on the same form with a
blank patient name. -/
theorem sendData_no_minimum_section_check_witness :
    (∃ p, preparePayload (envOf (.responded response200)) .normal appTwoOfFour = .ok (some p) ∧
      p.sections.length = appTwoOfFour.countRecorded .normal ∧
      (sendData (envOf (.responded response200)) .normal appTwoOfFour).fetchLog =
        appTwoOfFour.fetchLog ++ [⟨endpointOf .normal, p⟩]) ∧
    (preparePayload (envOf (.responded response200)) .normal appNoPatientName = .ok none ∧
      (sendData (envOf (.responded response200)) .normal appNoPatientName).fetchLog =
        appNoPatientName.fetchLog) :=
  ⟨(sendData_no_minimum_section_check (envOf (.responded response200)) .normal appTwoOfFour
      (by decide)).1 (by decide),
   (sendData_no_minimum_section_check (envOf (.responded response200)) .normal appNoPatientName
      (by decide)).2 (by decide)⟩

/-! ## Payload sections and the section count (C11) -/

/-- The keys of the entries the section loop returns: those it started from, then the
recorded sections of the list, in order. -/
theorem collectSections_keys (app : App) :
    ∀ (ids : List String) (index : Nat) (acc secs : List (String × ScriptSection)),
      ids.Nodup → (∀ id ∈ ids, ∀ e ∈ acc, e.1 ≠ id) →
      collectSections app ids index acc = .ok secs →
      secs.map Prod.fst = acc.map Prod.fst ++ ids.filter app.sectionRecorded := by
  intro ids
  induction ids with
  | nil =>
    intro index acc secs _ _ h
    simp only [collectSections, Except.ok.injEq] at h
    simp [h]
  | cons id rest ih =>
    intro index acc secs hnd hdis h
    have hnd2 : rest.Nodup := (List.nodup_cons.mp hnd).2
    have hid : id ∉ rest := (List.nodup_cons.mp hnd).1
    have hdis2 : ∀ id2 ∈ rest, ∀ e ∈ acc, e.1 ≠ id2 :=
      fun id2 h2 => hdis id2 (List.mem_cons_of_mem _ h2)
    unfold collectSections at h
    cases hr : app.recorder id with
    | none =>
      have hsr : app.sectionRecorded id = false := by simp [App.sectionRecorded, hr]
      simp only [hr] at h
      simp only [List.filter_cons, hsr]
      exact ih index acc secs hnd2 hdis2 h
    | some recorder =>
      cases hb : recorder.hasRecording with
      | false =>
        have hsr : app.sectionRecorded id = false := by simp [App.sectionRecorded, hr, hb]
        simp only [hr, hb] at h
        simp only [List.filter_cons, hsr]
        exact ih index acc secs hnd2 hdis2 h
      | true =>
        have hsr : app.sectionRecorded id = true := by simp [App.sectionRecorded, hr, hb]
        simp only [hr, hb, if_true] at h
        cases hg : recorder.getBase64Audio with
        | error e => simp [hg] at h
        | ok base64 =>
          simp only [hg] at h
          rw [objSet_of_new acc id _ (hdis id (List.mem_cons_self _ _))] at h
          have := ih (index + 1) _ secs hnd2
            (by
              intro id2 h2 e he
              rcases List.mem_append.mp he with he | he
              · exact hdis2 id2 h2 e he
              · simp only [List.mem_singleton] at he
                subst he
                intro heq
                have heq2 : id = id2 := heq
                exact hid (heq2 ▸ h2)) h
          rw [this]
          simp [List.filter_cons, hsr]

/-- The text `updateSectionCount()` writes for the current mode is the number of
sections of that mode with a recording. -/
theorem updateSectionCount_text (app : App) :
    (updateSectionCount app).sectionsCount app.currentMode =
      toString (app.countRecorded app.currentMode) ++ " section(s) enregistrée(s)" := by
  unfold updateSectionCount
  cases h : app.currentMode <;> rfl

/-- C11: whenever `preparePayload(mode)` of `script.js` builds a payload, the keys of
`payload.sections` are exactly the ids of the sections of the mode that have a
recording, each once and in the order of the mode, so the number of entries is the
count of recorded sections, the count `updateSectionCount()` displays for the mode;
and a payload is built whenever the identity fields are filled and the recordings are
readable. -/
theorem preparePayload_sections_match (env : Env) (mode : Mode) (app : App) :
    (∀ p, preparePayload env mode app = .ok (some p) →
      p.sections.map Prod.fst = (sectionsConfig mode).filter app.sectionRecorded ∧
      (p.sections.map Prod.fst).Nodup ∧
      p.sections.length = app.countRecorded mode ∧
      (app.currentMode = mode →
        (updateSectionCount app).sectionsCount mode =
          toString p.sections.length ++ " section(s) enregistrée(s)")) ∧
    (app.identityFilled mode = true → app.blobsReadable = true →
      ∃ p, preparePayload env mode app = .ok (some p)) := by
  constructor
  · intro p hp
    have hkeys : p.sections.map Prod.fst = (sectionsConfig mode).filter app.sectionRecorded := by
      cases mode with
      | normal =>
        unfold preparePayload at hp
        simp only at hp
        split at hp
        · simp at hp
        · cases hc : collectSections app ["partie1", "partie2", "partie3", "partie4"] 1 [] with
          | error e => simp [hc] at hp
          | ok secs =>
            simp only [hc, Except.ok.injEq, Option.some.injEq] at hp
            subst hp
            simpa [sectionsConfig] using
              collectSections_keys app _ 1 [] secs (by decide) (by simp) hc
      | test =>
        unfold preparePayload at hp
        simp only at hp
        split at hp
        · simp at hp
        · cases hc : collectSections app ["clinique", "antecedents", "biologie"] 1 [] with
          | error e => simp [hc] at hp
          | ok secs =>
            simp only [hc, Except.ok.injEq, Option.some.injEq] at hp
            subst hp
            simpa [sectionsConfig] using
              collectSections_keys app _ 1 [] secs (by decide) (by simp) hc
    have hlen : p.sections.length = app.countRecorded mode := by
      have := congrArg List.length hkeys
      simpa [App.countRecorded] using this
    refine ⟨hkeys, ?_, hlen, ?_⟩
    · rw [hkeys]
      exact List.Nodup.filter _ (by cases mode <;> decide)
    · intro hm
      rw [hlen, ← hm]
      exact updateSectionCount_text app
  · intro hid hread
    obtain ⟨p, hp, -⟩ := preparePayload_some env mode app hid hread
    exact ⟨p, hp⟩

/-- C11 on the form with three recorded sections: three entries, keyed `partie1`,
`partie2`, `partie4`. -/
theorem preparePayload_sections_match_witness :
    ∃ p, preparePayload (envOf (.responded response200)) .normal appThreeOfFour = .ok (some p) ∧
      p.sections.map Prod.fst = ["partie1", "partie2", "partie4"] ∧
      p.sections.length = 3 ∧
      (updateSectionCount appThreeOfFour).sectionsCount .normal =
        "3 section(s) enregistrée(s)" :=
  have h := (preparePayload_sections_match (envOf (.responded response200)) .normal
    appThreeOfFour).1 _ rfl
  ⟨_, rfl, h.1.trans (by decide), h.2.2.1.trans (by decide), (h.2.2.2 rfl).trans (by decide)⟩

/-! ## The duration limit (C12) -/

/-- C12: at a tick of the duration timer of a session whose accumulated recording time
`Date.now() - startTime` is `e` milliseconds, the limit-reached notification is raised
and `stopRecording` is invoked if and only if `e ≥ 120000`; in particular at exactly
120 s, and not at 119.9 s. -/
theorem timerTick_limit (policy : StopInactive) (now : Int) (key : String) (app : App)
    (r : AudioRecorder) (hr : app.recorder key = some r) :
    (120000 ≤ r.elapsed now →
      timerTick policy now key app = stopRecording policy key (app.showToast limitToast)) ∧
    (r.elapsed now < 120000 → timerTick policy now key app = .ok app) ∧
    (r.elapsed now = 120000 →
      timerTick policy now key app = stopRecording policy key (app.showToast limitToast)) ∧
    (r.elapsed now = 119900 → timerTick policy now key app = .ok app) := by
  have hfloor : Int.fdiv (r.elapsed now) 1000 = r.elapsed now / 1000 :=
    Int.fdiv_eq_ediv _ (by decide)
  have hyes : 120000 ≤ r.elapsed now →
      timerTick policy now key app = stopRecording policy key (app.showToast limitToast) := by
    intro h
    have hs : Int.fdiv (r.elapsed now) 1000 ≥ MAX_DURATION := by
      rw [hfloor]; unfold MAX_DURATION; omega
    simp only [timerTick, hr, hs, if_true]
  have hno : r.elapsed now < 120000 → timerTick policy now key app = .ok app := by
    intro h
    have hs : ¬ Int.fdiv (r.elapsed now) 1000 ≥ MAX_DURATION := by
      rw [hfloor]; unfold MAX_DURATION; omega
    simp only [timerTick, hr, hs, if_false]
  exact ⟨hyes, hno, fun h => hyes (by omega), fun h => hno (by omega)⟩

/-- C12 on a session recording since time 1000: the tick at 121000 (120 s) notifies and
stops, the tick at 120900 (119.9 s) changes nothing. -/
theorem timerTick_limit_witness :
    timerTick .ignores 121000 "partie3" appRecording =
      stopRecording .ignores "partie3" (appRecording.showToast limitToast) ∧
    timerTick .ignores 120900 "partie3" appRecording = .ok appRecording :=
  have h1 := timerTick_limit .ignores 121000 "partie3" appRecording
    (recordingSession "partie3" 7) rfl
  have h2 := timerTick_limit .ignores 120900 "partie3" appRecording
    (recordingSession "partie3" 7) rfl
  ⟨h1.2.2.1 (by decide), h2.2.2.2 (by decide)⟩

/-! ## The registry of sessions -/

theorem lookup_map_replace {α : Type} (l : List (String × α)) (k k2 : String) (v : α) :
    (l.map (fun e => if e.1 == k then (k, v) else e)).lookup k2 =
      if k2 = k then (if l.any (fun e => e.1 == k) then some v else none)
      else l.lookup k2 := by
  induction l with
  | nil => simp
  | cons e rest ih =>
    obtain ⟨k3, v3⟩ := e
    rw [List.map_cons]
    by_cases hk : k3 = k
    · subst hk
      have hhead : (if ((k3, v3) : String × α).1 == k3 then (k3, v) else (k3, v3)) = (k3, v) := by
        simp
      rw [hhead, List.lookup_cons, ih]
      by_cases h2 : k2 = k3
      · subst h2; simp
      · have hb : (k2 == k3) = false := by simpa using h2
        simp [hb, h2, List.lookup_cons]
    · have hhead : (if ((k3, v3) : String × α).1 == k then (k, v) else (k3, v3)) = (k3, v3) := by
        simp [hk]
      rw [hhead, List.lookup_cons, ih]
      by_cases h2 : k2 = k
      · subst h2
        have hb2 : (k2 == k3) = false := by simpa using fun h : k2 = k3 => hk h.symm
        have hb3 : (k3 == k2) = false := by simpa using hk
        simp [hb2]
        rw [hb3, Bool.false_or]
      · simp [h2, List.lookup_cons]

theorem lookup_append_new {α : Type} (l : List (String × α)) (k k2 : String) (v : α)
    (hnew : l.any (fun e => e.1 == k) = false) :
    (l ++ [(k, v)]).lookup k2 = if k2 = k then some v else l.lookup k2 := by
  induction l with
  | nil =>
    by_cases h2 : k2 = k
    · subst h2; simp
    · have hb : (k2 == k) = false := by simpa using h2
      simp [List.lookup_cons, hb, h2]
  | cons e rest ih =>
    obtain ⟨k3, v3⟩ := e
    simp only [List.any_cons, Bool.or_eq_false_iff] at hnew
    have hk : k3 ≠ k := by simpa using hnew.1
    rw [List.cons_append, List.lookup_cons, ih hnew.2, List.lookup_cons]
    by_cases h2 : k2 = k
    · subst h2
      have hb2 : (k2 == k3) = false := by simpa using fun h : k2 = k3 => hk h.symm
      simp [hb2]
    · simp [h2]

theorem lookup_objSet_self {α : Type} (l : List (String × α)) (k : String) (v : α) :
    (objSet l k v).lookup k = some v := by
  unfold objSet
  cases hany : l.any (fun e => e.1 == k) with
  | true => rw [if_pos rfl, lookup_map_replace, if_pos rfl, hany, if_pos rfl]
  | false =>
    rw [if_neg (by simp), lookup_append_new l k k v hany, if_pos rfl]

theorem lookup_objSet_other {α : Type} (l : List (String × α)) (k k2 : String) (v : α)
    (h : k2 ≠ k) : (objSet l k v).lookup k2 = l.lookup k2 := by
  unfold objSet
  cases hany : l.any (fun e => e.1 == k) with
  | true => rw [if_pos rfl, lookup_map_replace, if_neg h]
  | false => rw [if_neg (by simp), lookup_append_new l k k2 v hany, if_neg h]

theorem recorder_setRecorder_self (app : App) (key : String) (r : AudioRecorder) :
    (app.setRecorder key r).recorder key = some r :=
  lookup_objSet_self _ _ _

theorem recorder_setRecorder_other (app : App) (key k2 : String) (r : AudioRecorder)
    (h : k2 ≠ key) : (app.setRecorder key r).recorder k2 = app.recorder k2 :=
  lookup_objSet_other _ _ _ _ h

theorem updateSectionCount_recorder (app : App) (key : String) :
    (updateSectionCount app).recorder key = app.recorder key := by
  unfold updateSectionCount
  cases app.currentMode <;> rfl

theorem updateSectionCount_stoppedStreams (app : App) :
    (updateSectionCount app).stoppedStreams = app.stoppedStreams := by
  unfold updateSectionCount
  cases app.currentMode <;> rfl

theorem updateSectionCount_toasts (app : App) :
    (updateSectionCount app).toasts = app.toasts := by
  unfold updateSectionCount
  cases app.currentMode <;> rfl

theorem updateSectionCount_pendingEvents (app : App) :
    (updateSectionCount app).pendingEvents = app.pendingEvents := by
  unfold updateSectionCount
  cases app.currentMode <;> rfl

/-- The session a `resetRecording()` leaves behind. -/
theorem resetRecording_recorder (key : String) (app : App) (r : AudioRecorder)
    (hr : app.recorder key = some r) :
    (resetRecording key app).recorder key =
      some { r with stream := none
                    mediaRecorder :=
                      match r.activeRecorder with
                      | some m => some { m with state := .inactive }
                      | none => r.mediaRecorder
                    audioBlob := none
                    audioChunks := []
                    pausedTime := 0
                    timerInterval := none } := by
  unfold resetRecording
  simp only [hr, updateSectionCount_recorder]
  exact lookup_objSet_self _ _ _

theorem resetRecording_stoppedStreams (key : String) (app : App) (r : AudioRecorder)
    (hr : app.recorder key = some r) :
    (resetRecording key app).stoppedStreams =
      match r.stream with
      | some stream => app.stoppedStreams ++ [stream]
      | none => app.stoppedStreams := by
  unfold resetRecording
  simp only [hr, updateSectionCount_stoppedStreams]

theorem resetRecording_toasts (key : String) (app : App) :
    (resetRecording key app).toasts = app.toasts := by
  unfold resetRecording
  cases app.recorder key with
  | none => rfl
  | some r => simp only [updateSectionCount_toasts]

theorem resetRecording_pendingEvents (key : String) (app : App) (r : AudioRecorder)
    (hr : app.recorder key = some r) :
    (resetRecording key app).pendingEvents =
      match r.activeRecorder with
      | some m => app.pendingEvents ++ stopEvents key m
      | none => app.pendingEvents := by
  unfold resetRecording
  simp only [hr, updateSectionCount_pendingEvents]

/-- After `resetRecording()` returns, the session is idle, whatever state it was in. -/
theorem resetRecording_idle (key : String) (app : App) (r : AudioRecorder)
    (hr : app.recorder key = some r) : (resetRecording key app).sessionIdle key = true := by
  unfold App.sessionIdle
  rw [resetRecording_recorder key app r hr]
  unfold AudioRecorder.activeRecorder
  cases hm : r.mediaRecorder with
  | none => simp
  | some m => cases hs : m.state <;> simp [hs]

theorem activeRecorder_eq_some (r : AudioRecorder) (m : MediaRecorder) :
    r.activeRecorder = some m ↔ r.mediaRecorder = some m ∧ m.state ≠ .inactive := by
  unfold AudioRecorder.activeRecorder
  cases hm : r.mediaRecorder with
  | none => simp
  | some m2 =>
    by_cases hs : m2.state = .inactive
    · simp only [hs, bne_self_eq_false, Bool.false_eq_true, if_false, Option.some.injEq]
      constructor
      · intro h; exact absurd h (by simp)
      · rintro ⟨h1, h2⟩; exact absurd (h1 ▸ hs) h2
    · have hb : (m2.state != RecordingState.inactive) = true := by simpa using hs
      simp only [hb, if_true, Option.some.injEq]
      constructor
      · intro h; exact ⟨h, h ▸ hs⟩
      · rintro ⟨h1, -⟩; exact h1

/-- `stopRecording()` on a session that is recording or paused. -/
theorem stopRecording_active (policy : StopInactive) (key : String) (app : App)
    (r : AudioRecorder) (m : MediaRecorder) (hr : app.recorder key = some r)
    (hm : r.activeRecorder = some m) :
    stopRecording policy key app =
      .ok (updateSectionCount
        { app with
          audioRecorders := objSet app.audioRecorders key
            { r with mediaRecorder := some { m with state := .inactive }
                     timerInterval := none
                     stream := none }
          stoppedStreams :=
            match r.stream with
            | some stream => app.stoppedStreams ++ [stream]
            | none => app.stoppedStreams
          pendingEvents := app.pendingEvents ++ stopEvents key m }) := by
  obtain ⟨h1, h2⟩ := (activeRecorder_eq_some r m).mp hm
  unfold stopRecording
  simp only [hr, h1, h2, false_and, if_false]

/-- `startRecording()` when every step succeeds. -/
theorem startRecording_started (stream : Nat) (mimeType : String) (now : Int) (timerId : Nat)
    (key : String) (app : App) (r : AudioRecorder) (hr : app.recorder key = some r) :
    startRecording (.started stream mimeType) now timerId key app =
      app.setRecorder key
        { r with stream := some stream
                 mediaRecorder := some ⟨.recording, mimeType⟩
                 audioChunks := []
                 startTime := some (now - r.pausedTime)
                 timerInterval := some timerId } := by
  unfold startRecording
  simp only [hr]

/-- The session and the released streams after a `startRecording()` that failed. -/
theorem startRecording_failed (outcome : StartOutcome) (now : Int) (timerId : Nat)
    (key : String) (app : App) (r : AudioRecorder) (hr : app.recorder key = some r)
    (hf : outcome.failed = true) :
    (startRecording outcome now timerId key app).sessionIdle key = true ∧
    (∀ st, outcome.acquired = some st →
      st ∈ (startRecording outcome now timerId key app).stoppedStreams) ∧
    (outcome.acquired = none → ∀ st, r.stream = some st →
      st ∈ (startRecording outcome now timerId key app).stoppedStreams) := by
  cases outcome with
  | unsupported =>
    have hr2 : (app.showToast ⟨"error", startErrorMessage (JsError.ofMessage unsupportedMessage),
        "Accès au microphone"⟩).recorder key = some r := hr
    simp only [startRecording, hr, startRecordingCatch]
    refine ⟨resetRecording_idle key _ r hr2, by simp [StartOutcome.acquired], ?_⟩
    intro _ st hst
    rw [resetRecording_stoppedStreams key _ r hr2, hst]
    simp
  | rejected error =>
    have hr2 : (app.showToast ⟨"error", startErrorMessage error,
        "Accès au microphone"⟩).recorder key = some r := hr
    simp only [startRecording, hr, startRecordingCatch]
    refine ⟨resetRecording_idle key _ r hr2, by simp [StartOutcome.acquired], ?_⟩
    intro _ st hst
    rw [resetRecording_stoppedStreams key _ r hr2, hst]
    simp
  | recorderFails stream error =>
    have hr2 : ((app.setRecorder key { r with stream := some stream }).showToast
        ⟨"error", startErrorMessage error, "Accès au microphone"⟩).recorder key =
        some { r with stream := some stream } := recorder_setRecorder_self app key _
    simp only [startRecording, hr, startRecordingCatch]
    refine ⟨resetRecording_idle key _ _ hr2, ?_, by simp [StartOutcome.acquired]⟩
    intro st hst
    simp only [StartOutcome.acquired, Option.some.injEq] at hst
    subst hst
    rw [resetRecording_stoppedStreams key _ _ hr2]
    simp
  | startFails stream mimeType error =>
    have hr2 : ((app.setRecorder key
        { r with stream := some stream, mediaRecorder := some ⟨.inactive, mimeType⟩
                 audioChunks := [] }).showToast
        ⟨"error", startErrorMessage error, "Accès au microphone"⟩).recorder key =
        some { r with stream := some stream, mediaRecorder := some ⟨.inactive, mimeType⟩
                      audioChunks := [] } := recorder_setRecorder_self app key _
    simp only [startRecording, hr, startRecordingCatch]
    refine ⟨resetRecording_idle key _ _ hr2, ?_, by simp [StartOutcome.acquired]⟩
    intro st hst
    simp only [StartOutcome.acquired, Option.some.injEq] at hst
    subst hst
    rw [resetRecording_stoppedStreams key _ _ hr2]
    simp
  | started stream mimeType => simp [StartOutcome.failed] at hf

theorem sessionIdle_holdsNoStream (app : App) (key : String) (h : app.sessionIdle key = true) :
    app.holdsNoStream key = true := by
  unfold App.sessionIdle at h
  unfold App.holdsNoStream
  cases hr : app.recorder key with
  | none => rfl
  | some r =>
    simp only [hr, Bool.and_eq_true] at h
    exact h.1.1.1.1.1

/-! ## Stopping twice (C13) -/

/-- C13 on a session that is recording: in a browser whose `MediaRecorder.stop()` throws
on an inactive recorder, the first `stopRecording()` completes and the second one throws
`InvalidStateError`; in a browser whose `stop()` ignores an inactive recorder, the second
call leaves the state as the first left it. -/
theorem stopRecording_twice_throws :
    (∃ app1, stopRecording .throws "partie3" appRecording = .ok app1 ∧
      stopRecording .throws "partie3" app1 = .error invalidStateError) ∧
    (∃ app1, stopRecording .ignores "partie3" appRecording = .ok app1 ∧
      stopRecording .ignores "partie3" app1 = .ok app1) :=
  ⟨⟨_, rfl, rfl⟩, ⟨_, rfl, rfl⟩⟩

/-! ## Exclusive use of the device (C14) -/

/-- C14, as stated, fails: starting the session of `partie2` while the session of
`partie1` is recording on its stream succeeds when the browser grants the device again;
both sessions are then recording, each holding a stream, and no error is reported. -/
theorem startRecording_two_sessions_recording :
    (startRecording (.started 2 "audio/mp4") 5000 9 "partie2"
        (startRecording (.started 1 "audio/mp4") 4000 8 "partie1" appIdle)).sessionActive
      "partie1" = true ∧
    (startRecording (.started 2 "audio/mp4") 5000 9 "partie2"
        (startRecording (.started 1 "audio/mp4") 4000 8 "partie1" appIdle)).sessionActive
      "partie2" = true ∧
    ((startRecording (.started 2 "audio/mp4") 5000 9 "partie2"
        (startRecording (.started 1 "audio/mp4") 4000 8 "partie1" appIdle)).recorder
      "partie1").map (fun r => r.stream) = some (some 1) ∧
    ((startRecording (.started 2 "audio/mp4") 5000 9 "partie2"
        (startRecording (.started 1 "audio/mp4") 4000 8 "partie1" appIdle)).recorder
      "partie2").map (fun r => r.stream) = some (some 2) ∧
    (startRecording (.started 2 "audio/mp4") 5000 9 "partie2"
        (startRecording (.started 1 "audio/mp4") 4000 8 "partie1" appIdle)).toasts = [] := by
  decide

/-- C14, amended: the sessions are independent of one another. A `startRecording()` that
the browser grants puts its session in the recording state on the granted stream and
leaves every other session, whatever it holds, and the toasts as they were; the
device-busy error is reported, and the session left without a stream, when the browser
rejects the request with `NotReadableError` or `TrackStartError`. -/
theorem startRecording_sessions_independent (now : Int) (timerId : Nat) (key : String)
    (app : App) (r : AudioRecorder) (hr : app.recorder key = some r) :
    (∀ stream mimeType,
      (startRecording (.started stream mimeType) now timerId key app).sessionActive key = true ∧
      ((startRecording (.started stream mimeType) now timerId key app).recorder key).map
        (fun r => r.stream) = some (some stream) ∧
      (∀ k2, k2 ≠ key →
        (startRecording (.started stream mimeType) now timerId key app).recorder k2 =
          app.recorder k2) ∧
      (startRecording (.started stream mimeType) now timerId key app).toasts = app.toasts) ∧
    (∀ error : JsError, error.name = "NotReadableError" ∨ error.name = "TrackStartError" →
      (startRecording (.rejected error) now timerId key app).toasts =
        app.toasts ++ [⟨"error", busyMessage, "Accès au microphone"⟩] ∧
      (startRecording (.rejected error) now timerId key app).holdsNoStream key = true) := by
  constructor
  · intro stream mimeType
    rw [startRecording_started stream mimeType now timerId key app r hr]
    refine ⟨?_, ?_, ?_, rfl⟩
    · simp [App.sessionActive, recorder_setRecorder_self, AudioRecorder.activeRecorder]
    · simp [recorder_setRecorder_self]
    · intro k2 h2
      exact recorder_setRecorder_other app key k2 _ h2
  · intro error he
    refine ⟨?_, sessionIdle_holdsNoStream _ _
      (startRecording_failed (.rejected error) now timerId key app r hr rfl).1⟩
    have hmsg : startErrorMessage error = busyMessage := by
      unfold startErrorMessage
      rcases he with he | he <;> simp [he]
    simp only [startRecording, hr, startRecordingCatch, resetRecording_toasts, App.showToast, hmsg]

/-- C14, amended, on the idle form: starting `partie1` leaves `partie2` idle, and a
busy device is reported as such. -/
theorem startRecording_sessions_independent_witness :
    (startRecording (.started 1 "audio/mp4") 4000 8 "partie1" appIdle).sessionActive
      "partie1" = true ∧
    (startRecording (.started 1 "audio/mp4") 4000 8 "partie1" appIdle).recorder "partie2" =
      appIdle.recorder "partie2" ∧
    (startRecording (.rejected ⟨"NotReadableError", "Could not start audio source"⟩) 4000 8
      "partie1" appIdle).toasts =
        appIdle.toasts ++ [⟨"error", busyMessage, "Accès au microphone"⟩] :=
  have h := startRecording_sessions_independent 4000 8 "partie1" appIdle
    (idleSession "partie1") rfl
  ⟨(h.1 1 "audio/mp4").1, (h.1 1 "audio/mp4").2.2.1 "partie2" (by decide),
   (h.2 ⟨"NotReadableError", "Could not start audio source"⟩ (Or.inl rfl)).1⟩

/-! ## Release of the device (C15) -/

/-- C15: after `stopRecording()` on a session that is recording or paused, after
`resetRecording()` from any state, and after a `startRecording()` whose setup fails at
any point, the session holds no device: its `stream` is `null`, and the tracks of the
stream it held (for a failed start: of the stream that start had acquired) have been
stopped. -/
theorem session_releases_device (key : String) (app : App) (r : AudioRecorder)
    (hr : app.recorder key = some r) :
    (∀ policy, r.activeRecorder.isSome = true →
      ∃ app1, stopRecording policy key app = .ok app1 ∧ app1.holdsNoStream key = true ∧
        ∀ st, r.stream = some st → st ∈ app1.stoppedStreams) ∧
    ((resetRecording key app).holdsNoStream key = true ∧
      ∀ st, r.stream = some st → st ∈ (resetRecording key app).stoppedStreams) ∧
    (∀ outcome now timerId, outcome.failed = true →
      (startRecording outcome now timerId key app).holdsNoStream key = true ∧
      ∀ st, outcome.acquired = some st →
        st ∈ (startRecording outcome now timerId key app).stoppedStreams) := by
  refine ⟨?_, ⟨?_, ?_⟩, ?_⟩
  · intro policy hact
    obtain ⟨m, hm⟩ := Option.isSome_iff_exists.mp hact
    refine ⟨_, stopRecording_active policy key app r m hr hm, ?_, ?_⟩
    · simp only [App.holdsNoStream, updateSectionCount_recorder]
      have : App.recorder
          { app with
            audioRecorders := objSet app.audioRecorders key
              { r with mediaRecorder := some { m with state := .inactive }
                       timerInterval := none
                       stream := none }
            stoppedStreams :=
              match r.stream with
              | some stream => app.stoppedStreams ++ [stream]
              | none => app.stoppedStreams
            pendingEvents := app.pendingEvents ++ stopEvents key m } key =
          some { r with mediaRecorder := some { m with state := .inactive }
                        timerInterval := none
                        stream := none } := lookup_objSet_self _ _ _
      rw [this]
      rfl
    · intro st hst
      simp [updateSectionCount_stoppedStreams, hst]
  · exact sessionIdle_holdsNoStream _ _ (resetRecording_idle key app r hr)
  · intro st hst
    rw [resetRecording_stoppedStreams key app r hr, hst]
    simp
  · intro outcome now timerId hf
    obtain ⟨hidle, hacq, -⟩ := startRecording_failed outcome now timerId key app r hr hf
    exact ⟨sessionIdle_holdsNoStream _ _ hidle, hacq⟩

/-- C15 on the session recording on stream 7: stopped, reset, or restarted with a
setup that fails after stream 3 was granted. -/
theorem session_releases_device_witness :
    (∃ app1, stopRecording .throws "partie3" appRecording = .ok app1 ∧
      app1.holdsNoStream "partie3" = true ∧ 7 ∈ app1.stoppedStreams) ∧
    ((resetRecording "partie3" appRecording).holdsNoStream "partie3" = true ∧
      7 ∈ (resetRecording "partie3" appRecording).stoppedStreams) ∧
    ((startRecording (.startFails 3 "audio/mp4" ⟨"NotSupportedError", "no"⟩) 5000 9
        "partie4" appRecording).holdsNoStream "partie4" = true ∧
      3 ∈ (startRecording (.startFails 3 "audio/mp4" ⟨"NotSupportedError", "no"⟩) 5000 9
        "partie4" appRecording).stoppedStreams) :=
  have h := session_releases_device "partie3" appRecording (recordingSession "partie3" 7) rfl
  have h4 := session_releases_device "partie4" appRecording (idleSession "partie4") rfl
  ⟨(h.1 .throws rfl).imp fun _ hx => ⟨hx.1, hx.2.1, hx.2.2 7 rfl⟩,
   ⟨h.2.1.1, h.2.1.2 7 rfl⟩,
   ⟨(h4.2.2 (.startFails 3 "audio/mp4" ⟨"NotSupportedError", "no"⟩) 5000 9 rfl).1,
    (h4.2.2 (.startFails 3 "audio/mp4" ⟨"NotSupportedError", "no"⟩) 5000 9 rfl).2 3 rfl⟩⟩

/-! ## Starting from a state other than idle (C16) -/

/-- C16, as stated, fails: `startRecording()` invoked on a stopped session that holds an
artifact, and granted the device, changes the session: it now holds stream 2, its chunks
are emptied and its recorder is recording. -/
theorem startRecording_on_stopped_session :
    (appTwoOfFour.recorder "partie1").map (fun r => (r.stream, r.audioChunks)) =
      some (none, [sampleBlob]) ∧
    ((startRecording (.started 2 "audio/mp4") 5000 9 "partie1" appTwoOfFour).recorder
      "partie1").map (fun r => (r.stream, r.audioChunks)) = some (some 2, []) ∧
    (startRecording (.started 2 "audio/mp4") 5000 9 "partie1" appTwoOfFour).sessionActive
      "partie1" = true := by
  decide

/-- C16, amended: `startRecording()` has no state check. Invoked on a session in any
state and granted the device, it replaces the stream and the recorder of the session by
the new ones (recorder in the recording state), empties `audioChunks`, sets `startTime`
to `now - pausedTime` and installs a new timer; `audioBlob` and `pausedTime` are left as
they were. -/
theorem startRecording_no_state_check (stream : Nat) (mimeType : String) (now : Int)
    (timerId : Nat) (key : String) (app : App) (r : AudioRecorder)
    (hr : app.recorder key = some r) :
    (startRecording (.started stream mimeType) now timerId key app).recorder key =
      some { r with stream := some stream
                    mediaRecorder := some ⟨.recording, mimeType⟩
                    audioChunks := []
                    startTime := some (now - r.pausedTime)
                    timerInterval := some timerId } ∧
    ((startRecording (.started stream mimeType) now timerId key app).recorder key).map
      (fun r2 => (r2.audioBlob, r2.pausedTime)) = some (r.audioBlob, r.pausedTime) := by
  rw [startRecording_started stream mimeType now timerId key app r hr,
    recorder_setRecorder_self]
  exact ⟨rfl, rfl⟩

/-- C16, amended, on a session that is recording on stream 7. -/
theorem startRecording_no_state_check_witness :
    ((startRecording (.started 2 "audio/mp4") 5000 9 "partie3" appRecording).recorder
      "partie3").map (fun r2 => (r2.stream, r2.audioChunks, r2.startTime)) =
      some (some 2, [], some 5000) :=
  (congrArg (Option.map fun r2 => (r2.stream, r2.audioChunks, r2.startTime))
    (startRecording_no_state_check 2 "audio/mp4" 5000 9 "partie3" appRecording
      (recordingSession "partie3" 7) rfl).1).trans (by decide)

/-! ## Elapsed time across pauses (C17) -/

theorem clockAgrees_pause (app : App) (key : String) (c : RecordingClock) (t : Int)
    (timerId : Nat) (h : clockAgrees app key c) :
    clockAgrees (pauseRecording t timerId key app) key (c.toggle t) := by
  obtain ⟨r, m, hr, hm, hcase⟩ := h
  unfold pauseRecording
  simp only [hr]
  rcases hcase with ⟨hs, hsince, hel⟩ | ⟨hs, hsince, hpt⟩
  · obtain ⟨s, hsome⟩ := Option.isSome_iff_exists.mp hsince
    refine ⟨_, { m with state := .paused }, recorder_setRecorder_self _ _ _, ?_, Or.inr ?_⟩
    · simp [AudioRecorder.togglePause, hm, hs]
    · refine ⟨rfl, by simp [RecordingClock.toggle, hsome], ?_⟩
      intro now
      have h1 := hel t
      simp only [AudioRecorder.elapsed, RecordingClock.total, hsome] at h1
      simp [AudioRecorder.togglePause, hm, hs, RecordingClock.toggle, RecordingClock.total,
        hsome, h1]
  · refine ⟨_, { m with state := .recording }, recorder_setRecorder_self _ _ _, ?_, Or.inl ?_⟩
    · simp [AudioRecorder.togglePause, hm, hs]
    · refine ⟨rfl, by simp [RecordingClock.toggle, hsince], ?_⟩
      intro now
      have h1 := hpt now
      simp only [RecordingClock.total, hsince] at h1
      simp only [AudioRecorder.togglePause, hm, hs, AudioRecorder.elapsed,
        RecordingClock.toggle, RecordingClock.total, hsince]
      simp
      omega

theorem clockAgrees_pauses (key : String) (timerId : Nat) (ts : List Int) :
    ∀ (app : App) (c : RecordingClock), clockAgrees app key c →
      clockAgrees (ts.foldl (fun a t => pauseRecording t timerId key a) app) key
        (ts.foldl RecordingClock.toggle c) := by
  induction ts with
  | nil => intro app c h; exact h
  | cons t rest ih =>
    intro app c h
    simp only [List.foldl_cons]
    exact ih _ _ (clockAgrees_pause app key c t timerId h)

/-- C17: for a session started at time `t0` from the idle state (`pausedTime` 0) and any
sequence of `pauseRecording()` calls (pause, resume, pause, ...) at times `ts`, the
session is recording exactly when the sequence leaves it recording, the elapsed time
`Date.now() - startTime` used by the timer while recording equals the total time spent
in the recording state, paused intervals excluded, and after a pause `pausedTime` equals
that total. -/
theorem elapsed_is_time_recording (t0 : Int) (timerId stream : Nat) (mimeType key : String)
    (app : App) (r0 : AudioRecorder) (hr : app.recorder key = some r0)
    (h0 : r0.pausedTime = 0) (ts : List Int) :
    ∃ r m,
      (ts.foldl (fun a t => pauseRecording t timerId key a)
        (startRecording (.started stream mimeType) t0 timerId key app)).recorder key = some r ∧
      r.mediaRecorder = some m ∧
      ((m.state = .recording ∧
          (ts.foldl RecordingClock.toggle (RecordingClock.start t0)).since.isSome = true ∧
          ∀ now, r.elapsed now =
            (ts.foldl RecordingClock.toggle (RecordingClock.start t0)).total now) ∨
       (m.state = .paused ∧
          (ts.foldl RecordingClock.toggle (RecordingClock.start t0)).since = none ∧
          ∀ now, r.pausedTime =
            (ts.foldl RecordingClock.toggle (RecordingClock.start t0)).total now)) := by
  apply clockAgrees_pauses key timerId ts
  rw [startRecording_started stream mimeType t0 timerId key app r0 hr]
  refine ⟨_, ⟨.recording, mimeType⟩, recorder_setRecorder_self _ _ _, rfl, Or.inl ⟨rfl, rfl, ?_⟩⟩
  intro now
  simp [AudioRecorder.elapsed, RecordingClock.total, RecordingClock.start, h0]

/-- C17 on a session started at 1000, paused at 4000, resumed at 9000 and paused at
11000: it has recorded 5000 ms, and `pausedTime` is 5000. -/
theorem elapsed_is_time_recording_witness :
    ∃ r m,
      ([4000, 9000, 11000].foldl (fun a t => pauseRecording t 8 "partie1" a)
        (startRecording (.started 1 "audio/mp4") 1000 8 "partie1" appIdle)).recorder "partie1" =
        some r ∧
      r.mediaRecorder = some m ∧ m.state = .paused ∧ r.pausedTime = 5000 := by
  obtain ⟨r, m, hrec, hm, hcase⟩ := elapsed_is_time_recording 1000 8 1 "audio/mp4" "partie1"
    appIdle (idleSession "partie1") rfl rfl [4000, 9000, 11000]
  refine ⟨r, m, hrec, hm, ?_⟩
  rcases hcase with ⟨-, hs, -⟩ | ⟨hs, -, hp⟩
  · exact absurd hs (by decide)
  · exact ⟨hs, (hp 0).trans (by decide)⟩

/-! ## Reset and the events of the recorder (C18) -/

/-- C18 on a session that is recording: when `resetRecording()` returns the session is
idle, with the recorder's `dataavailable` and `stop` events queued; once these are
delivered the session holds the final chunk and an artifact again (`hasRecording()` is
true), so it is not idle. -/
theorem resetRecording_then_events_not_idle :
    (resetRecording "partie3" appRecording).sessionIdle "partie3" = true ∧
    (resetRecording "partie3" appRecording).pendingEvents =
      [("partie3", .dataavailable), ("partie3", .stop "audio/webm")] ∧
    (deliverPending lastChunk (some "data:audio/webm;base64,REVG")
      (resetRecording "partie3" appRecording)).sectionRecorded "partie3" = true ∧
    ((deliverPending lastChunk (some "data:audio/webm;base64,REVG")
      (resetRecording "partie3" appRecording)).recorder "partie3").map
        (fun r => r.audioChunks) = some [lastChunk] ∧
    (deliverPending lastChunk (some "data:audio/webm;base64,REVG")
      (resetRecording "partie3" appRecording)).sessionIdle "partie3" = false := by
  decide

/-- From a session whose recorder is not active (idle or stopped), `resetRecording()`
queues no event and leaves the session idle. -/
theorem resetRecording_inactive (key : String) (app : App) (r : AudioRecorder)
    (hr : app.recorder key = some r) (hm : r.activeRecorder = none) :
    (resetRecording key app).pendingEvents = app.pendingEvents ∧
    (resetRecording key app).sessionIdle key = true := by
  refine ⟨?_, resetRecording_idle key app r hr⟩
  rw [resetRecording_pendingEvents key app r hr, hm]

/-! ## Errors of device acquisition (C19) -/

/-- C19: when device acquisition fails in `startRecording()`, the toast reports the
cause: the unsupported-environment message when `getUserMedia` does not exist, the
permission message for `NotAllowedError` / `PermissionDeniedError`, the no-device
message for `NotFoundError` / `DevicesNotFoundError`, the device-busy message for
`NotReadableError` / `TrackStartError`; the four messages are pairwise distinct; and in
every case the session is idle when the call returns: no stream, no artifact, no
chunks, no timer, no active recorder. -/
theorem startRecording_acquisition_errors (now : Int) (timerId : Nat) (key : String)
    (app : App) (r : AudioRecorder) (hr : app.recorder key = some r) :
    (startRecording .unsupported now timerId key app).toasts =
      app.toasts ++ [⟨"error", unsupportedMessage, "Accès au microphone"⟩] ∧
    (∀ error : JsError,
      (error.name = "NotAllowedError" ∨ error.name = "PermissionDeniedError" →
        (startRecording (.rejected error) now timerId key app).toasts =
          app.toasts ++ [⟨"error", deniedMessage, "Accès au microphone"⟩]) ∧
      (error.name = "NotFoundError" ∨ error.name = "DevicesNotFoundError" →
        (startRecording (.rejected error) now timerId key app).toasts =
          app.toasts ++ [⟨"error", notFoundMessage, "Accès au microphone"⟩]) ∧
      (error.name = "NotReadableError" ∨ error.name = "TrackStartError" →
        (startRecording (.rejected error) now timerId key app).toasts =
          app.toasts ++ [⟨"error", busyMessage, "Accès au microphone"⟩]) ∧
      (startRecording (.rejected error) now timerId key app).sessionIdle key = true) ∧
    (startRecording .unsupported now timerId key app).sessionIdle key = true ∧
    [unsupportedMessage, deniedMessage, notFoundMessage, busyMessage].Nodup := by
  have htoast : ∀ error : JsError,
      (startRecording (.rejected error) now timerId key app).toasts =
        app.toasts ++ [⟨"error", startErrorMessage error, "Accès au microphone"⟩] := by
    intro error
    simp only [startRecording, hr, startRecordingCatch, resetRecording_toasts, App.showToast]
  refine ⟨?_, ?_, (startRecording_failed .unsupported now timerId key app r hr rfl).1,
    by decide⟩
  · have hmsg : startErrorMessage (JsError.ofMessage unsupportedMessage) = unsupportedMessage := by
      decide
    simp only [startRecording, hr, startRecordingCatch, resetRecording_toasts, App.showToast,
      hmsg]
  · intro error
    refine ⟨?_, ?_, ?_, (startRecording_failed (.rejected error) now timerId key app r hr rfl).1⟩
    · intro he
      have hmsg : startErrorMessage error = deniedMessage := by
        unfold startErrorMessage
        rcases he with he | he <;> simp [he]
      rw [htoast, hmsg]
    · intro he
      have hmsg : startErrorMessage error = notFoundMessage := by
        unfold startErrorMessage
        rcases he with he | he <;> simp [he]
      rw [htoast, hmsg]
    · intro he
      have hmsg : startErrorMessage error = busyMessage := by
        unfold startErrorMessage
        rcases he with he | he <;> simp [he]
      rw [htoast, hmsg]

/-- C19 on the idle form, for a denied permission and for a missing device. -/
theorem startRecording_acquisition_errors_witness :
    (startRecording (.rejected ⟨"NotAllowedError", "Permission denied"⟩) 4000 8 "partie1"
      appIdle).toasts = appIdle.toasts ++ [⟨"error", deniedMessage, "Accès au microphone"⟩] ∧
    (startRecording (.rejected ⟨"NotFoundError", "Requested device not found"⟩) 4000 8
      "partie1" appIdle).toasts =
        appIdle.toasts ++ [⟨"error", notFoundMessage, "Accès au microphone"⟩] ∧
    (startRecording (.rejected ⟨"NotAllowedError", "Permission denied"⟩) 4000 8 "partie1"
      appIdle).sessionIdle "partie1" = true :=
  have h := startRecording_acquisition_errors 4000 8 "partie1" appIdle (idleSession "partie1")
    rfl
  ⟨(h.2.1 ⟨"NotAllowedError", "Permission denied"⟩).1 (Or.inl rfl),
   (h.2.1 ⟨"NotFoundError", "Requested device not found"⟩).2.1 (Or.inl rfl),
   (h.2.1 ⟨"NotAllowedError", "Permission denied"⟩).2.2.2⟩

/-! ## The submit button (C20) -/

theorem updateSectionCount_currentMode (app : App) :
    (updateSectionCount app).currentMode = app.currentMode := by
  unfold updateSectionCount
  cases h : app.currentMode <;> simp [h]

theorem updateSectionCount_countRecorded (app : App) (mode : Mode) :
    (updateSectionCount app).countRecorded mode = app.countRecorded mode := by
  unfold App.countRecorded
  congr 1
  apply List.filter_congr
  intro id _
  simp only [App.sectionRecorded, updateSectionCount_recorder]

/-- After `updateSectionCount()`, and so after `resetForm(mode)` which ends with it, the
submit button of the current mode is enabled exactly when that mode has a recorded
section. -/
theorem updateSectionCount_gate (app : App) :
    ((updateSectionCount app).submit (updateSectionCount app).currentMode).disabled =
      decide ((updateSectionCount app).countRecorded (updateSectionCount app).currentMode = 0) ∧
    (∀ mode, ((resetForm mode app).submit (resetForm mode app).currentMode).disabled =
      decide ((resetForm mode app).countRecorded (resetForm mode app).currentMode = 0)) := by
  have hgate : ∀ a : App,
      ((updateSectionCount a).submit (updateSectionCount a).currentMode).disabled =
        decide ((updateSectionCount a).countRecorded (updateSectionCount a).currentMode = 0) := by
    intro a
    rw [updateSectionCount_currentMode, updateSectionCount_countRecorded]
    unfold updateSectionCount
    cases h : a.currentMode <;> simp [App.submit]
  exact ⟨hgate app, fun mode => hgate _⟩

/-- C20 on a normal-mode submission that the server accepts: when `sendData` has
completed no section of the current mode has a recording, and the submit button of the
mode is enabled. -/
theorem sendData_enables_submit_without_recording :
    (sendData (envOf (.responded response200)) .normal appTwoOfFour).currentMode = .normal ∧
    (sendData (envOf (.responded response200)) .normal appTwoOfFour).countRecorded .normal = 0 ∧
    ((sendData (envOf (.responded response200)) .normal appTwoOfFour).submit .normal).disabled =
      false := by
  decide

/-! ## The draft of AutoSave: restore -/

/-- What `AutoSave.restore` does with a draft that `AutoSave.save` wrote in normal mode. -/
theorem restore_saved_normal (t now : Int) (saved app : App)
    (hmode : saved.currentMode = .normal)
    (h : app.autosave = (AutoSave.save t saved).autosave) :
    AutoSave.restore now app =
      if now - t > AutoSave.dayInMs then { app with autosave := none }
      else
        ((AutoSave.forms saved .normal).foldl AutoSave.restoreNormalEntry app).showToast
          AutoSave.restoredToast := by
  unfold AutoSave.restore
  rw [h]
  simp [AutoSave.save, hmode, Mode.toString]

/-- What `AutoSave.restore` does with a draft that `AutoSave.save` wrote in test mode. -/
theorem restore_saved_test (t now : Int) (saved app : App)
    (hmode : saved.currentMode = .test)
    (h : app.autosave = (AutoSave.save t saved).autosave) :
    AutoSave.restore now app =
      if now - t > AutoSave.dayInMs then { app with autosave := none }
      else
        ((AutoSave.forms saved .test).foldl AutoSave.restoreTestEntry app).showToast
          AutoSave.restoredToast := by
  unfold AutoSave.restore
  rw [h]
  simp [AutoSave.save, hmode, Mode.toString]

/-- The fields after the entries of a normal-mode draft have been applied to a form. -/
theorem restoreNormal_fields (saved app : App) :
    let r := (AutoSave.forms saved .normal).foldl AutoSave.restoreNormalEntry app
    r.username = (if saved.username ≠ "" then saved.username else app.username) ∧
    r.accessCode = (if saved.accessCode ≠ "" then saved.accessCode else app.accessCode) ∧
    r.numeroDossier =
      (if saved.numeroDossier ≠ "" then saved.numeroDossier else app.numeroDossier) ∧
    r.nomPatient = (if saved.nomPatient ≠ "" then saved.nomPatient else app.nomPatient) ∧
    r.numeroDossierTest = app.numeroDossierTest ∧ r.nomPatientTest = app.nomPatientTest ∧
    r.autosave = app.autosave ∧ r.currentMode = app.currentMode := by
  simp only [AutoSave.forms, List.foldl_cons, List.foldl_nil, AutoSave.restoreNormalEntry]
  by_cases h1 : saved.username = "" <;> by_cases h2 : saved.accessCode = "" <;>
    by_cases h3 : saved.numeroDossier = "" <;> by_cases h4 : saved.nomPatient = "" <;>
    simp [h1, h2, h3, h4, App.setInput]

/-- The fields after the entries of a test-mode draft have been applied to a form. -/
theorem restoreTest_fields (saved app : App) :
    let r := (AutoSave.forms saved .test).foldl AutoSave.restoreTestEntry app
    r.numeroDossierTest =
      (if saved.numeroDossierTest ≠ "" then saved.numeroDossierTest
       else app.numeroDossierTest) ∧
    r.nomPatientTest =
      (if saved.nomPatientTest ≠ "" then saved.nomPatientTest else app.nomPatientTest) ∧
    r.username = app.username ∧ r.accessCode = app.accessCode ∧
    r.numeroDossier = app.numeroDossier ∧ r.nomPatient = app.nomPatient ∧
    r.autosave = app.autosave ∧ r.currentMode = app.currentMode := by
  simp only [AutoSave.forms, List.foldl_cons, List.foldl_nil, AutoSave.restoreTestEntry]
  by_cases h1 : saved.numeroDossierTest = "" <;> by_cases h2 : saved.nomPatientTest = "" <;>
    simp [h1, h2, App.setInput]

theorem restoreNormalEntry_currentMode (m : Mode) (a : App) (e : String × String) :
    AutoSave.restoreNormalEntry { a with currentMode := m } e =
      { AutoSave.restoreNormalEntry a e with currentMode := m } := by
  unfold AutoSave.restoreNormalEntry App.setInput
  repeat (first | rfl | split)

theorem restoreTestEntry_currentMode (m : Mode) (a : App) (e : String × String) :
    AutoSave.restoreTestEntry { a with currentMode := m } e =
      { AutoSave.restoreTestEntry a e with currentMode := m } := by
  unfold AutoSave.restoreTestEntry App.setInput
  repeat (first | rfl | split)

/-- `AutoSave.restore` never reads `appState.currentMode`. -/
theorem restore_currentMode (now : Int) (m : Mode) (app : App) :
    AutoSave.restore now { app with currentMode := m } =
      { AutoSave.restore now app with currentMode := m } := by
  have hn : ∀ (forms : List (String × String)) (a : App),
      forms.foldl AutoSave.restoreNormalEntry { a with currentMode := m } =
        { forms.foldl AutoSave.restoreNormalEntry a with currentMode := m } := by
    intro forms
    induction forms with
    | nil => intro a; rfl
    | cons e rest ih =>
      intro a
      simp only [List.foldl_cons]
      rw [restoreNormalEntry_currentMode, ih]
  have ht : ∀ (forms : List (String × String)) (a : App),
      forms.foldl AutoSave.restoreTestEntry { a with currentMode := m } =
        { forms.foldl AutoSave.restoreTestEntry a with currentMode := m } := by
    intro forms
    induction forms with
    | nil => intro a; rfl
    | cons e rest ih =>
      intro a
      simp only [List.foldl_cons]
      rw [restoreTestEntry_currentMode, ih]
  unfold AutoSave.restore
  cases hd : app.autosave with
  | none => simp [hd]
  | some d =>
    simp only [hd]
    split
    · rfl
    · split
      · rw [← hd, hn]; rfl
      · split
        · rw [← hd, ht]; rfl
        · rw [← hd]

/-! ## Drafts of the other mode (C22) -/

/-- C22, as stated, fails: the page is in normal mode and holds a draft saved in test
mode one hour earlier; `AutoSave.restore` writes the draft into the two inputs of the
test form, which were empty. -/
theorem restore_applies_cross_mode_draft :
    appCrossDraft.currentMode = .normal ∧
    appCrossDraft.autosave.map (fun d => d.mode) = some "test" ∧
    appCrossDraft.numeroDossierTest = "" ∧ appCrossDraft.nomPatientTest = "" ∧
    (AutoSave.restore 3600000 appCrossDraft).numeroDossierTest = "F-9" ∧
    (AutoSave.restore 3600000 appCrossDraft).nomPatientTest = "Jean Dupont" := by
  decide

/-- C22, amended: `AutoSave.restore` does not compare the mode of the draft with the
active mode (its result is the same whichever mode is active); a draft written by
`AutoSave.save` and not older than 24 hours is applied to the form of the mode it was
saved in, every saved value that is not empty replacing the value of its input, and the
inputs of the form of the other mode are left unchanged. -/
theorem restore_follows_draft_mode (t now : Int) (saved app : App)
    (h : app.autosave = (AutoSave.save t saved).autosave) :
    (∀ m, AutoSave.restore now { app with currentMode := m } =
      { AutoSave.restore now app with currentMode := m }) ∧
    (saved.currentMode = .test →
      (AutoSave.restore now app).username = app.username ∧
      (AutoSave.restore now app).accessCode = app.accessCode ∧
      (AutoSave.restore now app).numeroDossier = app.numeroDossier ∧
      (AutoSave.restore now app).nomPatient = app.nomPatient) ∧
    (saved.currentMode = .normal →
      (AutoSave.restore now app).numeroDossierTest = app.numeroDossierTest ∧
      (AutoSave.restore now app).nomPatientTest = app.nomPatientTest) ∧
    (now - t ≤ 86400000 → saved.currentMode = .test →
      (AutoSave.restore now app).numeroDossierTest =
        (if saved.numeroDossierTest ≠ "" then saved.numeroDossierTest
         else app.numeroDossierTest) ∧
      (AutoSave.restore now app).nomPatientTest =
        (if saved.nomPatientTest ≠ "" then saved.nomPatientTest else app.nomPatientTest)) ∧
    (now - t ≤ 86400000 → saved.currentMode = .normal →
      (AutoSave.restore now app).username =
        (if saved.username ≠ "" then saved.username else app.username) ∧
      (AutoSave.restore now app).accessCode =
        (if saved.accessCode ≠ "" then saved.accessCode else app.accessCode) ∧
      (AutoSave.restore now app).numeroDossier =
        (if saved.numeroDossier ≠ "" then saved.numeroDossier else app.numeroDossier) ∧
      (AutoSave.restore now app).nomPatient =
        (if saved.nomPatient ≠ "" then saved.nomPatient else app.nomPatient)) := by
  have hnot : now - t ≤ 86400000 → ¬ now - t > AutoSave.dayInMs := by
    intro hage
    simp only [AutoSave.dayInMs]
    omega
  refine ⟨fun m => restore_currentMode now m app, ?_, ?_, ?_, ?_⟩
  rotate_left 2
  · intro hage hmode
    rw [restore_saved_test t now saved app hmode h, if_neg (hnot hage)]
    obtain ⟨h1, h2, _⟩ := restoreTest_fields saved app
    exact ⟨h1, h2⟩
  · intro hage hmode
    rw [restore_saved_normal t now saved app hmode h, if_neg (hnot hage)]
    obtain ⟨h1, h2, h3, h4, _⟩ := restoreNormal_fields saved app
    exact ⟨h1, h2, h3, h4⟩
  · intro hmode
    rw [restore_saved_test t now saved app hmode h]
    split
    · exact ⟨rfl, rfl, rfl, rfl⟩
    · obtain ⟨_, _, h3, h4, h5, h6, _, _⟩ := restoreTest_fields saved app
      exact ⟨h3, h4, h5, h6⟩
  · intro hmode
    rw [restore_saved_normal t now saved app hmode h]
    split
    · exact ⟨rfl, rfl⟩
    · obtain ⟨_, _, _, _, h5, h6, _, _⟩ := restoreNormal_fields saved app
      exact ⟨h5, h6⟩

theorem restore_follows_draft_mode_witness :
    (∀ m, AutoSave.restore 3600000 { appCrossDraft with currentMode := m } =
      { AutoSave.restore 3600000 appCrossDraft with currentMode := m }) ∧
    (appTestForm.currentMode = .test →
      (AutoSave.restore 3600000 appCrossDraft).username = appCrossDraft.username ∧
      (AutoSave.restore 3600000 appCrossDraft).accessCode = appCrossDraft.accessCode ∧
      (AutoSave.restore 3600000 appCrossDraft).numeroDossier = appCrossDraft.numeroDossier ∧
      (AutoSave.restore 3600000 appCrossDraft).nomPatient = appCrossDraft.nomPatient) ∧
    (AutoSave.restore 3600000 appCrossDraft).numeroDossierTest = "F-9" ∧
    (AutoSave.restore 3600000 appCrossDraft).nomPatientTest = "Jean Dupont" :=
  have h := restore_follows_draft_mode 0 3600000 appTestForm appCrossDraft rfl
  ⟨h.1, h.2.1, h.2.2.2.1 (by decide) rfl⟩

/-! ## Round trip of a draft (C29) -/

/-- C29: a draft written by `AutoSave.save()` at time `t` and restored by
`AutoSave.restore()` at most 24 hours later into empty forms gives every input of the
form of the saved mode the value it had when the draft was written (so an input that was
empty stays empty), in test mode through the ids `numeroDossierTest` and
`nomPatientTest`, and leaves the inputs of the other form empty; the draft stays in
storage. -/
theorem draft_round_trip (t now : Int) (saved form : App)
    (hage : now - t ≤ 86400000)
    (hdraft : form.autosave = (AutoSave.save t saved).autosave)
    (hempty : form.formsEmpty) :
    (AutoSave.restore now form).autosave = (AutoSave.save t saved).autosave ∧
    (saved.currentMode = .normal →
      (AutoSave.restore now form).username = saved.username ∧
      (AutoSave.restore now form).accessCode = saved.accessCode ∧
      (AutoSave.restore now form).numeroDossier = saved.numeroDossier ∧
      (AutoSave.restore now form).nomPatient = saved.nomPatient ∧
      (AutoSave.restore now form).numeroDossierTest = "" ∧
      (AutoSave.restore now form).nomPatientTest = "") ∧
    (saved.currentMode = .test →
      (AutoSave.restore now form).numeroDossierTest = saved.numeroDossierTest ∧
      (AutoSave.restore now form).nomPatientTest = saved.nomPatientTest ∧
      (AutoSave.restore now form).username = "" ∧
      (AutoSave.restore now form).accessCode = "" ∧
      (AutoSave.restore now form).numeroDossier = "" ∧
      (AutoSave.restore now form).nomPatient = "") := by
  obtain ⟨e1, e2, e3, e4, e5, e6⟩ := hempty
  have hnot : ¬ now - t > AutoSave.dayInMs := by
    simp only [AutoSave.dayInMs]; omega
  have hite : ∀ s : String, (if s ≠ "" then s else "") = s := by
    intro s; by_cases hs : s = "" <;> simp [hs]
  cases hmode : saved.currentMode with
  | normal =>
    rw [restore_saved_normal t now saved form hmode hdraft, if_neg hnot]
    obtain ⟨h1, h2, h3, h4, h5, h6, h7, _⟩ := restoreNormal_fields saved form
    simp only [e1, e2, e3, e4, hite] at h1 h2 h3 h4
    refine ⟨?_, fun _ => ⟨h1, h2, h3, h4, h5.trans e5, h6.trans e6⟩, fun hc => by cases hc⟩
    exact h7.trans hdraft
  | test =>
    rw [restore_saved_test t now saved form hmode hdraft, if_neg hnot]
    obtain ⟨h1, h2, h3, h4, h5, h6, h7, _⟩ := restoreTest_fields saved form
    simp only [e5, e6, hite] at h1 h2
    refine ⟨?_, (fun hc => by cases hc),
      fun _ => ⟨h1, h2, h3.trans e1, h4.trans e2, h5.trans e3, h6.trans e4⟩⟩
    exact h7.trans hdraft

theorem draft_round_trip_witness :
    (3600000 : Int) - 0 ≤ 86400000 ∧ appDraftF9.formsEmpty ∧
    appF9.numeroDossier = "F-9" ∧ appF9.accessCode = "" ∧
    ((AutoSave.restore 3600000 appDraftF9).autosave = (AutoSave.save 0 appF9).autosave ∧
    (appF9.currentMode = .normal →
      (AutoSave.restore 3600000 appDraftF9).username = appF9.username ∧
      (AutoSave.restore 3600000 appDraftF9).accessCode = appF9.accessCode ∧
      (AutoSave.restore 3600000 appDraftF9).numeroDossier = appF9.numeroDossier ∧
      (AutoSave.restore 3600000 appDraftF9).nomPatient = appF9.nomPatient ∧
      (AutoSave.restore 3600000 appDraftF9).numeroDossierTest = "" ∧
      (AutoSave.restore 3600000 appDraftF9).nomPatientTest = "") ∧
    (appF9.currentMode = .test →
      (AutoSave.restore 3600000 appDraftF9).numeroDossierTest = appF9.numeroDossierTest ∧
      (AutoSave.restore 3600000 appDraftF9).nomPatientTest = appF9.nomPatientTest ∧
      (AutoSave.restore 3600000 appDraftF9).username = "" ∧
      (AutoSave.restore 3600000 appDraftF9).accessCode = "" ∧
      (AutoSave.restore 3600000 appDraftF9).numeroDossier = "" ∧
      (AutoSave.restore 3600000 appDraftF9).nomPatient = "")) :=
  ⟨by decide, by decide, rfl, rfl,
   draft_round_trip 0 3600000 appF9 appDraftF9 (by decide) rfl (by decide)⟩

/-! ## The draft after a submission (C23) -/

theorem setSubmit_autosave (app : App) (m : Mode) (b : Button) :
    (app.setSubmit m b).autosave = app.autosave := by
  cases m <;> rfl

theorem updateSectionCount_autosave (app : App) :
    (updateSectionCount app).autosave = app.autosave := by
  unfold updateSectionCount
  cases app.currentMode <;> rfl

theorem resetRecording_autosave (key : String) (app : App) :
    (resetRecording key app).autosave = app.autosave := by
  unfold resetRecording
  cases app.recorder key with
  | none => rfl
  | some r => simp only [updateSectionCount_autosave]

theorem resetForm_autosave (mode : Mode) (app : App) :
    (resetForm mode app).autosave = app.autosave := by
  have hfold : ∀ (ids : List String) (a : App),
      (ids.foldl (fun app sectionId =>
        if app.sectionRecorded sectionId then resetRecording sectionId app else app) a).autosave =
        a.autosave := by
    intro ids
    induction ids with
    | nil => intro a; rfl
    | cons id rest ih =>
      intro a
      simp only [List.foldl_cons]
      rw [ih]
      split
      · exact resetRecording_autosave id a
      · rfl
  unfold resetForm
  simp only [updateSectionCount_autosave, hfold]
  cases mode <;> rfl

/-- C23: when `sendData(mode)` has completed, the stored draft has been removed if the
request was made, the server answered it with a 2xx response and the mode is not test;
in every other case (a response that is not 2xx, a failure of the network, a missing
required field, an unreadable recording, any submission in test mode) the stored draft
is the one that was there before the call. -/
theorem sendData_clears_draft (env : Env) (mode : Mode) (app : App) :
    (sendData env mode app).autosave =
      if answered2xx env mode app && decide (mode ≠ .test) then none else app.autosave := by
  unfold sendData sendDataTry answered2xx
  simp only [setSubmit_autosave, preparePayload_setSubmit, setSubmit_fetchLog]
  cases preparePayload env mode app with
  | error e => simp [App.showToast, setSubmit_autosave]
  | ok o =>
    cases o with
    | none => simp [App.showToast, setSubmit_autosave]
    | some p =>
      simp only
      cases env.fetchOutcome app.fetchLog.length with
      | responded response =>
        cases hok : response.ok with
        | false => simp [hok, App.showToast, setSubmit_autosave]
        | true =>
          cases mode with
          | normal => simp [hok, App.showToast, AutoSave.clear, setSubmit_autosave]
          | test => simp [hok, App.showToast, setSubmit_autosave]
      | networkFailure m => simp [App.showToast, setSubmit_autosave]
      | timedOut => simp [App.showToast, setSubmit_autosave]
      | cancelled => simp [App.showToast, setSubmit_autosave]

/-! ## The format of a recording (C26) -/

/-- The type `getSupportedMimeType()` returns is one of its six candidates, or the empty
string. -/
theorem getSupportedMimeType_mem (isTypeSupported : String → Bool) :
    AudioRecorder.getSupportedMimeType isTypeSupported = "" ∨
      AudioRecorder.getSupportedMimeType isTypeSupported ∈ AudioRecorder.mimeTypes := by
  unfold AudioRecorder.getSupportedMimeType
  cases h : AudioRecorder.mimeTypes.find? isTypeSupported with
  | none => exact Or.inl rfl
  | some type => exact Or.inr (List.mem_of_find?_eq_some h)

/-- The format of a recording whose blob has one of the six candidate types, or the type
`audio/webm` the `stop` handler falls back to. -/
theorem getAudioFormat_candidate (r : AudioRecorder) (blob : Blob)
    (hb : r.audioBlob = some blob)
    (ht : blob.type ∈ AudioRecorder.mimeTypes) :
    r.getAudioFormat = formatOfMimeType blob.type := by
  unfold AudioRecorder.getAudioFormat
  simp only [hb]
  simp only [AudioRecorder.mimeTypes, List.mem_cons, List.mem_singleton, List.mem_nil_iff,
    or_false] at ht
  rcases ht with h | h | h | h | h | h <;> rw [h] <;> decide

/-- C26: `getAudioFormat()` always returns one of `mp3`, `wav`, `webm`, `ogg`, `mp4`; for
a recording whose blob has one of the types `getSupportedMimeType()` can select it is the
format of that type (`audio/mpeg` gives `mp3`, `audio/mp4` gives `mp4`, the two `audio/webm`
types give `webm`, `audio/ogg;codecs=opus` gives `ogg`, `audio/wav` gives `wav`); and
the recording the `stop` handler builds for the type that `getSupportedMimeType()`
selected, whatever the browser supports, has the format of that type. -/
theorem getAudioFormat_follows_mime :
    (∀ r : AudioRecorder, r.getAudioFormat ∈ ["mp3", "wav", "webm", "ogg", "mp4"]) ∧
    (∀ (r : AudioRecorder) (blob : Blob), r.audioBlob = some blob →
      blob.type ∈ AudioRecorder.mimeTypes → r.getAudioFormat = formatOfMimeType blob.type) ∧
    (formatOfMimeType "audio/mpeg" = "mp3" ∧ formatOfMimeType "audio/mp4" = "mp4" ∧
     formatOfMimeType "audio/webm;codecs=opus" = "webm" ∧
     formatOfMimeType "audio/webm" = "webm" ∧
     formatOfMimeType "audio/ogg;codecs=opus" = "ogg" ∧
     formatOfMimeType "audio/wav" = "wav") ∧
    (∀ (isTypeSupported : String → Bool) (key : String) (dataUrl : Option String) (app : App)
        (r : AudioRecorder), app.recorder key = some r →
      ∃ r2, (onStop key (AudioRecorder.getSupportedMimeType isTypeSupported) dataUrl app).recorder key =
          some r2 ∧
        r2.getAudioFormat = formatOfMimeType (AudioRecorder.getSupportedMimeType isTypeSupported)) := by
  refine ⟨?_, getAudioFormat_candidate, by decide, ?_⟩
  · intro r
    unfold AudioRecorder.getAudioFormat
    cases r.audioBlob with
    | none => decide
    | some blob =>
      simp only
      repeat (first | split | decide)
  · intro isTypeSupported key dataUrl app r hr
    have hstop : ∀ (g : String) (blob : Blob),
        blob = ⟨if g != "" then g else "audio/webm",
                (r.audioChunks.map (fun c => c.size)).sum, dataUrl⟩ →
        (onStop key g dataUrl app).recorder key = some { r with audioBlob := some blob } := by
      intro g blob hblob
      unfold onStop
      rw [hr, hblob]
      exact recorder_setRecorder_self _ _ _
    have hfmt : ∀ (t : String) (size : Nat), t ∈ AudioRecorder.mimeTypes →
        ({ r with audioBlob := some ⟨t, size, dataUrl⟩ } : AudioRecorder).getAudioFormat =
          formatOfMimeType t :=
      fun t size ht => getAudioFormat_candidate _ ⟨t, size, dataUrl⟩ rfl ht
    refine ⟨_, hstop _ _ rfl, ?_⟩
    rcases getSupportedMimeType_mem isTypeSupported with h | h
    · rw [h]
      exact hfmt "audio/webm" _ (by decide)
    · have hne : (AudioRecorder.getSupportedMimeType isTypeSupported != "") = true := by
        simp only [AudioRecorder.mimeTypes, List.mem_cons, List.mem_singleton,
          List.mem_nil_iff, or_false] at h
        rcases h with h | h | h | h | h | h <;> rw [h] <;> decide
      rw [if_pos hne]
      exact hfmt _ _ h

/-! ## The registry of abort controllers (C30) -/

namespace APIManager

theorem mem_mapSet (keys : List String) (key k : String) :
    k ∈ mapSet keys key ↔ k ∈ keys ∨ k = key := by
  unfold mapSet
  split
  · constructor
    · exact Or.inl
    · rintro (h | h)
      · exact h
      · subst h; assumption
  · simp

theorem mem_mapDelete (keys : List String) (key k : String) :
    k ∈ mapDelete keys key ↔ k ∈ keys ∧ k ≠ key := by
  simp [mapDelete]

/-- A controller left in the map once an attempt has settled was there before the
attempt and is not the one the attempt created. -/
theorem afterAttempt_registry (env : Env) (url : String) (options : RequestOptions)
    (s : ApiState) (k : String)
    (h : k ∈ (afterAttempt env url options s).abortControllers) :
    k ∈ s.abortControllers ∧ k ≠ env.generatedId s.idCalls := by
  simp only [afterAttempt, mem_mapDelete, mem_mapSet] at h
  rcases h with ⟨h1 | h1, h2⟩
  · exact ⟨h1, h2⟩
  · exact absurd h1 h2

/-- The attempt that ends a run with an abort: one id has been generated, and a
controller left in the map was there before and is not the one of the attempt. -/
theorem fetchWithRetry_abort_registry (env : Env) (url : String) (options : RequestOptions)
    (retries : Int) (s : ApiState)
    (h : env.fetchOutcome s.fetchLog.length = .timedOut ∨
         env.fetchOutcome s.fetchLog.length = .cancelled) :
    (fetchWithRetry env url options retries s).2.idCalls = s.idCalls + 1 ∧
    ∀ k ∈ (fetchWithRetry env url options retries s).2.abortControllers,
      k ∈ s.abortControllers ∧ k ≠ env.generatedId s.idCalls := by
  rw [fetchWithRetry]
  rcases h with h | h
  · simp only [h, awaitFetch, abortError]
    refine ⟨by simp, ?_⟩
    intro k hk
    simp only [if_true, mem_mapDelete, mem_mapSet] at hk
    rcases hk with ⟨h1 | h1, h2⟩
    · exact ⟨h1, h2⟩
    · exact absurd h1 h2
  · simp only [h, awaitFetch, abortError, cancelAllRequests]
    refine ⟨by simp, ?_⟩
    intro k hk
    simp [mapDelete] at hk

/-- What a whole run leaves in the map. -/
theorem fetchWithRetry_registry_run (env : Env) (url : String) :
    ∀ (n : Nat) (retries : Int), retries.toNat = n →
      ∀ (options : RequestOptions) (s : ApiState),
        s.idCalls < (fetchWithRetry env url options retries s).2.idCalls ∧
        ∀ k ∈ (fetchWithRetry env url options retries s).2.abortControllers,
          k ∈ s.abortControllers ∧
          ∀ i, s.idCalls ≤ i → i < (fetchWithRetry env url options retries s).2.idCalls →
            k ≠ env.generatedId i := by
  have hone : ∀ (options : RequestOptions) (s : ApiState),
      s.idCalls < (afterAttempt env url options s).idCalls ∧
      ∀ k ∈ (afterAttempt env url options s).abortControllers,
        k ∈ s.abortControllers ∧
        ∀ i, s.idCalls ≤ i → i < (afterAttempt env url options s).idCalls →
          k ≠ env.generatedId i := by
    intro options s
    refine ⟨by simp [afterAttempt], ?_⟩
    intro k hk
    obtain ⟨h1, h2⟩ := afterAttempt_registry env url options s k hk
    refine ⟨h1, ?_⟩
    intro i hi1 hi2
    have hi : i = s.idCalls := by
      simp only [afterAttempt] at hi2
      omega
    rw [hi]
    exact h2
  have habort : ∀ (retries : Int) (options : RequestOptions) (s : ApiState),
      (env.fetchOutcome s.fetchLog.length = .timedOut ∨
         env.fetchOutcome s.fetchLog.length = .cancelled) →
      s.idCalls < (fetchWithRetry env url options retries s).2.idCalls ∧
      ∀ k ∈ (fetchWithRetry env url options retries s).2.abortControllers,
        k ∈ s.abortControllers ∧
        ∀ i, s.idCalls ≤ i → i < (fetchWithRetry env url options retries s).2.idCalls →
          k ≠ env.generatedId i := by
    intro retries options s hab
    obtain ⟨hid, hreg⟩ := fetchWithRetry_abort_registry env url options retries s hab
    refine ⟨by omega, ?_⟩
    intro k hk
    obtain ⟨h1, h2⟩ := hreg k hk
    refine ⟨h1, ?_⟩
    intro i hi1 hi2
    have hi : i = s.idCalls := by omega
    rw [hi]
    exact h2
  intro n
  induction n with
  | zero =>
    intro retries hn options s
    have h0 : retries ≤ 0 := by omega
    rcases outcome_cases (env.fetchOutcome s.fetchLog.length) with ⟨r, ho, hok⟩ | ⟨e, he⟩ | hab
    · rw [fetchWithRetry_ok env url options retries s r ho hok]
      exact hone options s
    · rw [fetchWithRetry_last env url options retries s e he h0]
      exact hone options s
    · exact habort retries options s hab
  | succ n ih =>
    intro retries hn options s
    have h0 : ¬ retries ≤ 0 := by omega
    have h1 : (retries - 1).toNat = n := by omega
    rcases outcome_cases (env.fetchOutcome s.fetchLog.length) with ⟨r, ho, hok⟩ | ⟨e, he⟩ | hab
    · rw [fetchWithRetry_ok env url options retries s r ho hok]
      exact hone options s
    · rw [fetchWithRetry_retry env url options retries s e he h0]
      obtain ⟨hlt, hreg⟩ := ih (retries - 1) h1 (attemptOptions env options s)
        { afterAttempt env url options s with
          sleeps := s.sleeps ++ [CONFIG.API.RETRY_DELAY] }
      obtain ⟨hlt1, hreg1⟩ := hone options s
      have hid : ({ afterAttempt env url options s with
          sleeps := s.sleeps ++ [CONFIG.API.RETRY_DELAY] } : ApiState).idCalls =
            s.idCalls + 1 := by
        simp [afterAttempt]
      refine ⟨by omega, ?_⟩
      intro k hk
      obtain ⟨hk1, hk2⟩ := hreg k hk
      obtain ⟨hk3, hk4⟩ := hreg1 k hk1
      refine ⟨hk3, ?_⟩
      intro i hi1 hi2
      by_cases hi : i = s.idCalls
      · rw [hi]
        exact hk4 s.idCalls (Nat.le_refl _) hlt1
      · exact hk2 i (by omega) hi2
    · exact habort retries options s hab

/-- C30: every attempt of `fetchWithRetry` creates one controller (one id is generated
per attempt, at least one per call) and has removed it from `abortControllers` when the
attempt has settled, so when the call resolves or rejects the map holds no controller
created by that call, and nothing that was not in it before the call; after
`cancelAllRequests()` the map is empty. -/
theorem fetchWithRetry_registry (env : Env) (url : String) (options : RequestOptions)
    (retries : Int) (s : ApiState) :
    s.idCalls < (fetchWithRetry env url options retries s).2.idCalls ∧
    (∀ i, s.idCalls ≤ i → i < (fetchWithRetry env url options retries s).2.idCalls →
      env.generatedId i ∉ (fetchWithRetry env url options retries s).2.abortControllers) ∧
    (∀ k ∈ (fetchWithRetry env url options retries s).2.abortControllers,
      k ∈ s.abortControllers) ∧
    (cancelAllRequests s).abortControllers = [] ∧
    (cancelAllRequests (fetchWithRetry env url options retries s).2).abortControllers = [] := by
  obtain ⟨hlt, hreg⟩ := fetchWithRetry_registry_run env url retries.toNat retries rfl options s
  refine ⟨hlt, ?_, fun k hk => (hreg k hk).1, rfl, rfl⟩
  intro i hi1 hi2 hmem
  exact (hreg _ hmem).2 i hi1 hi2 rfl

end APIManager

/-! ## state-manager.js: assignment along a path -/

namespace StateManager

theorem deepClone_defined (v : JsVal) (h : v ≠ .undefined) :
    Utils.deepClone v = .ok v.jsonValue := by
  cases v <;> first | rfl | exact absurd rfl h

theorem addToHistory_state (now : Int) (path : String) (o n : JsVal) (m : StateManager) :
    (addToHistory now path o n m).2.state = m.state ∧
    (addToHistory now path o n m).2.storage = m.storage ∧
    (addToHistory now path o n m).2.maxHistory = m.maxHistory := by
  unfold addToHistory
  cases historyEntry now path o n <;> exact ⟨rfl, rfl, rfl⟩

/-- `setState` does not touch the storage. -/
theorem setState_storage (now : Int) :
    ∀ (fuel : Nat) (path : String) (value : JsVal) (m : StateManager),
      (setState fuel now path value m).2.storage = m.storage := by
  intro fuel
  induction fuel with
  | zero => intro path value m; rfl
  | succ n ih =>
    intro path value m
    simp only [setState]
    split
    · rfl
    · rename_i oldValue state hassign
      split
      · rename_i e m2 hhist
        have h := (addToHistory_state now path oldValue value { m with state := state }).2.1
        rw [hhist] at h
        exact h
      · rename_i m2 hhist
        have h := (addToHistory_state now path oldValue value { m with state := state }).2.1
        rw [hhist] at h
        rw [ih]
        exact h

/-- Whatever room the call stack has, `setState` ends with an exception. -/
theorem setState_throws (now : Int) :
    ∀ (fuel : Nat) (path : String) (value : JsVal) (m : StateManager),
      ∃ e, (setState fuel now path value m).1 = .error e := by
  intro fuel
  induction fuel with
  | zero => intro path value m; exact ⟨stackOverflow, rfl⟩
  | succ n ih =>
    intro path value m
    simp only [setState]
    split
    · exact ⟨_, rfl⟩
    · split
      · exact ⟨_, rfl⟩
      · exact ih _ _ _

end StateManager

namespace StateManager

/-- The keys of the path `autoSave.isDirty`. -/
theorem splitPath_isDirty :
    (splitPath "autoSave.isDirty").dropLast = ["autoSave"] ∧
    (splitPath "autoSave.isDirty").getLastD "" = "isDirty" := by
  decide

theorem splitPath_errors :
    (splitPath "errors").dropLast = [] ∧ (splitPath "errors").getLastD "" = "errors" := by
  decide

/-- One call of `setState` on a state that is an object leaves an object, with every
property other than the first key of the path and `autoSave` as it was. -/
theorem setState_object (now : Int) (k : String) (hk : k ≠ "autoSave") :
    ∀ (fuel : Nat) (m : StateManager) (fields : List (String × JsVal)),
      m.state = .obj fields →
      ∃ fields2, (setState fuel now "autoSave.isDirty" (.bool true) m).2.state = .obj fields2 ∧
        fields2.lookup k = fields.lookup k := by
  intro fuel
  induction fuel with
  | zero => intro m fields hm; exact ⟨fields, hm, rfl⟩
  | succ n ih =>
    intro m fields hm
    simp only [setState, splitPath_isDirty.1, splitPath_isDirty.2, hm, assignPath]
    split
    · exact ⟨fields, hm, rfl⟩
    · rename_i oldValue state hassign
      have hstate : ∃ child, state = .obj (objSet fields "autoSave" child) := by
        revert hassign
        split
        · intro h; cases h
        · rename_i o c hinner
          intro h
          simp only [Except.ok.injEq, Prod.mk.injEq] at h
          exact ⟨c, h.2.symm⟩
      obtain ⟨child, hchild⟩ := hstate
      have hlook : (objSet fields "autoSave" child).lookup k = fields.lookup k :=
        lookup_objSet_other _ _ _ _ hk
      have hst := (addToHistory_state now "autoSave.isDirty" oldValue (.bool true)
        { m with state := state }).1
      split
      · rename_i e m2 hhist
        rw [hhist] at hst
        exact ⟨_, hst.trans hchild, hlook⟩
      · rename_i m2 hhist
        rw [hhist] at hst
        obtain ⟨fields3, h3, h4⟩ := ih (notify "autoSave.isDirty" m2) _
          (show (notify "autoSave.isDirty" m2).state = _ from hst.trans hchild)
        exact ⟨fields3, h3, h4.trans hlook⟩

end StateManager

namespace StateManager

/-! ## The error log (C25) -/

theorem getState_errors (m : StateManager) :
    getState "errors" m = .ok (m.state.get "errors") := by
  unfold getState
  rw [if_neg (by decide)]
  have h : splitPath "errors" = ["errors"] := by decide
  rw [h]
  rfl

/-- A call of `setState` with the path `errors` and the value `v`, on a state whose
`errors` already is `v`, leaves it so. -/
theorem setState_errors (now : Int) (v : JsVal) (fuel : Nat) (m : StateManager)
    (fields : List (String × JsVal)) (hm : m.state = .obj fields)
    (hv : fields.lookup "errors" = some v) :
    ∃ fields2, (setState fuel now "errors" v m).2.state = .obj fields2 ∧
      fields2.lookup "errors" = some v := by
  cases fuel with
  | zero => exact ⟨fields, hm, hv⟩
  | succ n =>
    simp only [setState, splitPath_errors.1, splitPath_errors.2, hm, assignPath]
    have hst := fun o => (addToHistory_state now "errors" o v
      { m with state := .obj (objSet fields "errors" v) }).1
    split
    · rename_i e m2 hhist
      have h := hst ((fields.lookup "errors").getD .undefined)
      rw [hhist] at h
      exact ⟨_, h, lookup_objSet_self _ _ _⟩
    · rename_i m2 hhist
      have h := hst ((fields.lookup "errors").getD .undefined)
      rw [hhist] at h
      obtain ⟨fields3, h3, h4⟩ := setState_object now "errors" (by decide) n
        (notify "errors" m2) _ (show (notify "errors" m2).state = _ from h)
      exact ⟨fields3, h3, h4.trans (lookup_objSet_self _ _ _)⟩

/-- One call of `addError` appends its entry to the log, whatever the call returns. -/
theorem addError_appends (fuel : Nat) (now : Int) (error : ErrorArg) (m : StateManager)
    (fields : List (String × JsVal)) (items : List JsVal) (hm : m.state = .obj fields)
    (he : fields.lookup "errors" = some (.arr items)) :
    ∃ fields2, (addError fuel now error m).2.state = .obj fields2 ∧
      fields2.lookup "errors" = some (.arr (items ++ [errorObj now error])) := by
  have hget : m.state.get "errors" = .arr items := by
    rw [hm]
    simp [JsVal.get, he]
  unfold addError
  rw [getState_errors, hget]
  simp only [hm, assignPath]
  exact setState_errors now _ fuel _ _ rfl (lookup_objSet_self _ _ _)

/-- After a sequence of `addError` calls the log holds the entries it held before and
one more for each call. -/
theorem addErrors_count (fuel : Nat) :
    ∀ (calls : List (Int × ErrorArg)) (m : StateManager) (fields : List (String × JsVal))
      (items : List JsVal), m.state = .obj fields →
      fields.lookup "errors" = some (.arr items) →
      (addErrors fuel calls m).errorCount = items.length + calls.length := by
  intro calls
  induction calls with
  | nil =>
    intro m fields items hm he
    simp [addErrors, errorCount, hm, JsVal.get, he]
  | cons c rest ih =>
    intro m fields items hm he
    obtain ⟨now, error⟩ := c
    obtain ⟨fields2, h2, h3⟩ := addError_appends fuel now error m fields items hm he
    simp only [addErrors]
    rw [ih _ fields2 _ h2 h3]
    simp
    omega

end StateManager

namespace StateManager

theorem new_errors (onLine : Bool) (now : Int) (storage : Option JsVal) :
    ∃ fields, (new onLine now storage).state = .obj fields ∧
      fields.lookup "errors" = some (.arr []) :=
  ⟨_, rfl, by simp [List.lookup]⟩

/-- C25, as stated, fails: no bound holds for the number of entries of `state.errors`
over all sequences of `addError` calls on a new manager. -/
theorem addError_log_unbounded :
    ¬ ∃ B : Nat, ∀ (fuel : Nat) (calls : List (Int × ErrorArg)),
      (addErrors fuel calls (new true 0 none)).errorCount ≤ B := by
  rintro ⟨B, hB⟩
  obtain ⟨fields, hm, he⟩ := new_errors true 0 none
  have h := hB 0 (List.replicate (B + 1) (0, .text "e"))
  rw [addErrors_count 0 _ _ fields [] hm he] at h
  simp at h

/-- C25, amended: the error log is not capped. Every `addError` call appends one entry
to `state.errors`, so after any sequence of `addError` calls on a new manager the log
holds as many entries as there were calls. -/
theorem addError_log_grows (fuel : Nat) (calls : List (Int × ErrorArg)) (onLine : Bool)
    (now : Int) (storage : Option JsVal) :
    (addErrors fuel calls (new onLine now storage)).errorCount = calls.length := by
  obtain ⟨fields, hm, he⟩ := new_errors onLine now storage
  rw [addErrors_count fuel calls _ fields [] hm he]
  simp

/-! ## Termination of setState (C27) -/

/-- On a state that holds `autoSave.isDirty`, the call `setState` ends with, with the path
`autoSave.isDirty`, overflows the stack whatever room the stack has. -/
theorem setState_isDirty_overflows (now : Int) :
    ∀ (fuel : Nat) (m : StateManager) (fields af : List (String × JsVal)) (v : JsVal),
      m.state = .obj fields → fields.lookup "autoSave" = some (.obj af) →
      af.lookup "isDirty" = some v → v ≠ .undefined →
      (setState fuel now "autoSave.isDirty" (.bool true) m).1 = .error stackOverflow := by
  intro fuel
  induction fuel with
  | zero => intro m fields af v _ _ _ _; rfl
  | succ n ih =>
    intro m fields af v hm hauto hdirty hv
    simp only [setState, splitPath_isDirty.1, splitPath_isDirty.2]
    simp only [hm, assignPath, hauto, hdirty, Option.getD_some]
    simp only [addToHistory, historyEntry, deepClone_defined v hv,
      deepClone_defined (.bool true) (by simp)]
    exact ih _ (objSet fields "autoSave" (.obj (objSet af "isDirty" (.bool true))))
      (objSet af "isDirty" (.bool true)) (.bool true) rfl
      (lookup_objSet_self _ _ _) (lookup_objSet_self _ _ _) (by simp)

/-- C27 on `setState(path, value)` and the methods that call it: for every room the call
stack has, every path and every value, the call does not return but ends with an
exception, and so do `addError`, `clearErrors`, `updateNetwork` and `resetState(section)`.
On a new manager, `setState` with the path `auth.username` ends with the
`RangeError` of a stack overflow, however large the stack. -/
theorem setState_never_returns :
    (∀ (fuel : Nat) (now : Int) (path : String) (value : JsVal) (m : StateManager),
      ∃ e, (setState fuel now path value m).1 = .error e) ∧
    (∀ (fuel : Nat) (now : Int) (error : ErrorArg) (m : StateManager),
      ∃ e, (addError fuel now error m).1 = .error e) ∧
    (∀ (fuel : Nat) (now : Int) (m : StateManager),
      ∃ e, (clearErrors fuel now m).1 = .error e) ∧
    (∀ (fuel : Nat) (now : Int) (isOnline : Bool) (m : StateManager),
      ∃ e, (updateNetwork fuel now isOnline m).1 = .error e) ∧
    (∀ (fuel : Nat) (onLine : Bool) (now : Int) (name : String) (m : StateManager),
      name ≠ "" → ∃ e, (resetState fuel onLine now (some name) m).1 = .error e) ∧
    (∀ (fuel : Nat) (onLine : Bool) (now : Int),
      (setState fuel now "auth.username" (.str "dr.smith") (new onLine 0 none)).1 =
        .error stackOverflow) := by
  refine ⟨fun fuel now => setState_throws now fuel, ?_, ?_, ?_, ?_, ?_⟩
  · intro fuel now error m
    unfold addError
    split
    · dsimp only
      split
      · exact setState_throws now fuel _ _ _
      · exact ⟨_, rfl⟩
    · exact ⟨_, rfl⟩
    · exact ⟨_, rfl⟩
  · intro fuel now m
    exact setState_throws now fuel _ _ _
  · intro fuel now isOnline m
    obtain ⟨e, he⟩ := setState_throws now fuel "network.isOnline" (.bool isOnline) m
    unfold updateNetwork
    simp only [setMultiple]
    split
    · exact ⟨_, rfl⟩
    · rename_i m2 h
      rw [h] at he
      cases he
  · intro fuel onLine now name m hname
    unfold resetState
    simp only [ne_eq, hname, not_false_eq_true, if_true]
    exact setState_throws now fuel _ _ _
  · intro fuel onLine now
    cases fuel with
    | zero => rfl
    | succ n =>
      have hkeys : (splitPath "auth.username").dropLast = ["auth"] ∧
          (splitPath "auth.username").getLastD "" = "username" := by decide
      obtain ⟨fields, hfields, hauth, hauto⟩ : ∃ fields,
          (new onLine 0 none).state = .obj fields ∧
          fields.lookup "auth" = some (.obj [("username", .str ""), ("accessCode", .str ""),
            ("isRemembered", .bool false), ("isAuthenticated", .bool false)]) ∧
          fields.lookup "autoSave" = some (.obj [("isEnabled", .bool true),
            ("lastSaveTime", .null), ("isSaving", .bool false), ("isDirty", .bool false)]) :=
        ⟨_, rfl, rfl, rfl⟩
      simp only [setState, hkeys.1, hkeys.2]
      simp only [hfields, assignPath, hauth]
      have hold : (List.lookup "username" [("username", JsVal.str ""),
          ("accessCode", JsVal.str ""), ("isRemembered", JsVal.bool false),
          ("isAuthenticated", JsVal.bool false)]).getD JsVal.undefined = .str "" := rfl
      simp only [hold, addToHistory, historyEntry, Utils.deepClone]
      exact setState_isDirty_overflows now n _
        (objSet fields "auth" (.obj (objSet [("username", .str ""), ("accessCode", .str ""),
          ("isRemembered", .bool false), ("isAuthenticated", .bool false)] "username"
          (.str "dr.smith"))))
        [("isEnabled", .bool true), ("lastSaveTime", .null), ("isSaving", .bool false),
         ("isDirty", .bool false)] (.bool false) rfl
        ((lookup_objSet_other _ _ _ _ (by decide)).trans hauto) rfl (by simp)

end StateManager

namespace StateManager

/-! ## The size of the history (C28) -/

/-- Pushing an entry and shifting when the limit is exceeded keeps the last entries. -/
theorem lastN_push {α : Type} (max : Nat) (h : List α) (e : α) (rest : List α)
    (hlen : h.length ≤ max) :
    (if (h ++ [e]).length > max then (h ++ [e]).tail else h ++ [e]).length ≤ max ∧
    lastN max ((if (h ++ [e]).length > max then (h ++ [e]).tail else h ++ [e]) ++ rest) =
      lastN max (h ++ e :: rest) := by
  by_cases hgt : (h ++ [e]).length > max
  · rw [if_pos hgt]
    have hmax : h.length = max := by
      simp only [List.length_append, List.length_singleton] at hgt
      omega
    have htail : (h ++ [e]).tail ++ rest = (h ++ e :: rest).drop 1 := by
      cases h with
      | nil => simp
      | cons a t => simp
    refine ⟨by simp; omega, ?_⟩
    rw [htail]
    unfold lastN
    rw [List.drop_drop]
    congr 1
    simp only [List.length_drop, List.length_append, List.length_cons]
    omega
  · rw [if_neg hgt]
    refine ⟨by omega, ?_⟩
    simp

/-- After a sequence of `addToHistory` calls the history is the last `maxHistory`
entries of what it held followed by what the calls recorded. -/
theorem recordAll_history :
    ∀ (calls : List (Int × String × JsVal × JsVal)) (m : StateManager),
      m.history.length ≤ m.maxHistory →
      (recordAll calls m).history = lastN m.maxHistory (m.history ++ recorded calls) ∧
      (recordAll calls m).history.length ≤ m.maxHistory := by
  intro calls
  induction calls with
  | nil =>
    intro m hm
    refine ⟨?_, hm⟩
    simp only [recordAll, recorded, List.append_nil, lastN]
    rw [Nat.sub_eq_zero_of_le hm]
    rfl
  | cons c rest ih =>
    intro m hm
    obtain ⟨now, path, o, n⟩ := c
    simp only [recordAll, recorded, addToHistory]
    cases hentry : historyEntry now path o n with
    | error e => exact ih m hm
    | ok entry =>
      obtain ⟨hlen, hlast⟩ := lastN_push m.maxHistory m.history entry (recorded rest) hm
      have h := ih { m with history :=
        if (m.history ++ [entry]).length > m.maxHistory then (m.history ++ [entry]).tail
        else m.history ++ [entry] } hlen
      exact ⟨h.1.trans hlast, h.2⟩

/-- C28: after any sequence of `addToHistory` calls on a new manager, whose history is
empty and whose `maxHistory` is 50, the history has at most 50 entries, and it is the
last 50 (or all, if fewer) of the entries the calls recorded, in the order of the
calls: what is dropped when the limit is exceeded is the oldest entry. -/
theorem history_bounded (calls : List (Int × String × JsVal × JsVal)) (onLine : Bool)
    (now : Int) (storage : Option JsVal) :
    (recordAll calls (new onLine now storage)).history.length ≤ 50 ∧
    (recordAll calls (new onLine now storage)).history.length = min 50 (recorded calls).length ∧
    (recordAll calls (new onLine now storage)).history =
      (recorded calls).drop ((recorded calls).length - 50) := by
  obtain ⟨h1, h2⟩ := recordAll_history calls (new onLine now storage) (Nat.zero_le _)
  have h3 : (recordAll calls (new onLine now storage)).history =
      (recorded calls).drop ((recorded calls).length - 50) := by
    rw [h1]
    rfl
  refine ⟨h2, ?_, h3⟩
  rw [h3, List.length_drop]
  omega

end StateManager

/-! ## What the draft holds (C24) -/

namespace StateManager

/-- A property that is not `undefined` is kept by `JSON.stringify`, with its value
serialised. -/
theorem jsonFields_lookup (k : String) (v : JsVal) (hv : v ≠ .undefined) :
    ∀ fields : List (String × JsVal), fields.lookup k = some v →
      (JsVal.jsonFields fields).lookup k = some v.jsonValue := by
  intro fields
  induction fields with
  | nil => intro h; simp at h
  | cons e rest ih =>
    intro h
    obtain ⟨k2, v2⟩ := e
    rw [List.lookup_cons] at h
    cases hk : (k == k2) with
    | true =>
      simp only [hk] at h
      have hv2 : v2 = v := by simpa using h
      subst hv2
      cases v2 <;> first
        | exact absurd rfl hv
        | simp [JsVal.jsonFields, List.lookup_cons, hk]
    | false =>
      simp only [hk] at h
      cases v2 <;> simp [JsVal.jsonFields, List.lookup_cons, hk, ih h]

/-- What `saveToStorage` leaves in the storage. -/
theorem saveToStorage_storage (fuel : Nat) (now : Int) (m : StateManager) :
    (saveToStorage fuel now m).2.storage =
      some (JsVal.obj (objSet (objSet (ownEntries m.state) "savedAt" (.num now)) "version"
        (.str CONFIG.VERSION))).jsonValue := by
  unfold saveToStorage
  simp only
  split
  · rename_i e m2 h1
    have h := setState_storage now fuel "autoSave.lastSaveTime" (.num now)
      { m with storage := some (JsVal.obj (objSet (objSet (ownEntries m.state) "savedAt"
        (.num now)) "version" (.str CONFIG.VERSION))).jsonValue }
    rw [h1] at h
    exact h
  · rename_i m2 h1
    have h := setState_storage now fuel "autoSave.lastSaveTime" (.num now)
      { m with storage := some (JsVal.obj (objSet (objSet (ownEntries m.state) "savedAt"
        (.num now)) "version" (.str CONFIG.VERSION))).jsonValue }
    rw [h1] at h
    split
    · rename_i e m3 h2
      have h3 := setState_storage now fuel "autoSave.isDirty" (.bool false) m2
      rw [h2] at h3
      exact h3.trans h
    · rename_i m3 h2
      have h3 := setState_storage now fuel "autoSave.isDirty" (.bool false) m2
      rw [h2] at h3
      exact h3.trans h

end StateManager

/-- C24, as stated, fails for `StateManager.saveToStorage`: two managers whose states
differ only under `recordings` write different values under the key, and the value
written for the state that holds the base64 text of a recording contains that text. -/
theorem saveToStorage_writes_recordings :
    (∀ k, k ≠ "recordings" →
      managerWithAudio.state.get k = (StateManager.new true 0 none).state.get k) ∧
    (StateManager.saveToStorage 2 1000 managerWithAudio).2.storage.map
        (fun v => ((v.get "recordings").get "normal").get "partie1") =
      some (.str "UklGRiQAAABXQVZF") ∧
    (StateManager.saveToStorage 2 1000 (StateManager.new true 0 none)).2.storage.map
        (fun v => ((v.get "recordings").get "normal").get "partie1") =
      some .null := by
  refine ⟨?_, ?_, ?_⟩
  · intro k hk
    obtain ⟨fields, child, h1, h2⟩ : ∃ fields child,
        managerWithAudio.state = .obj (objSet fields "recordings" child) ∧
        (StateManager.new true 0 none).state = .obj fields := ⟨_, _, rfl, rfl⟩
    rw [h1, h2]
    simp only [JsVal.get]
    rw [lookup_objSet_other _ _ _ _ hk]
  · rw [StateManager.saveToStorage_storage]
    rfl
  · rw [StateManager.saveToStorage_storage]
    rfl

/-- C24, amended: what `AutoSave.save` writes under the key contains no recorded
audio, two application states that differ only in their recordings write the same
draft; `StateManager.saveToStorage` with its default key writes a copy of the whole
state, so the value it writes holds, under `recordings`, whatever the state holds
there. -/
theorem draft_contents (now : Int) (app : App) (recorders : List (String × AudioRecorder))
    (events : List (String × RecorderEvent)) (fuel : Nat) (m : StateManager)
    (fields : List (String × JsVal)) (rec : JsVal)
    (hm : m.state = .obj fields) (hrec : fields.lookup "recordings" = some rec)
    (hdef : rec ≠ .undefined) :
    (AutoSave.save now { app with audioRecorders := recorders, pendingEvents := events }).autosave =
      (AutoSave.save now app).autosave ∧
    (AutoSave.save now app).autosave =
      some ⟨app.currentMode.toString, now, AutoSave.forms app app.currentMode⟩ ∧
    ∃ stored, (StateManager.saveToStorage fuel now m).2.storage = some (.obj stored) ∧
      stored.lookup "recordings" = some rec.jsonValue := by
  refine ⟨by cases h : app.currentMode <;> simp [AutoSave.save, AutoSave.forms, h], rfl, ?_⟩
  rw [StateManager.saveToStorage_storage, hm]
  refine ⟨_, rfl, ?_⟩
  apply StateManager.jsonFields_lookup _ _ hdef
  rw [lookup_objSet_other _ _ _ _ (by decide), lookup_objSet_other _ _ _ _ (by decide)]
  exact hrec

theorem draft_contents_witness :
    (AutoSave.save 1000 { appIdle with audioRecorders := appTwoOfFour.audioRecorders,
                                       pendingEvents := [] }).autosave =
      (AutoSave.save 1000 appIdle).autosave ∧
    (AutoSave.save 1000 appIdle).autosave =
      some ⟨appIdle.currentMode.toString, 1000, AutoSave.forms appIdle appIdle.currentMode⟩ ∧
    ∃ stored, (StateManager.saveToStorage 2 1000 managerWithAudio).2.storage =
        some (.obj stored) ∧
      stored.lookup "recordings" =
        some (managerWithAudio.state.get "recordings").jsonValue :=
  draft_contents 1000 appIdle appTwoOfFour.audioRecorders [] 2 managerWithAudio _
    (managerWithAudio.state.get "recordings") rfl rfl
    (by
      intro h
      obtain ⟨f, hf⟩ : ∃ f, managerWithAudio.state.get "recordings" = JsVal.obj f := ⟨_, rfl⟩
      rw [hf] at h
      cases h)

/-! ## The age of a stored draft (C21) -/

theorem restoreNormalEntry_autosave (a : App) (e : String × String) :
    (AutoSave.restoreNormalEntry a e).autosave = a.autosave := by
  unfold AutoSave.restoreNormalEntry App.setInput
  repeat (first | rfl | split)

theorem restoreTestEntry_autosave (a : App) (e : String × String) :
    (AutoSave.restoreTestEntry a e).autosave = a.autosave := by
  unfold AutoSave.restoreTestEntry App.setInput
  repeat (first | rfl | split)

/-- A draft that is not past its age limit stays in storage when it is restored. -/
theorem restore_keeps_draft (now : Int) (app : App) (d : Draft)
    (h : app.autosave = some d) (hage : ¬ now - d.timestamp > AutoSave.dayInMs) :
    (AutoSave.restore now app).autosave = some d := by
  have hn : ∀ (forms : List (String × String)) (a : App),
      (forms.foldl AutoSave.restoreNormalEntry a).autosave = a.autosave := by
    intro forms
    induction forms with
    | nil => intro a; rfl
    | cons e rest ih => intro a; simp only [List.foldl_cons]; rw [ih, restoreNormalEntry_autosave]
  have ht : ∀ (forms : List (String × String)) (a : App),
      (forms.foldl AutoSave.restoreTestEntry a).autosave = a.autosave := by
    intro forms
    induction forms with
    | nil => intro a; rfl
    | cons e rest ih => intro a; simp only [List.foldl_cons]; rw [ih, restoreTestEntry_autosave]
  unfold AutoSave.restore
  simp only [h, if_neg hage]
  split
  · simp only [App.showToast, hn]; exact h
  · split
    · simp only [App.showToast, ht]; exact h
    · exact h

namespace StateManager

/-- On a state that is an object the `forEach` of `loadFromStorage` does not throw. -/
theorem restoreEntries_object :
    ∀ (entries : List (String × JsVal)) (fields : List (String × JsVal)),
      ∃ fields2, restoreEntries entries (.obj fields) = .ok (.obj fields2) := by
  intro entries
  induction entries with
  | nil => intro fields; exact ⟨fields, rfl⟩
  | cons e rest ih =>
    intro fields
    obtain ⟨path, value⟩ := e
    simp only [restoreEntries, assignPath]
    split
    · exact ih _
    · exact ih _

/-- What `loadFromStorage` does with a stored object whose `savedAt` is the number `t`. -/
theorem loadFromStorage_saved (now t : Int) (m : StateManager)
    (sf stored : List (String × JsVal)) (hs : m.state = .obj sf)
    (hst : m.storage = some (.obj stored)) (ht : stored.lookup "savedAt" = some (.num t)) :
    (now - t > CONFIG.AUTO_SAVE.EXPIRATION →
      loadFromStorage now m = (false, { m with storage := none })) ∧
    (¬ now - t > CONFIG.AUTO_SAVE.EXPIRATION →
      ∃ fields2,
        restoreEntries (stored.filter (fun e => e.1 ≠ "savedAt" ∧ e.1 ≠ "version"))
          (.obj sf) = .ok (.obj fields2) ∧
        loadFromStorage now m = (true, notify "*" { m with state := .obj fields2 })) := by
  have hexp : expired now ((JsVal.obj stored).get "savedAt") =
      decide (now - t > CONFIG.AUTO_SAVE.EXPIRATION) := by
    simp [expired, JsVal.get, ht, toNumber]
  constructor
  · intro hage
    unfold loadFromStorage
    simp only [hst, hexp, hage, decide_True, if_true]
  · intro hage
    obtain ⟨fields2, h2⟩ := restoreEntries_object
      (stored.filter (fun e => e.1 ≠ "savedAt" ∧ e.1 ≠ "version")) sf
    refine ⟨fields2, h2, ?_⟩
    unfold loadFromStorage
    simp only [hst, hexp, hage, decide_False, ownEntries, hs, h2]
    rfl

end StateManager

/-- C21, as stated, fails: a draft whose age is exactly 24 hours is restored by
`AutoSave.restore` and by `StateManager.loadFromStorage`, and stays in storage. -/
theorem restore_at_24_hours :
    (appDraftF9.autosave.map (fun d => (86400000 : Int) - d.timestamp)) = some 86400000 ∧
    appDraftF9.numeroDossier = "" ∧
    (AutoSave.restore 86400000 appDraftF9).numeroDossier = "F-9" ∧
    (AutoSave.restore 86400000 appDraftF9).autosave = appDraftF9.autosave ∧
    snapshotF9.get "savedAt" = .num 0 ∧
    (StateManager.loadFromStorage 86400000 managerF9).1 = true ∧
    ((StateManager.loadFromStorage 86400000 managerF9).2.state.get "patient").get
        "numeroDossier" = .str "F-9" ∧
    (StateManager.loadFromStorage 86400000 managerF9).2.storage = some snapshotF9 :=
  ⟨by decide, by decide, by decide, by decide, rfl, rfl, rfl, rfl⟩

/-- C21, amended: `AutoSave.restore` and `StateManager.loadFromStorage` apply a stored
draft if and only if its age, now minus the saved timestamp, is at most 24 hours: up
to that age the draft is applied as it would be at the moment it was saved, and stays
in storage; a draft whose age is more than 24 hours is removed from storage and nothing
else changes. -/
theorem restore_age_limit (now : Int) (app : App) (d : Draft) (m : StateManager)
    (sf stored : List (String × JsVal)) (t : Int)
    (h : app.autosave = some d) (hs : m.state = .obj sf)
    (hst : m.storage = some (.obj stored)) (ht : stored.lookup "savedAt" = some (.num t)) :
    (now - d.timestamp ≤ 86400000 →
      AutoSave.restore now app = AutoSave.restore d.timestamp app ∧
      (AutoSave.restore now app).autosave = some d) ∧
    (86400000 < now - d.timestamp → AutoSave.restore now app = { app with autosave := none }) ∧
    (now - t ≤ 86400000 →
      StateManager.loadFromStorage now m = StateManager.loadFromStorage t m ∧
      (StateManager.loadFromStorage now m).1 = true ∧
      (StateManager.loadFromStorage now m).2.storage = m.storage) ∧
    (86400000 < now - t →
      StateManager.loadFromStorage now m = (false, { m with storage := none })) := by
  have hday : AutoSave.dayInMs = 86400000 := by decide
  have hexpi : CONFIG.AUTO_SAVE.EXPIRATION = 86400000 := by decide
  refine ⟨?_, ?_, ?_, ?_⟩
  · intro hage
    have h1 : ¬ now - d.timestamp > AutoSave.dayInMs := by rw [hday]; omega
    have h2 : ¬ d.timestamp - d.timestamp > AutoSave.dayInMs := by rw [hday]; omega
    refine ⟨?_, restore_keeps_draft now app d h h1⟩
    unfold AutoSave.restore
    simp only [h, if_neg h1, if_neg h2]
  · intro hage
    have h1 : now - d.timestamp > AutoSave.dayInMs := by rw [hday]; omega
    unfold AutoSave.restore
    simp only [h, if_pos h1]
  · intro hage
    have h1 : ¬ now - t > CONFIG.AUTO_SAVE.EXPIRATION := by rw [hexpi]; omega
    have h2 : ¬ t - t > CONFIG.AUTO_SAVE.EXPIRATION := by rw [hexpi]; omega
    obtain ⟨f1, _, e1⟩ := (StateManager.loadFromStorage_saved now t m sf stored hs hst ht).2 h1
    obtain ⟨f2, _, e2⟩ := (StateManager.loadFromStorage_saved t t m sf stored hs hst ht).2 h2
    have hf : f1 = f2 := by
      rename_i r1 r2
      rw [r1] at r2
      simp only [Except.ok.injEq, JsVal.obj.injEq] at r2
      exact r2
    subst hf
    rw [e1, e2]
    exact ⟨rfl, rfl, rfl⟩
  · intro hage
    have h1 : now - t > CONFIG.AUTO_SAVE.EXPIRATION := by rw [hexpi]; omega
    exact (StateManager.loadFromStorage_saved now t m sf stored hs hst ht).1 h1

theorem restore_age_limit_witness :
    appDraftF9.numeroDossier = "" ∧
    (AutoSave.restore 3600000 appDraftF9).numeroDossier = "F-9" ∧
    (AutoSave.restore 3600000 appDraftF9).autosave = appDraftF9.autosave ∧
    AutoSave.restore 90000000 appDraftF9 = { appDraftF9 with autosave := none } ∧
    (StateManager.loadFromStorage 3600000 managerF9).1 = true ∧
    ((StateManager.loadFromStorage 3600000 managerF9).2.state.get "patient").get
        "numeroDossier" = .str "F-9" ∧
    (StateManager.loadFromStorage 3600000 managerF9).2.storage = managerF9.storage ∧
    StateManager.loadFromStorage 90000000 managerF9 =
      (false, { managerF9 with storage := none }) :=
  have h1 := restore_age_limit 3600000 appDraftF9
    ⟨"normal", 0, AutoSave.forms appF9 .normal⟩ managerF9 _ _ 0 rfl rfl rfl rfl
  have h25 := restore_age_limit 90000000 appDraftF9
    ⟨"normal", 0, AutoSave.forms appF9 .normal⟩ managerF9 _ _ 0 rfl rfl rfl rfl
  ⟨by decide, by decide, (h1.1 (by decide)).2, h25.2.1 (by decide),
   (h1.2.2.1 (by decide)).2.1, rfl, (h1.2.2.1 (by decide)).2.2, h25.2.2.2 (by decide)⟩

/-! ## Concrete runs -/

theorem getAudioFormat_follows_mime_witness :
    (recordedSession "partie1").getAudioFormat = "webm" ∧
    (recordedSession "partie1").getAudioFormat = formatOfMimeType sampleBlob.type ∧
    (∃ r2, (onStop "partie1"
        (AudioRecorder.getSupportedMimeType (fun t => t == "audio/mp4" || t == "audio/wav"))
        none appTwoOfFour).recorder "partie1" = some r2 ∧
      r2.getAudioFormat = formatOfMimeType
        (AudioRecorder.getSupportedMimeType (fun t => t == "audio/mp4" || t == "audio/wav"))) ∧
    formatOfMimeType
      (AudioRecorder.getSupportedMimeType (fun t => t == "audio/mp4" || t == "audio/wav")) =
        "mp4" :=
  ⟨by decide,
   getAudioFormat_follows_mime.2.1 (recordedSession "partie1") sampleBlob rfl (by decide),
   getAudioFormat_follows_mime.2.2.2 (fun t => t == "audio/mp4" || t == "audio/wav")
     "partie1" none appTwoOfFour (recordedSession "partie1") (by decide),
   by decide⟩

namespace APIManager

theorem fetchWithRetry_registry_witness :
    (fetchWithRetry (envOf (.responded response500)) CONFIG.API.NORMAL_MODE noOptions 2
      { ApiState.init with abortControllers := ["other"] }).2.idCalls = 3 ∧
    (fetchWithRetry (envOf (.responded response500)) CONFIG.API.NORMAL_MODE noOptions 2
      { ApiState.init with abortControllers := ["other"] }).2.abortControllers = ["other"] ∧
    (∀ i, 0 ≤ i →
      i < (fetchWithRetry (envOf (.responded response500)) CONFIG.API.NORMAL_MODE noOptions 2
        { ApiState.init with abortControllers := ["other"] }).2.idCalls →
      (envOf (.responded response500)).generatedId i ∉
        (fetchWithRetry (envOf (.responded response500)) CONFIG.API.NORMAL_MODE noOptions 2
          { ApiState.init with abortControllers := ["other"] }).2.abortControllers) := by
  have h := fetchWithRetry_registry (envOf (.responded response500)) CONFIG.API.NORMAL_MODE
    noOptions 2 { ApiState.init with abortControllers := ["other"] }
  have hrun : (fetchWithRetry (envOf (.responded response500)) CONFIG.API.NORMAL_MODE noOptions 2
      { ApiState.init with abortControllers := ["other"] }).2.idCalls = 3 ∧
      (fetchWithRetry (envOf (.responded response500)) CONFIG.API.NORMAL_MODE noOptions 2
      { ApiState.init with abortControllers := ["other"] }).2.abortControllers = ["other"] := by
    have he : ∀ k, retriedError ((envOf (.responded response500)).fetchOutcome k) =
        some (JsError.ofMessage "HTTP 500: Internal Server Error") := by
      intro k; rfl
    rw [fetchWithRetry_retry _ _ _ _ _ _ (he _) (by decide),
      fetchWithRetry_retry _ _ _ _ _ _ (he _) (by decide),
      fetchWithRetry_last _ _ _ _ _ _ (he _) (by decide)]
    exact ⟨rfl, by decide⟩
  exact ⟨hrun.1, hrun.2, h.2.1⟩

end APIManager

end DictaMed
